import Mathlib

/-!
# DeviceManager.cpp: device definitions, validation, install and uninstall

A shallow embedding of `src/DeviceManager.cpp` and theorems about it.

The file under study includes headers that are not part of the sources
(`DeviceManager.h`, `EepromFormat.h`, `TempControl.h`, ...).  What the code takes
from them (enumerator values, limits, the taxonomy tables, the board layout) is
collected in the structure `Header` and every definition below takes it as a
parameter.  `brewpi` is one concrete header, used to evaluate the definitions.

Conventions of the embedding:
* `uint8_t` values are `Nat`, `int8_t` values are `Int`; a conversion between
  integer types that can change the value is written out (`toInt8`, `toUInt8`,
  `% 256`).
* a C string is a `List Char`.
* pointers are values of `Ptr`; the heap is explicit state (`Heap`).
* an operation whose C++ behaviour is undefined on some state (deleting a
  static object, deleting twice, calling a method through a null pointer,
  reading a cell through a pointer of the wrong class) returns `none` there.
-/

namespace DeviceManager

/-! ## Integer conversions -/

/-- Conversion of an integer to `int8_t` (two's complement wrap-around). -/
def toInt8 (n : Int) : Int := (n + 128) % 256 - 128

/-- Conversion of an integer to `uint8_t`. -/
def toUInt8 (n : Int) : Nat := (n % 256).toNat

/-! ## Declarations taken from the headers -/

/-- The enum `DeviceType`: the coarse category of a device function. -/
inductive DeviceType where
  | DEVICETYPE_NONE
  | DEVICETYPE_TEMP_SENSOR
  | DEVICETYPE_SWITCH_SENSOR
  | DEVICETYPE_SWITCH_ACTUATOR
  deriving DecidableEq, Repr

/-- The enum `DeviceOwner`: the owner scope of a device function. -/
inductive DeviceOwner where
  | DEVICE_OWNER_NONE
  | DEVICE_OWNER_CHAMBER
  | DEVICE_OWNER_BEER
  deriving DecidableEq, Repr

/-- The board layout selected by `BREWPI_STATIC_CONFIG`, with the pin constants
the selected branch of the source uses. -/
inductive StaticConfig where
  | BREWPI_SHIELD_REV_A (beerSensorPin fridgeSensorPin : Nat)
  | BREWPI_SHIELD_REV_C (oneWirePin : Nat)
  | other
  deriving DecidableEq, Repr

/-- What `DeviceManager.cpp` uses from headers that are not among the sources:
the values of the enumerators it names, the limits, the taxonomy functions, the
compile-time switches and the string conversion used for calibration values. -/
structure Header where
  /-- enumerators of `DeviceFunction` named in the source -/
  DEVICE_NONE : Nat
  DEVICE_CHAMBER_DOOR : Nat
  DEVICE_CHAMBER_HEAT : Nat
  DEVICE_CHAMBER_COOL : Nat
  DEVICE_CHAMBER_LIGHT : Nat
  DEVICE_CHAMBER_TEMP : Nat
  DEVICE_CHAMBER_ROOM_TEMP : Nat
  DEVICE_BEER_TEMP : Nat
  DEVICE_MAX : Nat
  /-- enumerators of `DeviceHardware` -/
  DEVICE_HARDWARE_NONE : Nat
  DEVICE_HARDWARE_PIN : Nat
  DEVICE_HARDWARE_ONEWIRE_TEMP : Nat
  DEVICE_HARDWARE_ONEWIRE_2413 : Nat
  /-- the compile-time switch `BREWPI_DS2413` -/
  BREWPI_DS2413 : Bool
  /-- `EepromFormat::MAX_CHAMBERS`, `ChamberBlock::MAX_BEERS`, `MAX_DEVICE_SLOT` -/
  MAX_CHAMBERS : Nat
  MAX_BEERS : Nat
  MAX_DEVICE_SLOT : Nat
  /-- the taxonomy functions -/
  deviceType : Nat → DeviceType
  deviceOwner : Nat → DeviceOwner
  isAssignable : DeviceType → Nat → Bool
  isOneWire : Nat → Bool
  /-- `BREWPI_STATIC_CONFIG` -/
  staticConfig : StaticConfig
  /-- `stringToTempDiff`, the fixed-point reading of a decimal string -/
  stringToTempDiff : List Char → Int
  /-- the classification predicate `isDigitalPin` -/
  isDigitalPin : Nat → Bool
  /-- `INVALID_SLOT` and the predicate `isDefinedSlot` on slot ids -/
  INVALID_SLOT : Int
  isDefinedSlot : Int → Bool
  /-- the OneWire family codes `DS2413_FAMILY_ID` and `DS18B20MODEL` -/
  DS2413_FAMILY_ID : Nat
  DS18B20MODEL : Nat
  /-- the pins that `enumerateActuatorPins`, `enumerateSensorPins` and
  `enumOneWirePins` return for the counts 0, 1, ... before their first negative
  result -/
  actuatorPins : List Nat
  sensorPins : List Nat
  oneWirePins : List Nat
  /-- the values of the enumerators of `DeviceType` -/
  deviceTypeValue : DeviceType → Int
  /-- `tempDiffToString`, the decimal text of a fixed-point difference -/
  tempDiffToString : Int → List Char

/-- The limits and `DEVICE_MAX - 1` are representable as `int8_t`, the type of
the parameter `max` of `inRangeUInt8` they are passed to. -/
def Header.Limits (H : Header) : Prop :=
  H.MAX_CHAMBERS ≤ 127 ∧ H.MAX_BEERS ≤ 127 ∧ H.DEVICE_MAX ≤ 128

instance (H : Header) : Decidable H.Limits := by
  unfold Header.Limits; infer_instance

/-! ## Device configuration records -/

/-- The type `DeviceAddress`: the bytes of a OneWire address, index 0 first. -/
abbrev DeviceAddress := List Nat

/-- The struct `DeviceConfig::Hardware`.  `calibration` is the byte of the
union of `int8_t calibration` and `uint8_t pio`, held as its `int8_t` value. -/
structure Hardware where
  pinNr : Nat
  invert : Bool
  deactivate : Bool
  address : DeviceAddress
  calibration : Int
  deriving DecidableEq, Repr

/-- The other member of the union: the byte of `calibration` read as `uint8_t`. -/
def Hardware.pio (hw : Hardware) : Nat := toUInt8 hw.calibration

/-- The struct `DeviceConfig`, one record of the slot table. -/
structure DeviceConfig where
  chamber : Nat
  beer : Nat
  deviceFunction : Nat
  deviceHardware : Nat
  hw : Hardware
  deriving DecidableEq, Repr

/-! ## OneWire buses -/

/-- The static `OneWire` bus objects of `DeviceManager`. -/
inductive OneWire where
  | beerSensorBus
  | fridgeSensorBus
  | primaryOneWireBus
  deriving DecidableEq, Repr

/-- The function `DeviceManager::oneWireBus`; `none` is `NULL`. -/
def oneWireBus (H : Header) (pin : Nat) : Option OneWire :=
  match H.staticConfig with
  | .BREWPI_SHIELD_REV_A beerSensorPin fridgeSensorPin =>
    if pin = beerSensorPin then some .beerSensorBus
    else if pin = fridgeSensorPin then some .fridgeSensorBus
    else none
  | .BREWPI_SHIELD_REV_C oneWirePin =>
    if pin = oneWirePin then some .primaryOneWireBus
    else none
  | .other => none

/-! ## Validation -/

/-- The function `inRangeUInt8(uint8_t val, uint8_t min, int8_t max)`. -/
def inRangeUInt8 (val min : Nat) (max : Int) : Bool :=
  decide (min ≤ val) && decide ((val : Int) ≤ max)

/-- The function `inRangeInt8(int8_t val, int8_t min, int8_t max)`. -/
def inRangeInt8 (val min max : Int) : Bool :=
  decide (min ≤ val) && decide (val ≤ max)

/-- The function `DeviceManager::isDeviceValid`.  The arguments are converted
to the parameter types of `inRangeUInt8` where the types differ. -/
def isDeviceValid (H : Header) (config original : DeviceConfig) (deviceIndex : Nat) : Bool :=
  if !inRangeUInt8 config.chamber 0 (toInt8 H.MAX_CHAMBERS) then false
  else if !inRangeUInt8 config.beer 0 (toInt8 H.MAX_BEERS) then false
  else if !inRangeUInt8 (config.deviceFunction % 256) 0 (toInt8 ((H.DEVICE_MAX : Int) - 1)) then false
  else
    let owner := H.deviceOwner config.deviceFunction
    if !((owner == .DEVICE_OWNER_BEER && config.beer != 0)
        || (owner == .DEVICE_OWNER_CHAMBER && config.chamber != 0)
        || (owner == .DEVICE_OWNER_NONE && config.beer == 0 && config.chamber == 0)) then false
    else
      let dt := H.deviceType config.deviceFunction
      if !H.isAssignable dt config.deviceHardware then false
      else if H.isOneWire config.deviceHardware then
        if (oneWireBus H config.hw.pinNr).isNone then false
        else true
      else true

/-- The owner-scope condition of the validator, as the specification words it:
owner beer needs a beer, owner chamber needs a chamber, owner none needs
neither. -/
def ownerScopeOk (H : Header) (config : DeviceConfig) : Prop :=
  (H.deviceOwner config.deviceFunction = .DEVICE_OWNER_BEER ∧ config.beer ≠ 0)
  ∨ (H.deviceOwner config.deviceFunction = .DEVICE_OWNER_CHAMBER ∧ config.chamber ≠ 0)
  ∨ (H.deviceOwner config.deviceFunction = .DEVICE_OWNER_NONE ∧ config.beer = 0 ∧ config.chamber = 0)

/-! ## Pointers, device instances and the heap -/

/-- A pointer value: `NULL`, the address of one of the three static default
objects (`defaultSensor`, `defaultActuator`, `defaultTempSensor`), or the
address of a heap object, identified by a number. -/
inductive Ptr where
  | null
  | defaultSensor
  | defaultActuator
  | defaultTempSensor
  | heap (n : Nat)
  deriving DecidableEq, Repr

/-- The objects `createDevice` constructs, with their constructor arguments. -/
inductive Device where
  | DigitalPinSensor (pinNr : Nat) (invert : Bool)
  | DigitalPinActuator (pinNr : Nat) (invert : Bool)
  | OneWireTempSensor (bus : Option OneWire) (address : DeviceAddress) (calibration : Int)
  | OneWireActuator (bus : Option OneWire) (address : DeviceAddress) (pio : Nat) (invert : Bool)
  deriving DecidableEq, Repr

/-- The heap: the live objects made by `new`, the number the next object gets,
how many further objects fit (`new` yields `NULL` when none does), and the log
of the heap objects passed to `delete`, latest first. -/
structure Heap where
  objects : List (Nat × Device)
  next : Nat
  room : Nat
  released : List Nat
  deriving DecidableEq, Repr

/-- Whether heap object `n` is live. -/
def Heap.live (h : Heap) (n : Nat) : Bool := (h.objects.lookup n).isSome

/-- The expression `new D(...)`: `NULL` when the heap is full, else a pointer
to a fresh object. -/
def Heap.new (h : Heap) (d : Device) : Ptr × Heap :=
  if h.room = 0 then (.null, h)
  else (.heap h.next,
    { h with objects := (h.next, d) :: h.objects, next := h.next + 1, room := h.room - 1 })

/-- The expression `delete p`: nothing for `NULL`, releases a live heap object,
and is undefined (`none`) for a static object or an object already released. -/
def Heap.delete (h : Heap) (p : Ptr) : Option Heap :=
  match p with
  | .null => some h
  | .heap n =>
    if h.live n then
      some { h with objects := h.objects.filter (fun o => o.1 != n),
                    room := h.room + 1, released := n :: h.released }
    else none
  | _ => none

/-- The function `DeviceManager::createDevice`: the pointer returned and the
heap after the call. -/
def createDevice (H : Header) (config : DeviceConfig) (dt : DeviceType) (h : Heap) : Ptr × Heap :=
  if config.deviceHardware = H.DEVICE_HARDWARE_NONE then (.null, h)
  else if config.deviceHardware = H.DEVICE_HARDWARE_PIN then
    if dt = .DEVICETYPE_SWITCH_SENSOR then
      h.new (.DigitalPinSensor config.hw.pinNr config.hw.invert)
    else
      h.new (.DigitalPinActuator config.hw.pinNr config.hw.invert)
  else if config.deviceHardware = H.DEVICE_HARDWARE_ONEWIRE_TEMP then
    h.new (.OneWireTempSensor (oneWireBus H config.hw.pinNr) config.hw.address config.hw.calibration)
  else if H.BREWPI_DS2413 && config.deviceHardware == H.DEVICE_HARDWARE_ONEWIRE_2413 then
    h.new (.OneWireActuator (oneWireBus H config.hw.pinNr) config.hw.address config.hw.pio
      config.hw.invert)
  else (.null, h)

/-! ## The control-loop bindings -/

/-- The seven members of `tempControl` that `deviceTarget` can return the
address of. -/
inductive Target where
  | ambientSensor
  | door
  | light
  | heater
  | cooler
  | fridgeSensor
  | beerSensor
  deriving DecidableEq, Repr

/-- What a member of `tempControl` points at: a device object, or (for
`fridgeSensor` and `beerSensor`) a `TempSensor` adapter, given by the inner
sensor pointer the adapter holds. -/
inductive Cell where
  | device (p : Ptr)
  | tempSensor (sensor : Ptr)
  deriving DecidableEq, Repr

/-- The members of `tempControl` the device manager rewrites. -/
structure TempControl where
  ambientSensor : Cell
  door : Cell
  light : Cell
  heater : Cell
  cooler : Cell
  fridgeSensor : Cell
  beerSensor : Cell
  deriving DecidableEq, Repr

/-- Reading through a target: `*ppv`. -/
def TempControl.get (tc : TempControl) : Target → Cell
  | .ambientSensor => tc.ambientSensor
  | .door => tc.door
  | .light => tc.light
  | .heater => tc.heater
  | .cooler => tc.cooler
  | .fridgeSensor => tc.fridgeSensor
  | .beerSensor => tc.beerSensor

/-- Writing through a target: `*ppv = c`. -/
def TempControl.set (tc : TempControl) (t : Target) (c : Cell) : TempControl :=
  match t with
  | .ambientSensor => { tc with ambientSensor := c }
  | .door => { tc with door := c }
  | .light => { tc with light := c }
  | .heater => { tc with heater := c }
  | .cooler => { tc with cooler := c }
  | .fridgeSensor => { tc with fridgeSensor := c }
  | .beerSensor => { tc with beerSensor := c }

/-- Modelled from the spec: the slot table owned by the persistence collaborator
`eepromManager`, which is not among the sources: a bounded ordered sequence
of `DeviceConfig` records identified by 0-based index. -/
abbrev SlotTable := List DeviceConfig

/-- The state the device manager works on: the bindings, the heap, and the
slot table. -/
structure State where
  tempControl : TempControl
  heap : Heap
  eeprom : SlotTable
  deriving DecidableEq, Repr

/-- Modelled from the spec: `eepromManager.fetchDevice(config, index)`, not
among the sources; `none` is the failure result, which leaves `config` as it
was. -/
def fetchDevice (st : State) (deviceIndex : Nat) : Option DeviceConfig :=
  st.eeprom[deviceIndex]?

/-- Modelled from the spec: `eepromManager.storeDevice(config, index)`, not
among the sources; an index outside the table stores nothing. -/
def storeDevice (st : State) (config : DeviceConfig) (deviceIndex : Nat) : State :=
  { st with eeprom := st.eeprom.set deviceIndex config }

/-! ## Target resolution, uninstall and install -/

/-- The function `deviceTarget`; `none` is `NULL`.  The `switch` is a chain of
comparisons with the case labels in source order. -/
def deviceTarget (H : Header) (config : DeviceConfig) : Option Target :=
  if config.chamber > 1 || config.beer > 1 then none
  else if config.deviceFunction = H.DEVICE_CHAMBER_ROOM_TEMP then some .ambientSensor
  else if config.deviceFunction = H.DEVICE_CHAMBER_DOOR then some .door
  else if config.deviceFunction = H.DEVICE_CHAMBER_LIGHT then some .light
  else if config.deviceFunction = H.DEVICE_CHAMBER_HEAT then some .heater
  else if config.deviceFunction = H.DEVICE_CHAMBER_COOL then some .cooler
  else if config.deviceFunction = H.DEVICE_CHAMBER_TEMP then some .fridgeSensor
  else if config.deviceFunction = H.DEVICE_BEER_TEMP then some .beerSensor
  else none

/-- The function `isBasicSensor`. -/
def isBasicSensor (H : Header) (function : Nat) : Bool :=
  function == H.DEVICE_CHAMBER_ROOM_TEMP

/-- The function `unwrapSensor`: the cell content read as a `BasicTempSensor*`
for a basic function, else as a `TempSensor*` whose `sensor()` is returned.
Reading a cell as the class it does not hold is undefined. -/
def unwrapSensor (H : Header) (f : Nat) (pv : Cell) : Option Ptr :=
  if isBasicSensor H f then
    match pv with
    | .device p => some p
    | .tempSensor _ => none
  else
    match pv with
    | .tempSensor sensor => some sensor
    | .device _ => none

/-- The function `setSensor`: `*ppv = sensor` for a basic function, else
`((TempSensor*)*ppv)->setSensor(sensor)`. -/
def setSensor (H : Header) (f : Nat) (ppv : Target) (sensor : Ptr) (tc : TempControl) :
    Option TempControl :=
  if isBasicSensor H f then some (tc.set ppv (.device sensor))
  else
    match tc.get ppv with
    | .tempSensor _ => some (tc.set ppv (.tempSensor sensor))
    | .device _ => none

/-- The function `DeviceManager::uninstallDevice`. -/
def uninstallDevice (H : Header) (config : DeviceConfig) (st : State) : Option State :=
  let dt := H.deviceType config.deviceFunction
  match deviceTarget H config with
  | none => some st
  | some ppv =>
    match dt with
    | .DEVICETYPE_NONE => some st
    | .DEVICETYPE_TEMP_SENSOR =>
      match unwrapSensor H config.deviceFunction (st.tempControl.get ppv) with
      | none => none
      | some s =>
        if s ≠ .defaultTempSensor then
          match setSensor H config.deviceFunction ppv .defaultTempSensor st.tempControl with
          | none => none
          | some tc =>
            match st.heap.delete s with
            | none => none
            | some h => some { st with tempControl := tc, heap := h }
        else some st
    | .DEVICETYPE_SWITCH_ACTUATOR =>
      match st.tempControl.get ppv with
      | .tempSensor _ => none
      | .device p =>
        if p ≠ .defaultActuator then
          match st.heap.delete p with
          | none => none
          | some h =>
            some { st with tempControl := st.tempControl.set ppv (.device .defaultActuator),
                           heap := h }
        else some st
    | .DEVICETYPE_SWITCH_SENSOR =>
      match st.tempControl.get ppv with
      | .tempSensor _ => none
      | .device p =>
        if p ≠ .defaultSensor then
          match st.heap.delete p with
          | none => none
          | some h =>
            some { st with tempControl := st.tempControl.set ppv (.device .defaultSensor),
                           heap := h }
        else some st

/-- The function `DeviceManager::installDevice`.  The `init()` calls act on the
sensor objects only; `s->init()` through a null `s` is undefined. -/
def installDevice (H : Header) (config : DeviceConfig) (st : State) : Option State :=
  let dt := H.deviceType config.deviceFunction
  match deviceTarget H config with
  | none => some st
  | some ppv =>
    if config.hw.deactivate then some st
    else
      match dt with
      | .DEVICETYPE_NONE => some st
      | .DEVICETYPE_TEMP_SENSOR =>
        let s := createDevice H config dt st.heap
        if isBasicSensor H config.deviceFunction then
          if s.1 = .null then none
          else some { st with tempControl := st.tempControl.set ppv (.device s.1), heap := s.2 }
        else
          match st.tempControl.get ppv with
          | .tempSensor _ =>
            some { st with tempControl := st.tempControl.set ppv (.tempSensor s.1), heap := s.2 }
          | .device _ => none
      | .DEVICETYPE_SWITCH_ACTUATOR =>
        let p := createDevice H config dt st.heap
        some { st with tempControl := st.tempControl.set ppv (.device p.1), heap := p.2 }
      | .DEVICETYPE_SWITCH_SENSOR =>
        let p := createDevice H config dt st.heap
        some { st with tempControl := st.tempControl.set ppv (.device p.1), heap := p.2 }

/-! ## Device definitions (patches) -/

/-- The struct `DeviceDefinition`: ten `int8_t` members and the address. -/
structure DeviceDefinition where
  id : Int
  chamber : Int
  beer : Int
  deviceFunction : Int
  deviceHardware : Int
  pinNr : Int
  invert : Int
  pio : Int
  deactivate : Int
  calibrationAdjust : Int
  address : DeviceAddress
  deriving DecidableEq, Repr

/-- The constant `DeviceDefinition::ORDER`. -/
def DeviceDefinition.ORDER : List Char := "icbfhpxndja".toList

/-- The constant `DEVICE_ATTRIB_ADDRESS`. -/
def DEVICE_ATTRIB_ADDRESS : Char := 'a'

/-- The constant `DEVICE_ATTRIB_CALIBRATEADJUST`. -/
def DEVICE_ATTRIB_CALIBRATEADJUST : Char := 'j'

/-- The loop of `indexOf`, `idx` being the index of the head of `s`. -/
def indexOfFrom (c : Char) : List Char → Int → Int
  | [], _ => -1
  | c2 :: s, idx => if c = c2 then idx else indexOfFrom c s (idx + 1)

/-- The function `indexOf`. -/
def indexOf (s : List Char) (c : Char) : Int := indexOfFrom c s 0

/-- The digits read by `atol`, most significant first. -/
def atolDigits (acc : Int) : List Char → Int
  | [] => acc
  | c :: s =>
    if 48 ≤ c.toNat ∧ c.toNat ≤ 57 then atolDigits (acc * 10 + ((c.toNat : Int) - 48)) s
    else acc

/-- The C library function `atol`: leading white space, an optional sign,
then decimal digits. -/
def atol (s : List Char) : Int :=
  match s.dropWhile (fun c => c.toNat = 32 ∨ (9 ≤ c.toNat ∧ c.toNat ≤ 13)) with
  | '-' :: r => - atolDigits 0 r
  | '+' :: r => atolDigits 0 r
  | r => atolDigits 0 r

/-- The value `(c>='A' ? c-'A'+10 : c-'0')` of `parseBytes`, in `int`. -/
def hexDigit (c : Char) : Int :=
  if 65 ≤ toInt8 c.toNat then toInt8 c.toNat - 65 + 10 else toInt8 c.toNat - 48

/-- The function `parseBytes`: the bytes it writes to `data[0]`, `data[1]`, ...
The parameter `len` is not used by the source.  On a string of odd length the
loop reads past the terminator, which is undefined. -/
def parseBytes : List Char → Option (List Nat)
  | [] => some []
  | [_] => none
  | c1 :: c2 :: s =>
    match parseBytes s with
    | none => none
    | some bytes => some ((toUInt8 (hexDigit c1 * 16) ||| toUInt8 (hexDigit c2)) :: bytes)

/-- The assignment `((uint8_t*)def)[idx] = v`: the member at byte offset `idx`. -/
def DeviceDefinition.setByte (dev : DeviceDefinition) (idx v : Nat) : DeviceDefinition :=
  match idx with
  | 0 => { dev with id := toInt8 v }
  | 1 => { dev with chamber := toInt8 v }
  | 2 => { dev with beer := toInt8 v }
  | 3 => { dev with deviceFunction := toInt8 v }
  | 4 => { dev with deviceHardware := toInt8 v }
  | 5 => { dev with pinNr := toInt8 v }
  | 6 => { dev with invert := toInt8 v }
  | 7 => { dev with pio := toInt8 v }
  | 8 => { dev with deactivate := toInt8 v }
  | 9 => { dev with calibrationAdjust := toInt8 v }
  | n + 10 => { dev with address := dev.address.set n v }

/-- The function `handleDeviceDefinition`.  Bytes written past the eight of
`address`, the last member, are outside the object: undefined. -/
def handleDeviceDefinition (H : Header) (key val : List Char) (dev : DeviceDefinition) :
    Option DeviceDefinition :=
  let k := key.headD (Char.ofNat 0)
  let idx := indexOf DeviceDefinition.ORDER k
  if k = DEVICE_ATTRIB_ADDRESS then
    match parseBytes val with
    | none => none
    | some bytes =>
      if bytes.length ≤ 8 then some { dev with address := bytes ++ dev.address.drop bytes.length }
      else none
  else if k = DEVICE_ATTRIB_CALIBRATEADJUST then
    some { dev with calibrationAdjust := toInt8 (H.stringToTempDiff val / 32) }
  else if idx ≥ 0 then some (dev.setByte idx.toNat (toUInt8 (atol val)))
  else some dev

/-- Modelled from the spec: the helper `fill`, not among the sources, sets every
byte of the patch to the sentinel: each numeric member reads -1 and the
address is all ones. -/
def fill : DeviceDefinition :=
  { id := -1, chamber := -1, beer := -1, deviceFunction := -1, deviceHardware := -1,
    pinNr := -1, invert := -1, pio := -1, deactivate := -1, calibrationAdjust := -1,
    address := List.replicate 8 255 }

/-- Modelled from the spec: the helper `clear`, not among the sources, resets the
whole record: every member is zero. -/
def clear : DeviceConfig :=
  { chamber := 0, beer := 0, deviceFunction := 0, deviceHardware := 0,
    hw := { pinNr := 0, invert := false, deactivate := false,
            address := List.replicate 8 0, calibration := 0 } }

/-- Modelled from the spec: `piLink.parseJson`, the request parser, not among the
sources: it hands each key/value pair of the request to the handler, in order. -/
def parseJson {α : Type} (handler : List Char → List Char → α → Option α)
    (request : List (List Char × List Char)) (pv : α) : Option α :=
  request.foldlM (fun acc kv => handler kv.1 kv.2 acc) pv

/-! ## The definition update -/

/-- Lines 421 to 449 of `parseDeviceDefinition`: `target` starts as a copy of
`original` and takes every member of the patch that is not at its sentinel. -/
def patchFields (dev : DeviceDefinition) (original : DeviceConfig) : DeviceConfig :=
  let target := original
  let target := if dev.chamber ≥ 0 then { target with chamber := toUInt8 dev.chamber } else target
  let target := if dev.beer ≥ 0 then { target with beer := toUInt8 dev.beer } else target
  let target :=
    if dev.deviceFunction ≥ 0 then { target with deviceFunction := dev.deviceFunction.toNat }
    else target
  let target :=
    if dev.deviceHardware ≥ 0 then { target with deviceHardware := dev.deviceHardware.toNat }
    else target
  let target :=
    if dev.pinNr ≥ 0 then { target with hw := { target.hw with pinNr := toUInt8 dev.pinNr } }
    else target
  let target :=
    if dev.calibrationAdjust ≠ -1 then
      { target with hw := { target.hw with calibration := dev.calibrationAdjust } }
    else target
  let target :=
    if dev.invert ≥ 0 then { target with hw := { target.hw with invert := decide (dev.invert ≠ 0) } }
    else target
  let target :=
    if dev.address.headD 0 ≠ 255 then
      { target with hw := { target.hw with address := dev.address.take 8 } }
    else target
  let target :=
    if dev.deactivate ≥ 0 then
      { target with hw := { target.hw with deactivate := decide (dev.deactivate ≠ 0) } }
    else target
  target

/-- Lines 421 to 454 of `parseDeviceDefinition`: the patched record, cleared
when its function is `DEVICE_NONE`.  This is the record handed to
`isDeviceValid`. -/
def mergeDefinition (H : Header) (dev : DeviceDefinition) (original : DeviceConfig) :
    DeviceConfig :=
  let target := patchFields dev original
  if target.deviceFunction = H.DEVICE_NONE then clear else target

/-- The outcome of one update request: the state after it and the arguments of
the final `printDevice` call (slot and record), if that call is reached. -/
structure Outcome where
  state : State
  printed : Option (Int × DeviceConfig)
  deriving DecidableEq, Repr

/-- The local `original` after `eepromManager.fetchDevice(original, dev.id)`:
the record of the slot, or, when the fetch fails, `uninit`, the content the
local had before the call. -/
def fetchOriginal (st : State) (dev : DeviceDefinition) (uninit : DeviceConfig) : DeviceConfig :=
  (fetchDevice st (toUInt8 dev.id)).getD uninit

/-- The local `target` at the call of `isDeviceValid`: the merge of the patch
onto `original`. -/
def mergedTarget (H : Header) (st : State) (dev : DeviceDefinition) (uninit : DeviceConfig) :
    DeviceConfig :=
  mergeDefinition H dev (fetchOriginal st dev uninit)

/-- Lines 412 to 472 of `parseDeviceDefinition`: what is done with the parsed
patch `dev`. -/
def updateDevice (H : Header) (dev : DeviceDefinition) (uninit : DeviceConfig) (st : State) :
    Option Outcome :=
  if !inRangeInt8 dev.id 0 (toInt8 H.MAX_DEVICE_SLOT) then some { state := st, printed := none }
  else
    let original := fetchOriginal st dev uninit
    let target := mergedTarget H st dev uninit
    let valid := isDeviceValid H target original (toUInt8 dev.id)
    if valid then
      match uninstallDevice H original st with
      | none => none
      | some st1 =>
        match uninstallDevice H target st1 with
        | none => none
        | some st2 =>
          match installDevice H target st2 with
          | none => none
          | some st3 =>
            some { state := storeDevice st3 target (toUInt8 dev.id),
                   printed := some (dev.id, target) }
    else some { state := st, printed := some (dev.id, original) }

/-- The function `DeviceManager::parseDeviceDefinition`: the request is parsed
into a patch that starts at the sentinel, then applied. -/
def parseDeviceDefinition (H : Header) (request : List (List Char × List Char))
    (uninit : DeviceConfig) (st : State) : Option Outcome :=
  match parseJson (handleDeviceDefinition H) request fill with
  | none => none
  | some dev => updateDevice H dev uninit st

/-! ## A concrete header and concrete states -/

/-- A concrete header for evaluating the definitions: sixteen device functions
of which seven are wired to the control loop, four hardware kinds, a revision C
shield with its OneWire bus on pin 4, and sixteen slots. -/
def brewpi : Header :=
  { DEVICE_NONE := 0, DEVICE_CHAMBER_DOOR := 1, DEVICE_CHAMBER_HEAT := 2,
    DEVICE_CHAMBER_COOL := 3, DEVICE_CHAMBER_LIGHT := 4, DEVICE_CHAMBER_TEMP := 5,
    DEVICE_CHAMBER_ROOM_TEMP := 6, DEVICE_BEER_TEMP := 9, DEVICE_MAX := 16,
    DEVICE_HARDWARE_NONE := 0, DEVICE_HARDWARE_PIN := 1, DEVICE_HARDWARE_ONEWIRE_TEMP := 2,
    DEVICE_HARDWARE_ONEWIRE_2413 := 3,
    BREWPI_DS2413 := true,
    MAX_CHAMBERS := 1, MAX_BEERS := 6, MAX_DEVICE_SLOT := 16,
    deviceType := fun f =>
      if f = 1 then .DEVICETYPE_SWITCH_SENSOR
      else if f = 2 ∨ f = 3 ∨ f = 4 ∨ f = 7 ∨ f = 11 ∨ f = 12 then .DEVICETYPE_SWITCH_ACTUATOR
      else if f = 5 ∨ f = 6 ∨ f = 9 ∨ f = 10 then .DEVICETYPE_TEMP_SENSOR
      else .DEVICETYPE_NONE,
    deviceOwner := fun f =>
      if f = 0 then .DEVICE_OWNER_NONE
      else if f ≥ 9 then .DEVICE_OWNER_BEER
      else .DEVICE_OWNER_CHAMBER,
    isAssignable := fun dt hw =>
      (hw == 1 && (dt == .DEVICETYPE_SWITCH_ACTUATOR || dt == .DEVICETYPE_SWITCH_SENSOR))
      || (hw == 3 && dt == .DEVICETYPE_SWITCH_ACTUATOR)
      || (hw == 2 && dt == .DEVICETYPE_TEMP_SENSOR)
      || (hw == 0 && dt == .DEVICETYPE_NONE),
    isOneWire := fun hw => hw == 3 || hw == 2,
    staticConfig := .BREWPI_SHIELD_REV_C 4,
    stringToTempDiff := fun s => atol s * 512,
    isDigitalPin := fun hw => hw == 1,
    INVALID_SLOT := -1,
    isDefinedSlot := fun s => decide (0 ≤ s),
    DS2413_FAMILY_ID := 0x3A,
    DS18B20MODEL := 0x28,
    actuatorPins := [5, 6],
    sensorPins := [7],
    oneWirePins := [4],
    deviceTypeValue := fun dt =>
      match dt with
      | .DEVICETYPE_NONE => 0
      | .DEVICETYPE_TEMP_SENSOR => 1
      | .DEVICETYPE_SWITCH_SENSOR => 2
      | .DEVICETYPE_SWITCH_ACTUATOR => 3,
    tempDiffToString := fun v =>
      (if v < 0 then ['-'] else []) ++ (Nat.repr (v.natAbs / 512)).toList }

/-- The function `DeviceManager::setupUnconfiguredDevices`; `cfg` is the local
record, of which only `chamber`, `beer` and `deviceFunction` are assigned. -/
def setupUnconfiguredDevices (H : Header) (cfg : DeviceConfig) (st : State) : Option State :=
  (List.range H.DEVICE_MAX).foldlM
    (fun acc i => uninstallDevice H { cfg with chamber := 1, beer := 1, deviceFunction := i } acc)
    st

/-- One call of a device manager operation. -/
inductive Op where
  | setupUnconfiguredDevices (cfg : DeviceConfig)
  | uninstallDevice (config : DeviceConfig)
  | installDevice (config : DeviceConfig)
  | parseDeviceDefinition (request : List (List Char × List Char)) (uninit : DeviceConfig)

/-- The state after one operation. -/
def Op.run (H : Header) (op : Op) (st : State) : Option State :=
  match op with
  | .setupUnconfiguredDevices cfg => DeviceManager.setupUnconfiguredDevices H cfg st
  | .uninstallDevice config => DeviceManager.uninstallDevice H config st
  | .installDevice config => DeviceManager.installDevice H config st
  | .parseDeviceDefinition request uninit =>
    (DeviceManager.parseDeviceDefinition H request uninit st).map Outcome.state

/-- The state after a sequence of operations, first to last. -/
def runAll (H : Header) (ops : List Op) (st : State) : Option State :=
  ops.foldlM (fun acc op => op.run H acc) st

/-! ## Well-formed headers and binding states -/

/-- The header agrees with the source on the seven wired functions: they are
the labels of one `switch`, so pairwise distinct, and their device types are
those of the members they are bound to (`ambientSensor`, `fridgeSensor` and
`beerSensor` hold temperature sensors, `door` a switch sensor, `light`, `heater`
and `cooler` actuators). -/
def Header.Wired (H : Header) : Prop :=
  [H.DEVICE_CHAMBER_ROOM_TEMP, H.DEVICE_CHAMBER_DOOR, H.DEVICE_CHAMBER_LIGHT,
    H.DEVICE_CHAMBER_HEAT, H.DEVICE_CHAMBER_COOL, H.DEVICE_CHAMBER_TEMP,
    H.DEVICE_BEER_TEMP].Nodup
  ∧ H.deviceType H.DEVICE_CHAMBER_ROOM_TEMP = .DEVICETYPE_TEMP_SENSOR
  ∧ H.deviceType H.DEVICE_CHAMBER_DOOR = .DEVICETYPE_SWITCH_SENSOR
  ∧ H.deviceType H.DEVICE_CHAMBER_LIGHT = .DEVICETYPE_SWITCH_ACTUATOR
  ∧ H.deviceType H.DEVICE_CHAMBER_HEAT = .DEVICETYPE_SWITCH_ACTUATOR
  ∧ H.deviceType H.DEVICE_CHAMBER_COOL = .DEVICETYPE_SWITCH_ACTUATOR
  ∧ H.deviceType H.DEVICE_CHAMBER_TEMP = .DEVICETYPE_TEMP_SENSOR
  ∧ H.deviceType H.DEVICE_BEER_TEMP = .DEVICETYPE_TEMP_SENSOR

instance (H : Header) : Decidable H.Wired := by
  unfold Header.Wired; infer_instance

/-- The device type of the instance a target holds. -/
def Target.type : Target → DeviceType
  | .ambientSensor => .DEVICETYPE_TEMP_SENSOR
  | .door => .DEVICETYPE_SWITCH_SENSOR
  | .light => .DEVICETYPE_SWITCH_ACTUATOR
  | .heater => .DEVICETYPE_SWITCH_ACTUATOR
  | .cooler => .DEVICETYPE_SWITCH_ACTUATOR
  | .fridgeSensor => .DEVICETYPE_TEMP_SENSOR
  | .beerSensor => .DEVICETYPE_TEMP_SENSOR

/-- The default instance of a device type: the static object `uninstallDevice`
binds. -/
def defaultOf : DeviceType → Ptr
  | .DEVICETYPE_NONE => .null
  | .DEVICETYPE_TEMP_SENSOR => .defaultTempSensor
  | .DEVICETYPE_SWITCH_SENSOR => .defaultSensor
  | .DEVICETYPE_SWITCH_ACTUATOR => .defaultActuator

/-- The cell of target `t` when the instance bound to it is `p`: the pointer
itself, or for `fridgeSensor` and `beerSensor` the adapter with inner sensor
`p`. -/
def Target.bind (t : Target) (p : Ptr) : Cell :=
  match t with
  | .fridgeSensor => .tempSensor p
  | .beerSensor => .tempSensor p
  | _ => .device p

/-- The cell of target `t` bound to its default instance. -/
def Target.default (t : Target) : Cell := t.bind (defaultOf t.type)

/-- An owned instance: a pointer to a live heap object. -/
def Heap.owns (h : Heap) (p : Ptr) : Bool :=
  match p with
  | .heap n => h.live n
  | _ => false

/-- Target `t` holds its default instance or an owned instance. -/
def State.Holds (st : State) (t : Target) : Prop :=
  st.tempControl.get t = t.default
  ∨ ∃ n, st.tempControl.get t = t.bind (.heap n) ∧ st.heap.live n = true

/-- No heap object is bound to two targets. -/
def State.Exclusive (st : State) : Prop :=
  ∀ t1 t2 n, st.tempControl.get t1 = t1.bind (.heap n) →
    st.tempControl.get t2 = t2.bind (.heap n) → t1 = t2

/-- The heap numbers objects consistently: every live object and every released
object has a number below `next`, and no live object is in the release log. -/
def Heap.Sound (h : Heap) : Prop :=
  (∀ n, h.live n = true → n < h.next ∧ n ∉ h.released)
  ∧ (∀ n, n ∈ h.released → n < h.next)

/-- The binding invariant: every target holds its default instance or an owned
instance, and no owned instance is bound twice. -/
def State.Bound (st : State) : Prop :=
  (∀ t, st.Holds t) ∧ st.Exclusive ∧ st.heap.Sound

/-- Whatever was bound before either is still bound or has been released. -/
def NoLeak (st st1 : State) : Prop :=
  ∀ t n, st.tempControl.get t = t.bind (.heap n) →
    st1.tempControl.get t = t.bind (.heap n) ∨ n ∈ st1.heap.released

/-- The hardware kinds are the labels of one `switch`, so distinct, and the
whitelist `isAssignable` pairs a device type other than none only with one of
the kinds `createDevice` builds an object for. -/
def Header.Kinds (H : Header) : Prop :=
  [H.DEVICE_HARDWARE_NONE, H.DEVICE_HARDWARE_PIN, H.DEVICE_HARDWARE_ONEWIRE_TEMP].Nodup
  ∧ (H.BREWPI_DS2413 = true →
      H.DEVICE_HARDWARE_ONEWIRE_2413 ∉
        [H.DEVICE_HARDWARE_NONE, H.DEVICE_HARDWARE_PIN, H.DEVICE_HARDWARE_ONEWIRE_TEMP])
  ∧ ∀ dt hw, H.isAssignable dt hw = true → dt ≠ .DEVICETYPE_NONE →
      hw = H.DEVICE_HARDWARE_PIN ∨ hw = H.DEVICE_HARDWARE_ONEWIRE_TEMP
        ∨ (H.BREWPI_DS2413 = true ∧ hw = H.DEVICE_HARDWARE_ONEWIRE_2413)

/-- The object `createDevice` constructs for a config of a buildable hardware
kind: the constructor and its arguments. -/
def deviceFor (H : Header) (config : DeviceConfig) (dt : DeviceType) : Device :=
  if config.deviceHardware = H.DEVICE_HARDWARE_PIN then
    if dt = .DEVICETYPE_SWITCH_SENSOR then .DigitalPinSensor config.hw.pinNr config.hw.invert
    else .DigitalPinActuator config.hw.pinNr config.hw.invert
  else if config.deviceHardware = H.DEVICE_HARDWARE_ONEWIRE_TEMP then
    .OneWireTempSensor (oneWireBus H config.hw.pinNr) config.hw.address config.hw.calibration
  else
    .OneWireActuator (oneWireBus H config.hw.pinNr) config.hw.address config.hw.pio
      config.hw.invert

/-- The all-default state: every target bound to its default instance, an empty
heap with room for `room` objects, and the given slot table. -/
def allDefault (room : Nat) (eeprom : SlotTable) : State :=
  { tempControl :=
      { ambientSensor := Target.ambientSensor.default, door := Target.door.default,
        light := Target.light.default, heater := Target.heater.default,
        cooler := Target.cooler.default, fridgeSensor := Target.fridgeSensor.default,
        beerSensor := Target.beerSensor.default },
    heap := { objects := [], next := 0, room := room, released := [] },
    eeprom := eeprom }

/-- A beer temperature sensor on a temperature probe at pin 4, for beer 1. -/
def beerProbe : DeviceConfig :=
  { chamber := 0, beer := 1, deviceFunction := 9, deviceHardware := 2,
    hw := { pinNr := 4, invert := false, deactivate := false,
            address := [0x28, 0xAA, 0xBB, 0xCC, 0xDD, 0xEE, 0xFF, 0x00], calibration := 0 } }

/-- A slot table of sixteen cleared records. -/
def emptySlots : SlotTable := List.replicate 16 clear

/-- The request of the end-to-end scenario: slot 0 becomes the beer temperature
sensor of beer 1 on the probe with the given address on pin 4. -/
def beerProbeRequest : List (List Char × List Char) :=
  [("i".toList, "0".toList), ("b".toList, "1".toList), ("f".toList, "9".toList),
   ("h".toList, "2".toList), ("p".toList, "4".toList),
   ("a".toList, "28AABBCCDDEEFF00".toList)]

/-- The patch `beerProbeRequest` parses to. -/
def beerProbePatch : DeviceDefinition :=
  { fill with id := 0, beer := 1, deviceFunction := 9, deviceHardware := 2, pinNr := 4,
              address := [0x28, 0xAA, 0xBB, 0xCC, 0xDD, 0xEE, 0xFF, 0x00] }

/-- The same request without the beer: the merged record is rejected, since the
function is owned by a beer. -/
def noBeerRequest : List (List Char × List Char) :=
  [("i".toList, "0".toList), ("f".toList, "9".toList), ("h".toList, "2".toList),
   ("p".toList, "4".toList), ("a".toList, "28AABBCCDDEEFF00".toList)]

/-- The patch `noBeerRequest` parses to. -/
def noBeerPatch : DeviceDefinition :=
  { fill with id := 0, deviceFunction := 9, deviceHardware := 2, pinNr := 4,
              address := [0x28, 0xAA, 0xBB, 0xCC, 0xDD, 0xEE, 0xFF, 0x00] }

/-- A chamber heater on digital pin 6. -/
def heaterPin : DeviceConfig :=
  { chamber := 1, beer := 0, deviceFunction := 2, deviceHardware := 1,
    hw := { pinNr := 6, invert := false, deactivate := false,
            address := List.replicate 8 0, calibration := 0 } }

/-- A slot table whose slot 0 holds `heaterPin`, the other fifteen cleared. -/
def heaterSlots : SlotTable := heaterPin :: List.replicate 15 clear

/-- A state in which the heater of slot 0 is installed: `heater` holds heap
object 0, the pin actuator on pin 6. -/
def heaterInstalled : State :=
  { tempControl := { (allDefault 8 heaterSlots).tempControl with heater := .device (.heap 0) },
    heap := { objects := [(0, .DigitalPinActuator 6 false)], next := 1, room := 7,
              released := [] },
    eeprom := heaterSlots }

/-- A request that supplies only the index 0 and the pin 5. -/
def pinOnlyRequest : List (List Char × List Char) :=
  [("i".toList, "0".toList), ("p".toList, "5".toList)]

/-- A request for a heater on channel 1 of a multi-channel io device on the
bus of pin 4. -/
def channelRequest : List (List Char × List Char) :=
  [("i".toList, "0".toList), ("c".toList, "1".toList), ("f".toList, "2".toList),
   ("h".toList, "3".toList), ("p".toList, "4".toList),
   ("a".toList, "3AAABBCCDDEEFF00".toList), ("n".toList, "1".toList)]

/-- A request that sets the function of slot 0 to none and supplies a chamber
and a pin as well. -/
def clearRequest : List (List Char × List Char) :=
  [("i".toList, "0".toList), ("f".toList, "0".toList), ("c".toList, "1".toList),
   ("p".toList, "7".toList)]

/-- A request that makes slot 1 the chamber door switch on digital pin 5. -/
def doorRequest : List (List Char × List Char) :=
  [("i".toList, "1".toList), ("c".toList, "1".toList), ("f".toList, "1".toList),
   ("h".toList, "1".toList), ("p".toList, "5".toList)]

/-- A request that makes slot 0 the chamber heater on digital pin 6. -/
def heaterRequest : List (List Char × List Char) :=
  [("i".toList, "0".toList), ("c".toList, "1".toList), ("f".toList, "2".toList),
   ("h".toList, "1".toList), ("p".toList, "6".toList)]

/-- A request that supplies only the index 0 and the pin 200. -/
def highPinRequest : List (List Char × List Char) :=
  [("i".toList, "0".toList), ("p".toList, "200".toList)]

/-- The device function whose case in `deviceTarget` returns target `t`. -/
def Target.function (H : Header) : Target → Nat
  | .ambientSensor => H.DEVICE_CHAMBER_ROOM_TEMP
  | .door => H.DEVICE_CHAMBER_DOOR
  | .light => H.DEVICE_CHAMBER_LIGHT
  | .heater => H.DEVICE_CHAMBER_HEAT
  | .cooler => H.DEVICE_CHAMBER_COOL
  | .fridgeSensor => H.DEVICE_CHAMBER_TEMP
  | .beerSensor => H.DEVICE_BEER_TEMP

/-- State `st1` arises from `st` by releasing bound instances: `st1` is bound,
every target is as in `st` or at its default, an instance bound in `st` is still
bound with its count in the release log unchanged or its target is at the
default and the count is one higher, and the count of everything else is
unchanged. -/
def State.Resets (st st1 : State) : Prop :=
  st1.Bound
  ∧ (∀ t, st1.tempControl.get t = st.tempControl.get t ∨ st1.tempControl.get t = t.default)
  ∧ (∀ t n, st.tempControl.get t = t.bind (.heap n) →
      (st1.tempControl.get t = t.bind (.heap n)
        ∧ st1.heap.released.count n = st.heap.released.count n)
      ∨ (st1.tempControl.get t = t.default
        ∧ st1.heap.released.count n = st.heap.released.count n + 1))
  ∧ (∀ n, (∀ t, st.tempControl.get t ≠ t.bind (.heap n)) →
      st1.heap.released.count n = st.heap.released.count n)

/-- The seven wired functions are enumerators below `DEVICE_MAX`, the bound of
the loop of `setupUnconfiguredDevices`. -/
def Header.Enumerated (H : Header) : Prop :=
  H.DEVICE_CHAMBER_ROOM_TEMP < H.DEVICE_MAX ∧ H.DEVICE_CHAMBER_DOOR < H.DEVICE_MAX
  ∧ H.DEVICE_CHAMBER_LIGHT < H.DEVICE_MAX ∧ H.DEVICE_CHAMBER_HEAT < H.DEVICE_MAX
  ∧ H.DEVICE_CHAMBER_COOL < H.DEVICE_MAX ∧ H.DEVICE_CHAMBER_TEMP < H.DEVICE_MAX
  ∧ H.DEVICE_BEER_TEMP < H.DEVICE_MAX

instance (H : Header) : Decidable H.Enumerated := by
  unfold Header.Enumerated; infer_instance

/-- A state with two instances installed: `heater` holds heap object 0 and the
adapter `beerSensor` holds heap object 1 as its inner sensor. -/
def twoInstalled : State :=
  { tempControl :=
      { (allDefault 8 emptySlots).tempControl with
          heater := .device (.heap 0), beerSensor := .tempSensor (.heap 1) },
    heap := { objects := [(1, .OneWireTempSensor (some .primaryOneWireBus)
                              [0x28, 0xAA, 0xBB, 0xCC, 0xDD, 0xEE, 0xFF, 0x00] 0),
                          (0, .DigitalPinActuator 6 false)],
              next := 2, room := 6, released := [] },
    eeprom := emptySlots }

/-! ## Finding a device by its location -/

/-- The function `matchAddress`: the bytes at `count - 1`, ..., 0 are compared.
A byte outside a list reads as 0. -/
def matchAddress (a1 a2 : DeviceAddress) : Nat → Bool
  | 0 => true
  | count + 1 =>
    if a1.getD count 0 ≠ a2.getD count 0 then false
    else matchAddress a1 a2 count

/-- The `switch` of `findHardwareDevice` with its fall-through from the
multi-channel io case into the temperature probe case and on into the digital
pin case: the value of the local `match` after it. -/
def locationMatch (H : Header) (find config : DeviceConfig) : Bool :=
  if H.BREWPI_DS2413 && find.deviceHardware == H.DEVICE_HARDWARE_ONEWIRE_2413 then
    (find.hw.pio == config.hw.pio)
      && matchAddress find.hw.address config.hw.address 8
      && (find.hw.pinNr == config.hw.pinNr)
  else if find.deviceHardware = H.DEVICE_HARDWARE_ONEWIRE_TEMP then
    matchAddress find.hw.address config.hw.address 8 && (find.hw.pinNr == config.hw.pinNr)
  else if find.deviceHardware = H.DEVICE_HARDWARE_PIN then
    find.hw.pinNr == config.hw.pinNr
  else true

/-- The loop of `findHardwareDevice` over the records from slot `slot` on.
`allDevices(config, slot)` is the fetch of the slot, which succeeds exactly
on the slots of the table, so the loop visits the records in order; `slot` is
of type `device_slot_t`, an `int8_t`. -/
def findHardwareDeviceFrom (H : Header) (find : DeviceConfig) : List DeviceConfig → Nat → Int
  | [], _ => H.INVALID_SLOT
  | config :: rest, slot =>
    if find.deviceHardware = config.deviceHardware && locationMatch H find config then
      toInt8 slot
    else findHardwareDeviceFrom H find rest (slot + 1)

/-- The function `findHardwareDevice`. -/
def findHardwareDevice (H : Header) (find : DeviceConfig) (st : State) : Int :=
  findHardwareDeviceFrom H find st.eeprom 0

/-- A slot record matches a candidate, in the words of the specification: the
hardware kinds are equal, and the pins are equal for a digital pin, pin and
address for a temperature probe, pin, address and channel for a multi-channel
io. -/
def Matches (H : Header) (find config : DeviceConfig) : Prop :=
  find.deviceHardware = config.deviceHardware
  ∧ (find.deviceHardware = H.DEVICE_HARDWARE_PIN → find.hw.pinNr = config.hw.pinNr)
  ∧ (find.deviceHardware = H.DEVICE_HARDWARE_ONEWIRE_TEMP →
      find.hw.pinNr = config.hw.pinNr ∧ find.hw.address = config.hw.address)
  ∧ (H.BREWPI_DS2413 = true → find.deviceHardware = H.DEVICE_HARDWARE_ONEWIRE_2413 →
      find.hw.pinNr = config.hw.pinNr ∧ find.hw.address = config.hw.address
        ∧ find.hw.pio = config.hw.pio)

/-- The three hardware kinds with a location are distinct labels. -/
def Header.Located (H : Header) : Prop :=
  H.DEVICE_HARDWARE_PIN ≠ H.DEVICE_HARDWARE_ONEWIRE_TEMP
  ∧ (H.BREWPI_DS2413 = true →
      H.DEVICE_HARDWARE_ONEWIRE_2413 ≠ H.DEVICE_HARDWARE_PIN
      ∧ H.DEVICE_HARDWARE_ONEWIRE_2413 ≠ H.DEVICE_HARDWARE_ONEWIRE_TEMP)

instance (H : Header) : Decidable H.Located := by
  unfold Header.Located; infer_instance

/-- A slot table whose slot 2 holds the beer probe, the other slots cleared. -/
def probeSlots : SlotTable := [clear, clear, beerProbe] ++ List.replicate 13 clear

/-- The candidate for a temperature probe on pin 4 with the address of
`beerProbe`. -/
def probeCandidate : DeviceConfig :=
  { clear with deviceHardware := 2,
               hw := { clear.hw with pinNr := 4,
                                     address := [0x28, 0xAA, 0xBB, 0xCC, 0xDD, 0xEE, 0xFF, 0x00] } }

/-- The candidate for a temperature probe on pin 4 with another address. -/
def otherProbeCandidate : DeviceConfig :=
  { clear with deviceHardware := 2,
               hw := { clear.hw with pinNr := 4,
                                     address := [0x28, 0x11, 0x22, 0x33, 0x44, 0x55, 0x66, 0x77] } }

/-- The candidate of hardware kind multi-channel io with the address of
`beerProbe`, on pin 4, channel 0. -/
def channelCandidate : DeviceConfig :=
  { probeCandidate with deviceHardware := 3 }

/-! ## Hardware enumeration -/

/-- The struct `EnumerateHardware`: the filters of an enumeration request. -/
structure EnumerateHardware where
  hardware : Int
  pin : Int
  values : Int
  unused : Int
  function : Int
  deriving DecidableEq, Repr

/-- The assignment `*((int8_t*)h+idx) = v`: the member at byte offset `idx`. -/
def EnumerateHardware.setByte (h : EnumerateHardware) (idx : Nat) (v : Int) :
    EnumerateHardware :=
  match idx with
  | 0 => { h with hardware := v }
  | 1 => { h with pin := v }
  | 2 => { h with values := v }
  | 3 => { h with unused := v }
  | 4 => { h with function := v }
  | _ => h

/-- The function `handleHardwareSpec`. -/
def handleHardwareSpec (key val : List Char) (h : EnumerateHardware) :
    Option EnumerateHardware :=
  let idx := indexOf "hpvuf".toList (key.headD (Char.ofNat 0))
  if idx ≥ 0 then some (h.setByte idx.toNat (toInt8 (atol val)))
  else some h

/-- The bus collaborator: for each bus the addresses that successive calls of
`search` deliver after `reset_search`, and the text `readTempSensorValue`
produces for a probe. -/
structure Buses where
  search : OneWire → List DeviceAddress
  readTempSensorValue : Hardware → List Char

/-- One call of the visitor callback: the record and the `DeviceOutput` (slot
and value text) it is handed. -/
structure Enumerated where
  config : DeviceConfig
  slot : Int
  value : List Char
  deriving DecidableEq, Repr

/-- One call of `handleEnumeratedDevice`: the candidate it is handed and the
callback call it makes, if any. -/
structure Handled where
  candidate : DeviceConfig
  callback : Option Enumerated
  deriving DecidableEq, Repr

/-- The value text of `handleEnumeratedDevice`: empty unless values are
requested and the record is a temperature probe. -/
def enumeratedValue (H : Header) (B : Buses) (config : DeviceConfig) (h : EnumerateHardware) :
    List Char :=
  if h.values ≠ 0 then
    if config.deviceHardware = H.DEVICE_HARDWARE_ONEWIRE_TEMP then B.readTempSensorValue config.hw
    else []
  else []

/-- The function `DeviceManager::handleEnumeratedDevice`: the content of the
reference parameter `config` after the call, and the callback call made. -/
def handleEnumeratedDevice (H : Header) (B : Buses) (st : State) (config : DeviceConfig)
    (h : EnumerateHardware) : DeviceConfig × Option Enumerated :=
  if h.function ≠ 0
      && !H.isAssignable (H.deviceType (toUInt8 h.function)) config.deviceHardware then
    (config, none)
  else
    let slot := findHardwareDevice H config st
    if H.isDefinedSlot slot then
      if h.unused ≠ 0 then (config, none)
      else
        let config := (fetchDevice st (toUInt8 slot)).getD config
        (config, some { config := config, slot := slot, value := enumeratedValue H B config h })
    else
      (config, some { config := config, slot := slot, value := enumeratedValue H B config h })

/-- One loop of `enumeratePinDevices` over a pin list: the content of the local
`config` after the loop and the calls of `handleEnumeratedDevice` made. -/
def enumeratePins (H : Header) (B : Buses) (st : State) (h : EnumerateHardware) :
    List Nat → DeviceConfig → DeviceConfig × List Handled
  | [], config => (config, [])
  | pin :: rest, config =>
    if h.pin ≠ -1 && h.pin ≠ (pin : Int) then enumeratePins H B st h rest config
    else
      let candidate := { config with hw := { config.hw with pinNr := pin } }
      let r := handleEnumeratedDevice H B st candidate h
      let s := enumeratePins H B st h rest r.1
      (s.1, { candidate := candidate, callback := r.2 } :: s.2)

/-- The function `DeviceManager::enumeratePinDevices`: the calls of
`handleEnumeratedDevice` it makes, in order. -/
def enumeratePinDevices (H : Header) (B : Buses) (st : State) (h : EnumerateHardware) :
    List Handled :=
  let config := { clear with deviceHardware := H.DEVICE_HARDWARE_PIN }
  let r1 := enumeratePins H B st h H.actuatorPins config
  let r2 := enumeratePins H B st h H.sensorPins r1.1
  r1.2 ++ r2.2

/-- The hardware kind the first `switch` of `enumerateOneWireDevices` assigns
for a family code. -/
def familyHardware (H : Header) (family : Nat) : Nat :=
  if H.BREWPI_DS2413 && family == H.DS2413_FAMILY_ID then H.DEVICE_HARDWARE_ONEWIRE_2413
  else if family = H.DS18B20MODEL then H.DEVICE_HARDWARE_ONEWIRE_TEMP
  else H.DEVICE_HARDWARE_NONE

/-- The `while` loop of `enumerateOneWireDevices` over the addresses the search
of one bus delivers: the content of the local `config` after the loop and the
calls of `handleEnumeratedDevice` made. -/
def enumerateAddresses (H : Header) (B : Buses) (st : State) (h : EnumerateHardware) :
    List DeviceAddress → DeviceConfig → DeviceConfig × List Handled
  | [], config => (config, [])
  | address :: rest, config =>
    let config := { config with hw := { config.hw with address := address } }
    let config := { config with deviceHardware := familyHardware H (address.headD 0) }
    if H.BREWPI_DS2413 && config.deviceHardware == H.DEVICE_HARDWARE_ONEWIRE_2413 then
      let c0 := { config with hw := { config.hw with calibration := 0 } }
      let r0 := handleEnumeratedDevice H B st c0 h
      let c1 := { r0.1 with hw := { r0.1.hw with calibration := 1 } }
      let r1 := handleEnumeratedDevice H B st c1 h
      let s := enumerateAddresses H B st h rest r1.1
      (s.1, { candidate := c0, callback := r0.2 } :: { candidate := c1, callback := r1.2 } :: s.2)
    else
      let r := handleEnumeratedDevice H B st config h
      let s := enumerateAddresses H B st h rest r.1
      (s.1, { candidate := config, callback := r.2 } :: s.2)

/-- The `for` loop of `enumerateOneWireDevices` over the OneWire pins. -/
def enumerateOneWirePins (H : Header) (B : Buses) (st : State) (h : EnumerateHardware) :
    List Nat → List Handled
  | [] => []
  | pin :: rest =>
    if h.pin ≠ -1 && h.pin ≠ (pin : Int) then enumerateOneWirePins H B st h rest
    else
      let config := { clear with hw := { clear.hw with pinNr := pin } }
      match oneWireBus H pin with
      | some wire =>
        (enumerateAddresses H B st h (B.search wire) config).2
          ++ enumerateOneWirePins H B st h rest
      | none => enumerateOneWirePins H B st h rest

/-- The function `DeviceManager::enumerateOneWireDevices`: the calls of
`handleEnumeratedDevice` it makes, in order. -/
def enumerateOneWireDevices (H : Header) (B : Buses) (st : State) (h : EnumerateHardware) :
    List Handled :=
  enumerateOneWirePins H B st h H.oneWirePins

/-- The defaults `enumerateHardware` sets up: any hardware, any pin, no values,
used and unused devices, no function restriction. -/
def EnumerateHardware.defaults : EnumerateHardware :=
  { hardware := -1, pin := -1, values := 0, unused := 0, function := 0 }

/-- The two enumerations of `enumerateHardware` for a parsed request `spec`. -/
def enumerateSpec (H : Header) (B : Buses) (st : State) (spec : EnumerateHardware) :
    List Handled :=
  (if spec.hardware = -1 || H.isOneWire (toUInt8 spec.hardware) then
      enumerateOneWireDevices H B st spec
    else [])
  ++ (if spec.hardware = -1 || H.isDigitalPin (toUInt8 spec.hardware) then
      enumeratePinDevices H B st spec
    else [])

/-- The function `DeviceManager::enumerateHardware`: the calls of
`handleEnumeratedDevice` made for a request, in order. -/
def enumerateHardware (H : Header) (B : Buses) (st : State)
    (request : List (List Char × List Char)) : Option (List Handled) :=
  match parseJson handleHardwareSpec request EnumerateHardware.defaults with
  | none => none
  | some spec => some (enumerateSpec H B st spec)

/-- The records handed to the visitor callback, in order. -/
def emitted (events : List Handled) : List Enumerated :=
  events.filterMap (fun e => e.callback)

/-- A bus on which the search finds a device of the unrecognized family 0x10
and then a temperature probe. -/
def mixedBus : Buses :=
  { search := fun _ =>
      [[0x10, 0x01, 0x02, 0x03, 0x04, 0x05, 0x06, 0x07],
       [0x28, 0xAA, 0xBB, 0xCC, 0xDD, 0xEE, 0xFF, 0x00]],
    readTempSensorValue := fun _ => "20.500".toList }

/-- A bus on which the search finds only a device of the unrecognized family
0x10. -/
def unknownBus : Buses :=
  { search := fun _ => [[0x10, 0x01, 0x02, 0x03, 0x04, 0x05, 0x06, 0x07]],
    readTempSensorValue := fun _ => [] }

/-- A bus on which the search finds a multi-channel io device and then a
temperature probe. -/
def channelBus : Buses :=
  { search := fun _ =>
      [[0x3A, 0xAA, 0xBB, 0xCC, 0xDD, 0xEE, 0xFF, 0x00],
       [0x28, 0xAA, 0xBB, 0xCC, 0xDD, 0xEE, 0xFF, 0x00]],
    readTempSensorValue := fun _ => "20.500".toList }

/-! ## Printing a record -/

/-- The constant `DEVICE_ATTRIB_INDEX`. -/
def DEVICE_ATTRIB_INDEX : Char := 'i'

/-- The constant `DEVICE_ATTRIB_CHAMBER`. -/
def DEVICE_ATTRIB_CHAMBER : Char := 'c'

/-- The constant `DEVICE_ATTRIB_BEER`. -/
def DEVICE_ATTRIB_BEER : Char := 'b'

/-- The constant `DEVICE_ATTRIB_FUNCTION`. -/
def DEVICE_ATTRIB_FUNCTION : Char := 'f'

/-- The constant `DEVICE_ATTRIB_HARDWARE`. -/
def DEVICE_ATTRIB_HARDWARE : Char := 'h'

/-- The constant `DEVICE_ATTRIB_PIN`. -/
def DEVICE_ATTRIB_PIN : Char := 'p'

/-- The constant `DEVICE_ATTRIB_INVERT`. -/
def DEVICE_ATTRIB_INVERT : Char := 'x'

/-- The constant `DEVICE_ATTRIB_DEACTIVATED`. -/
def DEVICE_ATTRIB_DEACTIVATED : Char := 'd'

/-- The constant `DEVICE_ATTRIB_PIO`. -/
def DEVICE_ATTRIB_PIO : Char := 'n'

/-- The constant `DEVICE_ATTRIB_TYPE`. -/
def DEVICE_ATTRIB_TYPE : Char := 't'

/-- One call of `print` on the `Print` object, by the type of its argument: a
character, a string literal, a character buffer, or the `int8_t` of
`printAttrib`. -/
inductive Token where
  | char (c : Char)
  | literal (s : List Char)
  | buffer (s : List Char)
  | number (v : Int)
  deriving DecidableEq, Repr

/-- The function `printAttrib`: the calls of `print` it makes.  `val` is the
argument after its conversion to `int8_t`. -/
def printAttrib (c : Char) (val : Int) (first : Bool) : List Token :=
  (if !first then [Token.char ','] else []) ++ [Token.char c, Token.char ':', Token.number val]

/-- The function `hasInvert`. -/
def hasInvert (H : Header) (hw : Nat) : Bool :=
  hw == H.DEVICE_HARDWARE_PIN || (H.BREWPI_DS2413 && hw == H.DEVICE_HARDWARE_ONEWIRE_2413)

/-- The function `hasOnewire`. -/
def hasOnewire (H : Header) (hw : Nat) : Bool :=
  (H.BREWPI_DS2413 && hw == H.DEVICE_HARDWARE_ONEWIRE_2413)
    || hw == H.DEVICE_HARDWARE_ONEWIRE_TEMP

/-- The expression `(b>9 ? b-10+'A' : b+'0')` of `printBytes`. -/
def hexChar (b : Nat) : Char :=
  if b > 9 then Char.ofNat (b - 10 + 'A'.toNat) else Char.ofNat (b + '0'.toNat)

/-- The function `printBytes`: the characters written to `buf` before the
terminating zero, for the bytes `data[0]` .. `data[len-1]`. -/
def printBytes (data : List Nat) (len : Nat) : List Char :=
  (List.range len).flatMap
    (fun i => [hexChar ((data.getD i 0 / 16) % 16), hexChar (data.getD i 0 % 16)])

/-- The function `DeviceManager::printDevice`: the calls of `print` it makes, in
order, and the new value of `firstDeviceOutput`.  `value` is `none` for a null
pointer. -/
def printDevice (H : Header) (firstDeviceOutput : Bool) (slot : Int) (config : DeviceConfig)
    (value : Option (List Char)) : List Token × Bool :=
  let dt := H.deviceType config.deviceFunction
  ((if !firstDeviceOutput then [Token.char '\n', Token.char ','] else [])
    ++ [Token.char '{']
    ++ printAttrib DEVICE_ATTRIB_INDEX (toInt8 slot) true
    ++ printAttrib DEVICE_ATTRIB_TYPE (toInt8 (H.deviceTypeValue dt)) false
    ++ printAttrib DEVICE_ATTRIB_CHAMBER (toInt8 config.chamber) false
    ++ printAttrib DEVICE_ATTRIB_BEER (toInt8 config.beer) false
    ++ printAttrib DEVICE_ATTRIB_FUNCTION (toInt8 config.deviceFunction) false
    ++ printAttrib DEVICE_ATTRIB_HARDWARE (toInt8 config.deviceHardware) false
    ++ printAttrib DEVICE_ATTRIB_DEACTIVATED (if config.hw.deactivate then 1 else 0) false
    ++ printAttrib DEVICE_ATTRIB_PIN (toInt8 config.hw.pinNr) false
    ++ (match value with
        | some (c :: s) => [Token.literal ",v:".toList, Token.buffer (c :: s)]
        | _ => [])
    ++ (if hasInvert H config.deviceHardware then
          printAttrib DEVICE_ATTRIB_INVERT (if config.hw.invert then 1 else 0) false
        else [])
    ++ (if hasOnewire H config.deviceHardware then
          [Token.literal ",a:\"".toList, Token.buffer (printBytes config.hw.address 8),
           Token.char '"']
        else [])
    ++ (if H.BREWPI_DS2413 && config.deviceHardware == H.DEVICE_HARDWARE_ONEWIRE_2413 then
          printAttrib DEVICE_ATTRIB_PIO (toInt8 config.hw.pio) false
        else [])
    ++ (if config.deviceHardware = H.DEVICE_HARDWARE_ONEWIRE_TEMP then
          [Token.literal ",j:".toList,
           Token.buffer (H.tempDiffToString (config.hw.calibration * 32))]
        else [])
    ++ [Token.char '}'],
   false)

/-- The keys of a printed sequence, in order: the character before a colon
character, and the letter of a literal of the form comma, letter, colon. -/
def keysOf : List Token → List Char
  | Token.char c :: Token.char ':' :: rest => c :: keysOf rest
  | Token.literal (',' :: k :: ':' :: _) :: rest => k :: keysOf rest
  | _ :: rest => keysOf rest
  | [] => []

/-- What ends the value of a key: a comma, the closing brace, or a literal
that starts with a comma. -/
def isSeparator : Token → Bool
  | Token.char ',' => true
  | Token.char '}' => true
  | Token.literal (',' :: _) => true
  | _ => false

/-- The tokens printed for key `k`: what follows its colon up to the next
separator. -/
def valueOf (k : Char) : List Token → Option (List Token)
  | Token.char c :: Token.char ':' :: rest =>
    if c = k then some (rest.takeWhile (fun t => !isSeparator t)) else valueOf k rest
  | Token.literal (',' :: c :: ':' :: q) :: rest =>
    if c = k then
      some ((if q = [] then [] else [Token.literal q])
        ++ rest.takeWhile (fun t => !isSeparator t))
    else valueOf k rest
  | _ :: rest => valueOf k rest
  | [] => none

/-- A record of the wire format: an opening brace, no brace inside, a closing
brace. -/
def isObject (out : List Token) : Bool :=
  match out with
  | Token.char '{' :: rest =>
    rest.getLast? == some (Token.char '}')
      && rest.dropLast.all (fun t => t != Token.char '{' && t != Token.char '}')
  | _ => false

/-- A temperature probe in slot 3 with a calibration offset. -/
def printedProbe : DeviceConfig :=
  { beerProbe with hw := { beerProbe.hw with calibration := -3 } }

/-! ## Conflicts between slots -/

/-- The conflict between two records as the documentation of `isDeviceValid`
words it: the same function defined for the same chamber and beer, the same
address on two temperature probes, or the same address and channel on two
multi-channel io devices. -/
def conflicts (H : Header) (a b : DeviceConfig) : Bool :=
  (a.deviceFunction != H.DEVICE_NONE && a.deviceFunction == b.deviceFunction
      && a.chamber == b.chamber && a.beer == b.beer)
  || (a.deviceHardware == H.DEVICE_HARDWARE_ONEWIRE_TEMP
      && b.deviceHardware == H.DEVICE_HARDWARE_ONEWIRE_TEMP && a.hw.address == b.hw.address)
  || (a.deviceHardware == H.DEVICE_HARDWARE_ONEWIRE_2413
      && b.deviceHardware == H.DEVICE_HARDWARE_ONEWIRE_2413 && a.hw.address == b.hw.address
      && a.hw.pio == b.hw.pio)

/-- The record of slot `slot` conflicts with the record of no other slot. -/
def conflictFree (H : Header) (table : SlotTable) (slot : Nat) : Bool :=
  (List.range table.length).all
    (fun j => j == slot || !conflicts H (table.getD slot clear) (table.getD j clear))

/-- A request that makes slot 1 the chamber heater on digital pin 5. -/
def secondHeaterRequest : List (List Char × List Char) :=
  [("i".toList, "1".toList), ("c".toList, "1".toList), ("f".toList, "2".toList),
   ("h".toList, "1".toList), ("p".toList, "5".toList)]

/-- A chamber heater on digital pin 5. -/
def secondHeater : DeviceConfig :=
  { heaterPin with hw := { heaterPin.hw with pinNr := 5 } }

/-- A request that makes slot 0 the beer temperature sensor of beer 2 on the
probe of `beerProbe`. -/
def secondProbeRequest : List (List Char × List Char) :=
  [("i".toList, "0".toList), ("b".toList, "2".toList), ("f".toList, "9".toList),
   ("h".toList, "2".toList), ("p".toList, "4".toList),
   ("a".toList, "28AABBCCDDEEFF00".toList)]

/-- The beer temperature sensor of beer 2 on the probe of `beerProbe`. -/
def secondProbe : DeviceConfig := { beerProbe with beer := 2 }

/-! ## Sample inputs for the calibration offset -/

/-- A sample `stringToTempDiff` for decimal text: sign, integer digits, a point
and fraction digits, as a multiple of 1/512, the fraction rounded toward zero. -/
def decimalTempDiff (s : List Char) : Int :=
  let negative := decide (s.headD ' ' = '-')
  let body := if negative then s.tail else s
  let intPart := body.takeWhile (fun c => c ≠ '.')
  let fracPart := (body.dropWhile (fun c => c ≠ '.')).tail
  let absVal := atol intPart * 512 + atol fracPart * 512 / 10 ^ fracPart.length
  if negative then -absVal else absVal

/-- The sample header with `decimalTempDiff` as its `stringToTempDiff`. -/
def brewpiDecimal : Header := { brewpi with stringToTempDiff := decimalTempDiff }

/-- A slot table whose slot 0 holds `printedProbe`, the beer sensor with the
calibration offset -3, the other fifteen cleared. -/
def calibratedSlots : SlotTable := printedProbe :: List.replicate 15 clear

/-- A request that sets the calibration offset of slot 0 to -1/16 degree. -/
def sixteenthRequest : List (List Char × List Char) :=
  [("i".toList, "0".toList), ("j".toList, "-0.0625".toList)]

/-- A request that sets the calibration offset of slot 0 to -1/8 degree. -/
def eighthRequest : List (List Char × List Char) :=
  [("i".toList, "0".toList), ("j".toList, "-0.125".toList)]

/-! ## Sample inputs for the candidates of an enumeration -/

/-- A bus on which the search finds the probe of `beerProbe` and then a second
temperature probe. -/
def twoProbeBus : Buses :=
  { search := fun _ =>
      [[0x28, 0xAA, 0xBB, 0xCC, 0xDD, 0xEE, 0xFF, 0x00],
       [0x28, 0x11, 0x22, 0x33, 0x44, 0x55, 0x66, 0x77]],
    readTempSensorValue := fun _ => "20.500".toList }

/-- The record the enumeration builds for digital pin `pin` before the matching
step: the cleared record with the hardware kind and the pin. -/
def minimalPin (H : Header) (pin : Nat) : DeviceConfig :=
  { clear with deviceHardware := H.DEVICE_HARDWARE_PIN, hw := { clear.hw with pinNr := pin } }

/-! ## Sample inputs for the slot-id guard -/

/-- A request that makes the slot with id 16 the chamber heater on digital
pin 6. -/
def lastSlotRequest : List (List Char × List Char) :=
  [("i".toList, "16".toList), ("c".toList, "1".toList), ("f".toList, "2".toList),
   ("h".toList, "1".toList), ("p".toList, "6".toList)]

/-- A request that supplies only the id 16. -/
def lastSlotOnlyRequest : List (List Char × List Char) :=
  [("i".toList, "16".toList)]

/-! ## The category of an instance -/

/-- Modelled from the spec: the capability category of the object of each class
`createDevice` constructs (the class declarations are not among the sources):
a pin-backed switch sensor, a pin-backed actuator, a temperature sensor, a
channel-backed actuator. -/
def Device.category : Device → DeviceType
  | .DigitalPinSensor _ _ => .DEVICETYPE_SWITCH_SENSOR
  | .DigitalPinActuator _ _ => .DEVICETYPE_SWITCH_ACTUATOR
  | .OneWireTempSensor _ _ _ => .DEVICETYPE_TEMP_SENSOR
  | .OneWireActuator _ _ _ _ => .DEVICETYPE_SWITCH_ACTUATOR

/-! ## Sample inputs for a full heap and for a switch sensor on a channel -/

/-- A request that makes slot 0 the chamber room temperature sensor, the one
sensor bound without an adapter, on the probe of `beerProbe`. -/
def ambientRequest : List (List Char × List Char) :=
  [("i".toList, "0".toList), ("c".toList, "1".toList), ("f".toList, "6".toList),
   ("h".toList, "2".toList), ("p".toList, "4".toList),
   ("a".toList, "28AABBCCDDEEFF00".toList)]

/-- The sample header on a platform whose whitelist `isAssignable` pairs the
switch sensor with the multi-channel io as well as the switch actuator. -/
def brewpiSense : Header :=
  { brewpi with
    isAssignable := fun dt hw =>
      brewpi.isAssignable dt hw || (hw == 3 && dt == .DEVICETYPE_SWITCH_SENSOR) }

/-- A chamber door switch on channel 0 of a multi-channel io device on the bus
of pin 4. -/
def doorChannel : DeviceConfig :=
  { chamber := 1, beer := 0, deviceFunction := 1, deviceHardware := 3,
    hw := { pinNr := 4, invert := false, deactivate := false,
            address := [0x3A, 0xAA, 0xBB, 0xCC, 0xDD, 0xEE, 0xFF, 0x00], calibration := 0 } }

/-- A request that makes slot 0 the record `doorChannel`. -/
def doorChannelRequest : List (List Char × List Char) :=
  [("i".toList, "0".toList), ("c".toList, "1".toList), ("f".toList, "1".toList),
   ("h".toList, "3".toList), ("p".toList, "4".toList),
   ("a".toList, "3AAABBCCDDEEFF00".toList)]

/-! # Theorems -/

/-! ## Lemmas on the integer conversions -/

theorem toInt8_of_range (n : Int) (h1 : -128 ≤ n) (h2 : n ≤ 127) : toInt8 n = n := by
  unfold toInt8; omega

theorem toUInt8_of_range (n : Int) (h1 : 0 ≤ n) (h2 : n ≤ 255) : toUInt8 n = n.toNat := by
  unfold toUInt8; congr 1; omega

/-! ## C1: the validator -/

/-- C1: `isDeviceValid` returns true exactly when chamber, beer and function are
in range, the owner scope is consistent, the function's device type is
assignable to the hardware, and a single-wire hardware has its pin on a
configured bus; so it returns false as soon as one of them is violated. -/
theorem isDeviceValid_iff (H : Header) (config original : DeviceConfig) (deviceIndex : Nat)
    (hL : H.Limits) (hf : config.deviceFunction < 256) :
    isDeviceValid H config original deviceIndex = true ↔
      (config.chamber ≤ H.MAX_CHAMBERS
        ∧ config.beer ≤ H.MAX_BEERS
        ∧ (config.deviceFunction : Int) ≤ (H.DEVICE_MAX : Int) - 1
        ∧ ownerScopeOk H config
        ∧ H.isAssignable (H.deviceType config.deviceFunction) config.deviceHardware = true
        ∧ (H.isOneWire config.deviceHardware = true →
            (oneWireBus H config.hw.pinNr).isSome = true)) := by
  obtain ⟨hc, hb, hm⟩ := hL
  have e1 : toInt8 (H.MAX_CHAMBERS : Int) = H.MAX_CHAMBERS := toInt8_of_range _ (by omega) (by omega)
  have e2 : toInt8 (H.MAX_BEERS : Int) = H.MAX_BEERS := toInt8_of_range _ (by omega) (by omega)
  have e3 : toInt8 ((H.DEVICE_MAX : Int) - 1) = (H.DEVICE_MAX : Int) - 1 :=
    toInt8_of_range _ (by omega) (by omega)
  have e4 : config.deviceFunction % 256 = config.deviceFunction := Nat.mod_eq_of_lt hf
  unfold isDeviceValid inRangeUInt8 ownerScopeOk
  rw [e1, e2, e3, e4]
  cases hO : H.deviceOwner config.deviceFunction <;>
  cases hA : H.isAssignable (H.deviceType config.deviceFunction) config.deviceHardware <;>
  cases hW : H.isOneWire config.deviceHardware <;>
  cases hB : (oneWireBus H config.hw.pinNr) <;>
  simp [hO, hA, hW, hB]

/-- C1 at a concrete input: the sample header and a beer temperature probe. -/
theorem isDeviceValid_iff_witness :
    brewpi.Limits ∧ beerProbe.deviceFunction < 256 ∧
    (isDeviceValid brewpi beerProbe clear 0 = true ↔
      (beerProbe.chamber ≤ brewpi.MAX_CHAMBERS
        ∧ beerProbe.beer ≤ brewpi.MAX_BEERS
        ∧ (beerProbe.deviceFunction : Int) ≤ (brewpi.DEVICE_MAX : Int) - 1
        ∧ ownerScopeOk brewpi beerProbe
        ∧ brewpi.isAssignable (brewpi.deviceType beerProbe.deviceFunction)
            beerProbe.deviceHardware = true
        ∧ (brewpi.isOneWire beerProbe.deviceHardware = true →
            (oneWireBus brewpi beerProbe.hw.pinNr).isSome = true))) :=
  ⟨by decide, by decide, isDeviceValid_iff brewpi beerProbe clear 0 (by decide) (by decide)⟩

/-- The rejections named by the specification, evaluated on the sample header: a
beer-owned function with beer 0, a switch actuator on temperature-probe
hardware, a single-wire device on a pin that is not a bus; and the accepted
probe for comparison. -/
theorem isDeviceValid_examples :
    isDeviceValid brewpi beerProbe clear 0 = true
    ∧ isDeviceValid brewpi { beerProbe with beer := 0 } clear 0 = false
    ∧ isDeviceValid brewpi { beerProbe with chamber := 1, beer := 0, deviceFunction := 2 } clear 0
        = false
    ∧ isDeviceValid brewpi { beerProbe with hw := { beerProbe.hw with pinNr := 5 } } clear 0
        = false := by
  decide

/-! ## Lemmas on targets and bindings -/

theorem get_set_same (tc : TempControl) (t : Target) (c : Cell) : (tc.set t c).get t = c := by
  cases t <;> rfl

theorem get_set_ne (tc : TempControl) (t u : Target) (c : Cell) (h : t ≠ u) :
    (tc.set t c).get u = tc.get u := by
  cases t <;> cases u <;> first | rfl | exact absurd rfl h

theorem bind_inj (t : Target) (p q : Ptr) (h : t.bind p = t.bind q) : p = q := by
  cases t <;> simpa [Target.bind] using h

theorem default_ne_heap (t : Target) (n : Nat) : t.default ≠ t.bind (.heap n) := by
  cases t <;> simp [Target.default, Target.bind, Target.type, defaultOf]

/-- Under a wired header the target fixes the device type of the function and
whether the function is the basic (unwrapped) sensor. -/
theorem deviceTarget_wired (H : Header) (hW : H.Wired) (c : DeviceConfig) (t : Target)
    (ht : deviceTarget H c = some t) :
    H.deviceType c.deviceFunction = t.type
      ∧ isBasicSensor H c.deviceFunction = decide (t = .ambientSensor) := by
  obtain ⟨hn, h1, h2, h3, h4, h5, h6, h7⟩ := hW
  simp only [List.nodup_cons, List.mem_cons, List.mem_singleton, not_or, List.not_mem_nil,
    not_false_eq_true, List.nodup_nil, and_true] at hn
  unfold deviceTarget at ht
  unfold isBasicSensor
  split_ifs at ht with g0 g1 g2 g3 g4 g5 g6 g7 <;> cases ht <;>
    simp_all [Target.type]

/-- The heap after `delete` of the live object `n`. -/
theorem delete_live (h : Heap) (n : Nat) (hl : h.live n = true) :
    h.delete (.heap n) = some { h with objects := h.objects.filter (fun o => o.1 != n),
                                       room := h.room + 1, released := n :: h.released } := by
  simp [Heap.delete, hl]

/-- An unresolvable config is not uninstalled. -/
theorem uninstall_unresolved (H : Header) (c : DeviceConfig) (st : State)
    (ht : deviceTarget H c = none) : uninstallDevice H c st = some st := by
  simp [uninstallDevice, ht]

/-- Uninstalling a function whose target holds its default changes nothing. -/
theorem uninstall_default (H : Header) (hW : H.Wired) (c : DeviceConfig) (st : State)
    (t : Target) (ht : deviceTarget H c = some t) (hd : st.tempControl.get t = t.default) :
    uninstallDevice H c st = some st := by
  obtain ⟨hty, hb⟩ := deviceTarget_wired H hW c t ht
  unfold uninstallDevice
  simp only [ht, hty]
  cases t <;>
    simp [Target.type, unwrapSensor, hb, hd, Target.default, Target.bind, defaultOf]

/-- Uninstalling a function whose target holds an owned instance releases the
instance and binds the default. -/
theorem uninstall_owned (H : Header) (hW : H.Wired) (c : DeviceConfig) (st : State)
    (t : Target) (n : Nat) (ht : deviceTarget H c = some t)
    (hb : st.tempControl.get t = t.bind (.heap n)) (hl : st.heap.live n = true) :
    uninstallDevice H c st =
      some { st with
        tempControl := st.tempControl.set t t.default,
        heap := { st.heap with objects := st.heap.objects.filter (fun o => o.1 != n),
                               room := st.heap.room + 1, released := n :: st.heap.released } } := by
  obtain ⟨hty, hbs⟩ := deviceTarget_wired H hW c t ht
  unfold uninstallDevice
  simp only [ht, hty]
  cases t <;>
    simp [Target.type, unwrapSensor, setSensor, hbs, hb, Target.default, Target.bind, defaultOf,
      delete_live _ _ hl]

/-! ## Frame lemmas: what uninstall and install leave alone -/

theorem uninstall_eeprom (H : Header) (c : DeviceConfig) (st st1 : State)
    (h : uninstallDevice H c st = some st1) : st1.eeprom = st.eeprom := by
  unfold uninstallDevice at h
  cases ht : deviceTarget H c <;> cases hty : H.deviceType c.deviceFunction <;>
    simp only [ht, hty] at h <;> repeat' split at h
  all_goals first
    | (injection h with h; subst h; rfl)
    | (exact absurd h (by simp))

theorem install_eeprom (H : Header) (c : DeviceConfig) (st st1 : State)
    (h : installDevice H c st = some st1) : st1.eeprom = st.eeprom := by
  unfold installDevice at h
  cases ht : deviceTarget H c <;> cases hty : H.deviceType c.deviceFunction <;>
    simp only [ht, hty] at h <;> repeat' split at h
  all_goals first
    | (injection h with h; subst h; rfl)
    | (exact absurd h (by simp))

/-! ## The binding invariant under uninstall -/

theorem lookup_filter_ne (l : List (Nat × Device)) (n m : Nat) :
    (l.filter (fun o => o.1 != n)).lookup m = if m = n then none else l.lookup m := by
  induction l with
  | nil => simp
  | cons o l ih =>
    obtain ⟨k, d⟩ := o
    by_cases hk : k = n
    · subst hk
      by_cases hm : m = k
      · subst hm; simp [List.filter_cons, ih]
      · have : (m == k) = false := by simpa using hm
        simp [List.filter_cons, ih, hm, List.lookup_cons, this]
    · by_cases hm : m = k
      · subst hm; simp [List.filter_cons, hk, List.lookup_cons]
      · have : (m == k) = false := by simpa using hm
        simp [List.filter_cons, hk, ih, List.lookup_cons, this]

theorem live_after_delete (h : Heap) (n m : Nat) :
    ({ h with objects := h.objects.filter (fun o => o.1 != n), room := h.room + 1,
              released := n :: h.released } : Heap).live m = (decide (m ≠ n) && h.live m) := by
  simp only [Heap.live, lookup_filter_ne]
  by_cases hm : m = n <;> simp [hm]

/-- The state after releasing the owned instance `n` of target `t`. -/
theorem release_bound (st : State) (t : Target) (n : Nat) (hB : st.Bound)
    (hb : st.tempControl.get t = t.bind (.heap n)) :
    State.Bound { st with
      tempControl := st.tempControl.set t t.default,
      heap := { st.heap with objects := st.heap.objects.filter (fun o => o.1 != n),
                             room := st.heap.room + 1, released := n :: st.heap.released } } := by
  obtain ⟨hH, hE, hS⟩ := hB
  refine ⟨?_, ?_, ?_⟩
  · intro u
    by_cases hu : t = u
    · subst hu; left; exact get_set_same _ _ _
    · rcases hH u with hd | ⟨m, hm, hl⟩
      · left; simpa [get_set_ne _ _ _ _ hu] using hd
      · right
        refine ⟨m, by simpa [get_set_ne _ _ _ _ hu] using hm, ?_⟩
        have hne : m ≠ n := by
          intro e; subst e; exact hu (hE t u m hb hm)
        simp [live_after_delete, hne, hl]
  · intro t1 t2 m h1 h2
    by_cases e1 : t = t1
    · subst e1
      simp only [get_set_same] at h1
      exact absurd h1 (default_ne_heap _ _)
    · by_cases e2 : t = t2
      · subst e2
        simp only [get_set_same] at h2
        exact absurd h2 (default_ne_heap _ _)
      · simp only [get_set_ne _ _ _ _ e1] at h1
        simp only [get_set_ne _ _ _ _ e2] at h2
        exact hE t1 t2 m h1 h2
  · have hln : st.heap.live n = true := by
      rcases hH t with hd | ⟨m, hm, hl⟩
      · exact absurd (hd.symm.trans hb) (default_ne_heap t n)
      · have : n = m := by
          have := bind_inj t _ _ (hb.symm.trans hm)
          simpa using this
        rw [this]; exact hl
    refine ⟨?_, ?_⟩
    · intro m hm
      simp only [live_after_delete, Bool.and_eq_true, decide_eq_true_eq] at hm
      obtain ⟨hne, hl⟩ := hm
      obtain ⟨h1, h2⟩ := hS.1 m hl
      exact ⟨h1, by simp [hne, h2]⟩
    · intro m hm
      simp only [List.mem_cons] at hm
      rcases hm with hm | hm
      · rw [hm]; exact (hS.1 n hln).1
      · exact hS.2 m hm

/-- Under a wired header, uninstall is defined on every bound state, keeps the
invariant, leaves the target of the config at its default, and leaks nothing. -/
theorem uninstall_bound (H : Header) (hW : H.Wired) (c : DeviceConfig) (st : State)
    (hB : st.Bound) :
    ∃ st1, uninstallDevice H c st = some st1 ∧ st1.Bound
      ∧ st.heap.room ≤ st1.heap.room ∧ st1.heap.next = st.heap.next
      ∧ (∀ t, deviceTarget H c = some t → st1.tempControl.get t = t.default)
      ∧ (∀ u, deviceTarget H c ≠ some u → st1.tempControl.get u = st.tempControl.get u)
      ∧ NoLeak st st1
      ∧ (∀ n, n ∈ st.heap.released → n ∈ st1.heap.released) := by
  cases ht : deviceTarget H c with
  | none =>
    exact ⟨st, uninstall_unresolved H c st ht, hB, le_refl _, rfl, by simp, by simp,
      fun t n h => Or.inl h, fun n h => h⟩
  | some t =>
    rcases hB.1 t with hd | ⟨n, hb, hl⟩
    · refine ⟨st, uninstall_default H hW c st t ht hd, hB, le_refl _, rfl, ?_, by simp,
        fun t n h => Or.inl h, fun n h => h⟩
      intro u hu; cases hu; exact hd
    · refine ⟨_, uninstall_owned H hW c st t n ht hb hl, release_bound st t n hB hb,
        Nat.le_succ _, rfl, ?_, ?_, ?_, ?_⟩
      · intro u hu; cases hu; exact get_set_same _ _ _
      · intro u hu
        have : t ≠ u := fun e => hu (by rw [e])
        exact get_set_ne _ _ _ _ this
      · intro u m hm
        by_cases e : t = u
        · subst e
          right
          have : m = n := by
            have := bind_inj t _ _ (hm.symm.trans hb)
            simpa using this
          simp [this]
        · left; simpa [get_set_ne _ _ _ _ e] using hm
      · intro m hm; simp [hm]

/-! ## Lemmas on the factory and install -/

/-- The factory either returns `NULL` and leaves the heap alone, or makes one
fresh object. -/
theorem createDevice_cases (H : Header) (c : DeviceConfig) (dt : DeviceType) (h : Heap) :
    createDevice H c dt h = (.null, h)
    ∨ ∃ d, createDevice H c dt h
        = (.heap h.next, { h with objects := (h.next, d) :: h.objects, next := h.next + 1,
                                  room := h.room - 1 }) := by
  unfold createDevice Heap.new
  split_ifs <;> first | (left; rfl) | (right; exact ⟨_, rfl⟩)

/-- With room on the heap, a buildable hardware kind gets its object. -/
theorem createDevice_room (H : Header) (hK : H.Kinds) (c : DeviceConfig) (dt : DeviceType)
    (h : Heap) (hr : 0 < h.room)
    (hhw : c.deviceHardware = H.DEVICE_HARDWARE_PIN
      ∨ c.deviceHardware = H.DEVICE_HARDWARE_ONEWIRE_TEMP
      ∨ (H.BREWPI_DS2413 = true ∧ c.deviceHardware = H.DEVICE_HARDWARE_ONEWIRE_2413)) :
    createDevice H c dt h
      = (.heap h.next, { h with objects := (h.next, deviceFor H c dt) :: h.objects,
                                next := h.next + 1, room := h.room - 1 }) := by
  obtain ⟨hn, h24, -⟩ := hK
  simp only [List.nodup_cons, List.mem_cons, List.mem_singleton, not_or, List.not_mem_nil,
    not_false_eq_true, List.nodup_nil, and_true] at hn h24
  have hr0 : h.room ≠ 0 := by omega
  unfold createDevice deviceFor Heap.new
  rcases hhw with e | e | ⟨hf, e⟩
  · have : H.DEVICE_HARDWARE_PIN ≠ H.DEVICE_HARDWARE_NONE := fun x => hn.1.1 x.symm
    simp only [e, this, if_false, if_true, hr0]
    split_ifs <;> rfl
  · have h1 : H.DEVICE_HARDWARE_ONEWIRE_TEMP ≠ H.DEVICE_HARDWARE_NONE := fun x => hn.1.2 x.symm
    have h2 : H.DEVICE_HARDWARE_ONEWIRE_TEMP ≠ H.DEVICE_HARDWARE_PIN := fun x => hn.2 x.symm
    simp only [e, h1, h2, if_false, if_true, hr0]
  · obtain ⟨g1, g2, g3⟩ := h24 hf
    simp [e, g1, g2, g3, hf, hr0]

theorem install_skipped (H : Header) (c : DeviceConfig) (st : State)
    (h : deviceTarget H c = none ∨ c.hw.deactivate = true) : installDevice H c st = some st := by
  unfold installDevice
  rcases h with h | h
  · simp [h]
  · cases ht : deviceTarget H c <;> simp [h]

/-- Install on a resolved target: the cell is bound to what the factory
returned.  For the basic sensor a null result is excluded, since `init()` is
then called through it. -/
theorem install_resolved (H : Header) (hW : H.Wired) (c : DeviceConfig) (st : State)
    (t : Target) (q : Ptr) (ht : deviceTarget H c = some t) (hd : c.hw.deactivate = false)
    (hq : st.tempControl.get t = t.bind q)
    (hnn : t = .ambientSensor → (createDevice H c t.type st.heap).1 ≠ .null) :
    installDevice H c st = some { st with
      tempControl := st.tempControl.set t (t.bind (createDevice H c t.type st.heap).1),
      heap := (createDevice H c t.type st.heap).2 } := by
  obtain ⟨hty, hbs⟩ := deviceTarget_wired H hW c t ht
  unfold installDevice
  simp only [ht, hty, hd]
  cases t <;> simp_all [Target.type, Target.bind]

/-- Install touches no cell but the target's and releases nothing. -/
theorem install_frame (H : Header) (c : DeviceConfig) (st st1 : State)
    (h : installDevice H c st = some st1) :
    (∀ u, deviceTarget H c ≠ some u → st1.tempControl.get u = st.tempControl.get u)
      ∧ st1.heap.released = st.heap.released := by
  have hrel : ∀ dt, (createDevice H c dt st.heap).2.released = st.heap.released := by
    intro dt
    rcases createDevice_cases H c dt st.heap with e | ⟨d, e⟩ <;> rw [e]
  unfold installDevice at h
  cases ht : deviceTarget H c with
  | none => simp [ht] at h; subst h; simp
  | some t =>
    have key : ∀ (cell : Cell) (hp : Heap), hp.released = st.heap.released →
        (∀ u, some t ≠ some u →
          ({ st with tempControl := st.tempControl.set t cell, heap := hp } : State).tempControl.get u
            = st.tempControl.get u)
        ∧ ({ st with tempControl := st.tempControl.set t cell, heap := hp } : State).heap.released
            = st.heap.released := by
      intro cell hp hr
      refine ⟨fun u hu => get_set_ne _ _ _ _ (fun e => hu (by rw [e])), hr⟩
    cases hty : H.deviceType c.deviceFunction <;>
      simp only [ht, hty] at h <;> repeat' split at h
    all_goals first
      | (injection h with h; subst h; exact key _ _ (hrel _))
      | (injection h with h; subst h; simp)
      | (exact absurd h (by simp))

/-! ## Lemmas on the update -/

theorem parse_eq_update (H : Header) (request : List (List Char × List Char))
    (uninit : DeviceConfig) (st : State) (dev : DeviceDefinition)
    (hp : parseJson (handleDeviceDefinition H) request fill = some dev) :
    parseDeviceDefinition H request uninit st = updateDevice H dev uninit st := by
  simp [parseDeviceDefinition, hp]

theorem isDeviceValid_assignable (H : Header) (c o : DeviceConfig) (i : Nat)
    (h : isDeviceValid H c o i = true) :
    H.isAssignable (H.deviceType c.deviceFunction) c.deviceHardware = true := by
  unfold isDeviceValid at h
  cases hA : H.isAssignable (H.deviceType c.deviceFunction) c.deviceHardware
  · simp [hA] at h
  · rfl

/-- A valid update runs the two uninstalls, on a bound state without fault, and
then is the install followed by the store. -/
theorem update_uninstalls (H : Header) (hW : H.Wired) (dev : DeviceDefinition)
    (uninit : DeviceConfig) (st : State) (hB : st.Bound)
    (hid : inRangeInt8 dev.id 0 (toInt8 H.MAX_DEVICE_SLOT) = true)
    (hv : isDeviceValid H
      (mergedTarget H st dev uninit)
      (fetchOriginal st dev uninit) (toUInt8 dev.id) = true) :
    ∃ st1 st2,
      uninstallDevice H (fetchOriginal st dev uninit) st = some st1
      ∧ uninstallDevice H
          (mergedTarget H st dev uninit) st1 = some st2
      ∧ updateDevice H dev uninit st
          = (installDevice H
              (mergedTarget H st dev uninit) st2).map
              (fun st3 =>
                { state := storeDevice st3
                    (mergedTarget H st dev uninit)
                    (toUInt8 dev.id),
                  printed := some (dev.id,
                    mergedTarget H st dev uninit) })
      ∧ st2.Bound ∧ st.heap.room ≤ st2.heap.room ∧ st2.heap.next = st.heap.next
      ∧ st2.eeprom = st.eeprom
      ∧ (∀ t, deviceTarget H
            (mergedTarget H st dev uninit) = some t →
          st2.tempControl.get t = t.default)
      ∧ NoLeak st st2 := by
  obtain ⟨st1, h1, hB1, hr1, hn1, -, -, hL1, hm1⟩ :=
    uninstall_bound H hW (fetchOriginal st dev uninit) st hB
  obtain ⟨st2, h2, hB2, hr2, hn2, hd2, -, hL2, hm2⟩ :=
    uninstall_bound H hW
      (mergedTarget H st dev uninit) st1 hB1
  refine ⟨st1, st2, h1, h2, ?_, hB2, le_trans hr1 hr2, hn2.trans hn1, ?_, hd2, ?_⟩
  · unfold updateDevice
    simp only [hid, hv, h1, h2, Bool.not_true, Bool.false_eq_true, if_false, if_true]
    cases installDevice H
      (mergedTarget H st dev uninit) st2 <;> rfl
  · rw [uninstall_eeprom H _ st1 st2 h2, uninstall_eeprom H _ st st1 h1]
  · intro t n hb
    rcases hL1 t n hb with h | h
    · exact hL2 t n h
    · exact Or.inr (hm2 n h)

/-! ## Facts about the concrete header and states -/

theorem allDefault_bound (room : Nat) (eeprom : SlotTable) : (allDefault room eeprom).Bound := by
  refine ⟨fun t => Or.inl ?_, ?_, ?_⟩
  · cases t <;> rfl
  · intro t1 t2 n h1 h2
    cases t1 <;> simp [allDefault, TempControl.get, Target.default, Target.bind, Target.type,
      defaultOf] at h1
  · refine ⟨fun n hn => ?_, fun n hn => ?_⟩
    · simp [allDefault, Heap.live] at hn
    · simp [allDefault] at hn

theorem brewpi_kinds : brewpi.Kinds := by
  refine ⟨by decide, by decide, ?_⟩
  intro dt hw h hdt
  cases dt <;> simp [brewpi] at h hdt ⊢ <;> omega

/-! ## C2: an invalid update changes nothing -/

/-- C2: when the merged record fails `isDeviceValid`, `parseDeviceDefinition`
returns the state it was given (slot table, bindings and heap, so nothing is
stored, bound, created or released) and reports `original`, which for a slot
of the table is the record stored in that slot. -/
theorem parseDeviceDefinition_invalid (H : Header) (request : List (List Char × List Char))
    (uninit : DeviceConfig) (st : State) (dev : DeviceDefinition)
    (hp : parseJson (handleDeviceDefinition H) request fill = some dev)
    (hid : inRangeInt8 dev.id 0 (toInt8 H.MAX_DEVICE_SLOT) = true)
    (hv : isDeviceValid H (mergedTarget H st dev uninit) (fetchOriginal st dev uninit)
      (toUInt8 dev.id) = false) :
    parseDeviceDefinition H request uninit st
        = some { state := st, printed := some (dev.id, fetchOriginal st dev uninit) }
      ∧ (∀ h : toUInt8 dev.id < st.eeprom.length,
          fetchOriginal st dev uninit = st.eeprom[toUInt8 dev.id]) := by
  constructor
  · rw [parse_eq_update H request uninit st dev hp]
    unfold updateDevice
    simp [hid, hv]
  · intro h
    simp [fetchOriginal, fetchDevice, h]

/-- C2 at a concrete input: the beer probe request without a beer, on the
all-default state with sixteen cleared slots. -/
theorem parseDeviceDefinition_invalid_witness :
    parseJson (handleDeviceDefinition brewpi) noBeerRequest fill = some noBeerPatch
    ∧ inRangeInt8 noBeerPatch.id 0 (toInt8 brewpi.MAX_DEVICE_SLOT) = true
    ∧ isDeviceValid brewpi (mergedTarget brewpi (allDefault 8 emptySlots) noBeerPatch clear)
        (fetchOriginal (allDefault 8 emptySlots) noBeerPatch clear) (toUInt8 noBeerPatch.id) = false
    ∧ (parseDeviceDefinition brewpi noBeerRequest clear (allDefault 8 emptySlots)
        = some { state := allDefault 8 emptySlots,
                 printed := some (noBeerPatch.id,
                   fetchOriginal (allDefault 8 emptySlots) noBeerPatch clear) }
      ∧ (∀ h : toUInt8 noBeerPatch.id < (allDefault 8 emptySlots).eeprom.length,
          fetchOriginal (allDefault 8 emptySlots) noBeerPatch clear
            = (allDefault 8 emptySlots).eeprom[toUInt8 noBeerPatch.id])) :=
  ⟨by decide, by decide, by decide,
    parseDeviceDefinition_invalid brewpi noBeerRequest clear (allDefault 8 emptySlots) noBeerPatch
      (by decide) (by decide) (by decide)⟩

/-! ## C3: a valid update stores and reports the merged record -/

/-- A valid update, when it returns, has stored `target` by `storeDevice` and
reports it. -/
theorem update_valid_outcome (H : Header) (dev : DeviceDefinition) (uninit : DeviceConfig)
    (st : State) (o : Outcome)
    (hid : inRangeInt8 dev.id 0 (toInt8 H.MAX_DEVICE_SLOT) = true)
    (hv : isDeviceValid H (mergedTarget H st dev uninit) (fetchOriginal st dev uninit)
      (toUInt8 dev.id) = true)
    (ho : updateDevice H dev uninit st = some o) :
    o.state.eeprom = st.eeprom.set (toUInt8 dev.id) (mergedTarget H st dev uninit)
      ∧ o.printed = some (dev.id, mergedTarget H st dev uninit) := by
  unfold updateDevice at ho
  simp only [hid, hv, Bool.not_true, Bool.false_eq_true, if_false, if_true] at ho
  cases h1 : uninstallDevice H (fetchOriginal st dev uninit) st with
  | none => simp [h1] at ho
  | some st1 =>
    cases h2 : uninstallDevice H (mergedTarget H st dev uninit) st1 with
    | none => simp [h1, h2] at ho
    | some st2 =>
      cases h3 : installDevice H (mergedTarget H st dev uninit) st2 with
      | none => simp [h1, h2, h3] at ho
      | some st3 =>
        simp only [h1, h2, h3, Option.some.injEq] at ho
        subst ho
        refine ⟨?_, rfl⟩
        simp only [storeDevice]
        rw [install_eeprom H _ st2 st3 h3, uninstall_eeprom H _ st1 st2 h2,
          uninstall_eeprom H _ st st1 h1]

theorem type_ne_none (t : Target) : t.type ≠ .DEVICETYPE_NONE := by
  cases t <;> simp [Target.type]

/-- Install of a valid, active config on a target at its default, with room on
the heap: the target is bound to one fresh object, built from the config. -/
theorem install_default (H : Header) (hW : H.Wired) (hK : H.Kinds) (c o : DeviceConfig)
    (i : Nat) (hv : isDeviceValid H c o i = true) (st : State) (hr : 0 < st.heap.room)
    (t : Target) (ht : deviceTarget H c = some t) (hd : st.tempControl.get t = t.default)
    (hde : c.hw.deactivate = false) :
    installDevice H c st = some { st with
      tempControl := st.tempControl.set t (t.bind (.heap st.heap.next)),
      heap := { st.heap with
        objects := (st.heap.next, deviceFor H c t.type) :: st.heap.objects,
        next := st.heap.next + 1, room := st.heap.room - 1 } } := by
  obtain ⟨hty, -⟩ := deviceTarget_wired H hW c t ht
  have hA := isDeviceValid_assignable H c o i hv
  rw [hty] at hA
  have hhw := hK.2.2 _ _ hA (type_ne_none t)
  have hc := createDevice_room H hK c t.type st.heap hr hhw
  have := install_resolved H hW c st t (defaultOf t.type) ht hde hd (by rw [hc]; simp)
  rw [this, hc]

/-- A valid update on a bound state with room on the heap returns. -/
theorem update_valid_defined (H : Header) (hW : H.Wired) (hK : H.Kinds)
    (dev : DeviceDefinition) (uninit : DeviceConfig) (st : State) (hB : st.Bound)
    (hr : 0 < st.heap.room)
    (hid : inRangeInt8 dev.id 0 (toInt8 H.MAX_DEVICE_SLOT) = true)
    (hv : isDeviceValid H (mergedTarget H st dev uninit) (fetchOriginal st dev uninit)
      (toUInt8 dev.id) = true) :
    ∃ o, updateDevice H dev uninit st = some o := by
  obtain ⟨st1, st2, -, -, hu, hB2, hr2, -, -, hd2, -⟩ :=
    update_uninstalls H hW dev uninit st hB hid hv
  rw [hu]
  cases ht : deviceTarget H (mergedTarget H st dev uninit) with
  | none => rw [install_skipped H _ st2 (Or.inl ht)]; exact ⟨_, rfl⟩
  | some t =>
    cases hde : (mergedTarget H st dev uninit).hw.deactivate with
    | true => rw [install_skipped H _ st2 (Or.inr hde)]; exact ⟨_, rfl⟩
    | false =>
      rw [install_default H hW hK _ _ _ hv st2 (by omega) t ht (hd2 t ht) hde]
      exact ⟨_, rfl⟩

/-- For a patch whose merged record `target` passes `isDeviceValid`, every
outcome of `parseDeviceDefinition` has `target` in slot `s` of the table (when
`s` is a slot of the table), every other slot as before, and reports `target`;
and on a bound state with room on the heap there is an outcome. -/
theorem parseDeviceDefinition_valid_store (H : Header)
    (request : List (List Char × List Char)) (uninit : DeviceConfig) (st : State)
    (dev : DeviceDefinition)
    (hp : parseJson (handleDeviceDefinition H) request fill = some dev)
    (hid : inRangeInt8 dev.id 0 (toInt8 H.MAX_DEVICE_SLOT) = true)
    (hv : isDeviceValid H (mergedTarget H st dev uninit) (fetchOriginal st dev uninit)
      (toUInt8 dev.id) = true) :
    (∀ o, parseDeviceDefinition H request uninit st = some o →
        (toUInt8 dev.id < st.eeprom.length →
          o.state.eeprom[toUInt8 dev.id]? = some (mergedTarget H st dev uninit))
        ∧ (∀ j, j ≠ toUInt8 dev.id → o.state.eeprom[j]? = st.eeprom[j]?)
        ∧ o.state.eeprom.length = st.eeprom.length
        ∧ o.printed = some (dev.id, mergedTarget H st dev uninit))
    ∧ (H.Wired → H.Kinds → st.Bound → 0 < st.heap.room →
        ∃ o, parseDeviceDefinition H request uninit st = some o) := by
  rw [parse_eq_update H request uninit st dev hp]
  constructor
  · intro o ho
    obtain ⟨he, hpr⟩ := update_valid_outcome H dev uninit st o hid hv ho
    refine ⟨?_, ?_, ?_, hpr⟩
    · intro h; rw [he]; simp [h]
    · intro j hj; rw [he]; simp [List.getElem?_set, Ne.symm hj]
    · rw [he]; simp
  · intro hW hK hB hr
    exact update_valid_defined H hW hK dev uninit st hB hr hid hv

/-- The store of a valid update at a concrete input: the beer probe request on
the all-default state with sixteen cleared slots. -/
theorem parseDeviceDefinition_valid_store_witness :
    parseJson (handleDeviceDefinition brewpi) beerProbeRequest fill = some beerProbePatch
    ∧ inRangeInt8 beerProbePatch.id 0 (toInt8 brewpi.MAX_DEVICE_SLOT) = true
    ∧ isDeviceValid brewpi (mergedTarget brewpi (allDefault 8 emptySlots) beerProbePatch clear)
        (fetchOriginal (allDefault 8 emptySlots) beerProbePatch clear)
        (toUInt8 beerProbePatch.id) = true
    ∧ mergedTarget brewpi (allDefault 8 emptySlots) beerProbePatch clear = beerProbe
    ∧ (∃ o, parseDeviceDefinition brewpi beerProbeRequest clear (allDefault 8 emptySlots) = some o
        ∧ o.state.eeprom[0]? = some beerProbe
        ∧ (∀ j, j ≠ 0 → o.state.eeprom[j]? = emptySlots[j]?)
        ∧ o.printed = some (0, beerProbe)) := by
  have h := parseDeviceDefinition_valid_store brewpi beerProbeRequest clear
    (allDefault 8 emptySlots) beerProbePatch (by decide) (by decide) (by decide)
  have hm : mergedTarget brewpi (allDefault 8 emptySlots) beerProbePatch clear = beerProbe := by
    decide
  obtain ⟨o, ho⟩ := h.2 (by decide) brewpi_kinds (allDefault_bound _ _) (by decide)
  obtain ⟨h1, h2, -, h4⟩ := h.1 o ho
  refine ⟨by decide, by decide, by decide, hm, o, ho, ?_, ?_, ?_⟩
  · rw [← hm]; exact h1 (by decide)
  · intro j hj; exact h2 j hj
  · rw [← hm]; exact h4

/-- C3 fails on the code at the id `MAX_DEVICE_SLOT`: the request with id 16 for
a heater passes the range check and `isDeviceValid`, the merged record is
reported, and the table of sixteen slots is as before: no slot holds the
record.  And on a full heap the valid request for the room temperature sensor
has no outcome: `init()` is called through the null pointer `createDevice`
returned. -/
theorem valid_update_outside_table :
    emptySlots.length = brewpi.MAX_DEVICE_SLOT
    ∧ (∃ dev o, parseJson (handleDeviceDefinition brewpi) lastSlotRequest fill = some dev
        ∧ dev.id = 16
        ∧ mergedTarget brewpi (allDefault 8 emptySlots) dev clear = heaterPin
        ∧ isDeviceValid brewpi (mergedTarget brewpi (allDefault 8 emptySlots) dev clear)
            (fetchOriginal (allDefault 8 emptySlots) dev clear) (toUInt8 dev.id) = true
        ∧ parseDeviceDefinition brewpi lastSlotRequest clear (allDefault 8 emptySlots) = some o
        ∧ o.printed = some (16, heaterPin)
        ∧ o.state.eeprom = emptySlots
        ∧ heaterPin ∉ o.state.eeprom
        ∧ o.state.eeprom[16]? = none)
    ∧ (∃ dev, parseJson (handleDeviceDefinition brewpi) ambientRequest fill = some dev
        ∧ isDeviceValid brewpi (mergedTarget brewpi (allDefault 0 emptySlots) dev clear)
            (fetchOriginal (allDefault 0 emptySlots) dev clear) (toUInt8 dev.id) = true
        ∧ parseDeviceDefinition brewpi ambientRequest clear (allDefault 0 emptySlots) = none) :=
  ⟨by decide,
   ⟨_, _, rfl, by decide, by decide, by decide, rfl, by decide, by decide, by decide,
     by decide⟩,
   ⟨_, rfl, by decide, by decide⟩⟩

/-! ## C4: a valid update binds a new instance built from the record -/

/-- What `deviceFor` is for each buildable hardware kind. -/
theorem deviceFor_kinds (H : Header) (hK : H.Kinds) (c : DeviceConfig) (dt : DeviceType) :
    (c.deviceHardware = H.DEVICE_HARDWARE_PIN →
      deviceFor H c dt =
        if dt = .DEVICETYPE_SWITCH_SENSOR then .DigitalPinSensor c.hw.pinNr c.hw.invert
        else .DigitalPinActuator c.hw.pinNr c.hw.invert)
    ∧ (c.deviceHardware = H.DEVICE_HARDWARE_ONEWIRE_TEMP →
      deviceFor H c dt =
        .OneWireTempSensor (oneWireBus H c.hw.pinNr) c.hw.address c.hw.calibration)
    ∧ (H.BREWPI_DS2413 = true → c.deviceHardware = H.DEVICE_HARDWARE_ONEWIRE_2413 →
      deviceFor H c dt =
        .OneWireActuator (oneWireBus H c.hw.pinNr) c.hw.address c.hw.pio c.hw.invert) := by
  obtain ⟨hn, h24, -⟩ := hK
  simp only [List.nodup_cons, List.mem_cons, List.mem_singleton, not_or, List.not_mem_nil,
    not_false_eq_true, List.nodup_nil, and_true] at hn h24
  unfold deviceFor
  refine ⟨fun e => by simp [e], fun e => ?_, fun hf e => ?_⟩
  · have h2 : H.DEVICE_HARDWARE_ONEWIRE_TEMP ≠ H.DEVICE_HARDWARE_PIN := fun x => hn.2 x.symm
    simp [e, h2]
  · obtain ⟨-, g2, g3⟩ := h24 hf
    simp [e, g2, g3]

/-- C4, the claim as stated, fails when the allocation fails: on the all-default
state with a full heap the valid request for the heater on pin 6, resolvable
and not deactivated, is stored, and `heater` holds the null pointer that
`createDevice` returned; no instance was created. -/
theorem valid_update_without_room :
    (allDefault 0 emptySlots).Bound
    ∧ ∃ dev o, parseJson (handleDeviceDefinition brewpi) heaterRequest fill = some dev
        ∧ isDeviceValid brewpi (mergedTarget brewpi (allDefault 0 emptySlots) dev clear)
            (fetchOriginal (allDefault 0 emptySlots) dev clear) (toUInt8 dev.id) = true
        ∧ deviceTarget brewpi (mergedTarget brewpi (allDefault 0 emptySlots) dev clear)
            = some .heater
        ∧ (mergedTarget brewpi (allDefault 0 emptySlots) dev clear).hw.deactivate = false
        ∧ createDevice brewpi (mergedTarget brewpi (allDefault 0 emptySlots) dev clear)
            .DEVICETYPE_SWITCH_ACTUATOR (allDefault 0 emptySlots).heap
            = (.null, (allDefault 0 emptySlots).heap)
        ∧ parseDeviceDefinition brewpi heaterRequest clear (allDefault 0 emptySlots) = some o
        ∧ o.state.eeprom[0]? = some heaterPin
        ∧ o.state.tempControl.heater = .device .null
        ∧ o.state.heap.objects = [] :=
  ⟨allDefault_bound 0 emptySlots,
   _, _, rfl, by decide, by decide, by decide, by decide, rfl, by decide, by decide, by decide⟩

/-- C4 as amended: a valid update whose merged record resolves to a target `t`
and is not deactivated, on a bound state with room on the heap (so that the
allocation in `createDevice` succeeds), leaves `t` bound to an instance `n`
that did not exist before and that
`createDevice` built from the record: for a digital pin from pin and invert
(a switch sensor or an actuator after the device type), for a temperature
probe from the bus of the pin, address and calibration, for a multi-channel
io from the bus of the pin, address, channel and invert.  For `fridgeSensor`
and `beerSensor` the cell stays an adapter, with `n` as inner sensor. -/
theorem parseDeviceDefinition_installs (H : Header) (hW : H.Wired) (hK : H.Kinds)
    (request : List (List Char × List Char)) (uninit : DeviceConfig) (st : State)
    (dev : DeviceDefinition) (t : Target) (hB : st.Bound) (hr : 0 < st.heap.room)
    (hp : parseJson (handleDeviceDefinition H) request fill = some dev)
    (hid : inRangeInt8 dev.id 0 (toInt8 H.MAX_DEVICE_SLOT) = true)
    (hv : isDeviceValid H (mergedTarget H st dev uninit) (fetchOriginal st dev uninit)
      (toUInt8 dev.id) = true)
    (ht : deviceTarget H (mergedTarget H st dev uninit) = some t)
    (hde : (mergedTarget H st dev uninit).hw.deactivate = false) :
    ∃ o n d, parseDeviceDefinition H request uninit st = some o
      ∧ o.state.tempControl.get t = t.bind (.heap n)
      ∧ ((t = .fridgeSensor ∨ t = .beerSensor) →
          o.state.tempControl.get t = .tempSensor (.heap n))
      ∧ st.heap.live n = false ∧ n ∉ st.heap.released
      ∧ o.state.heap.objects.lookup n = some d
      ∧ ((mergedTarget H st dev uninit).deviceHardware = H.DEVICE_HARDWARE_PIN
          ∨ (mergedTarget H st dev uninit).deviceHardware = H.DEVICE_HARDWARE_ONEWIRE_TEMP
          ∨ (H.BREWPI_DS2413 = true
              ∧ (mergedTarget H st dev uninit).deviceHardware = H.DEVICE_HARDWARE_ONEWIRE_2413))
      ∧ ((mergedTarget H st dev uninit).deviceHardware = H.DEVICE_HARDWARE_PIN →
          d = if H.deviceType (mergedTarget H st dev uninit).deviceFunction
                = .DEVICETYPE_SWITCH_SENSOR
              then .DigitalPinSensor (mergedTarget H st dev uninit).hw.pinNr
                (mergedTarget H st dev uninit).hw.invert
              else .DigitalPinActuator (mergedTarget H st dev uninit).hw.pinNr
                (mergedTarget H st dev uninit).hw.invert)
      ∧ ((mergedTarget H st dev uninit).deviceHardware = H.DEVICE_HARDWARE_ONEWIRE_TEMP →
          d = .OneWireTempSensor (oneWireBus H (mergedTarget H st dev uninit).hw.pinNr)
                (mergedTarget H st dev uninit).hw.address
                (mergedTarget H st dev uninit).hw.calibration)
      ∧ (H.BREWPI_DS2413 = true →
          (mergedTarget H st dev uninit).deviceHardware = H.DEVICE_HARDWARE_ONEWIRE_2413 →
          d = .OneWireActuator (oneWireBus H (mergedTarget H st dev uninit).hw.pinNr)
                (mergedTarget H st dev uninit).hw.address
                (mergedTarget H st dev uninit).hw.pio
                (mergedTarget H st dev uninit).hw.invert) := by
  obtain ⟨st1, st2, -, -, hu, hB2, hr2, hn2, -, hd2, -⟩ :=
    update_uninstalls H hW dev uninit st hB hid hv
  obtain ⟨hty, -⟩ := deviceTarget_wired H hW _ t ht
  have hA := isDeviceValid_assignable H _ _ _ hv
  have hhw := hK.2.2 _ _ hA (by rw [hty]; exact type_ne_none t)
  obtain ⟨k1, k2, k3⟩ := deviceFor_kinds H hK (mergedTarget H st dev uninit) t.type
  rw [parse_eq_update H request uninit st dev hp, hu,
    install_default H hW hK _ _ _ hv st2 (by omega) t ht (hd2 t ht) hde]
  refine ⟨_, st2.heap.next, deviceFor H (mergedTarget H st dev uninit) t.type, rfl, ?_, ?_, ?_,
    ?_, ?_, hhw, ?_, k2, k3⟩
  · exact get_set_same _ _ _
  · intro h
    simp only [storeDevice, get_set_same]
    rcases h with h | h <;> subst h <;> rfl
  · cases hl : st.heap.live st2.heap.next
    · rfl
    · have := (hB.2.2.1 _ hl).1
      omega
  · intro hm
    have := hB.2.2.2 _ hm
    omega
  · simp [storeDevice, List.lookup_cons]
  · rw [hty]; exact k1

/-- C4 as amended, at its concrete input: cleared slot 0 patched with beer 1, function beer
temperature, hardware temperature probe, pin 4 and address 28AABBCCDDEEFF00:
the beer-temperature adapter's inner sensor is a new probe on the bus of pin 4
with that address. -/
theorem parseDeviceDefinition_installs_witness :
    brewpi.Wired ∧ brewpi.Kinds
    ∧ (allDefault 8 emptySlots).Bound ∧ 0 < (allDefault 8 emptySlots).heap.room
    ∧ parseJson (handleDeviceDefinition brewpi) beerProbeRequest fill = some beerProbePatch
    ∧ inRangeInt8 beerProbePatch.id 0 (toInt8 brewpi.MAX_DEVICE_SLOT) = true
    ∧ isDeviceValid brewpi (mergedTarget brewpi (allDefault 8 emptySlots) beerProbePatch clear)
        (fetchOriginal (allDefault 8 emptySlots) beerProbePatch clear)
        (toUInt8 beerProbePatch.id) = true
    ∧ deviceTarget brewpi (mergedTarget brewpi (allDefault 8 emptySlots) beerProbePatch clear)
        = some .beerSensor
    ∧ (mergedTarget brewpi (allDefault 8 emptySlots) beerProbePatch clear).hw.deactivate = false
    ∧ (∃ o n, parseDeviceDefinition brewpi beerProbeRequest clear (allDefault 8 emptySlots)
          = some o
        ∧ o.state.tempControl.beerSensor = .tempSensor (.heap n)
        ∧ o.state.heap.objects.lookup n
            = some (.OneWireTempSensor (some .primaryOneWireBus)
                [0x28, 0xAA, 0xBB, 0xCC, 0xDD, 0xEE, 0xFF, 0x00] 0)) := by
  obtain ⟨o, n, d, ho, -, h2, -, -, h4, -, -, h6, -⟩ :=
    parseDeviceDefinition_installs brewpi (by decide) brewpi_kinds beerProbeRequest clear
      (allDefault 8 emptySlots) beerProbePatch .beerSensor (allDefault_bound _ _) (by decide)
      (by decide) (by decide) (by decide) (by decide) (by decide)
  refine ⟨by decide, brewpi_kinds, allDefault_bound _ _, by decide, by decide, by decide,
    by decide, by decide, by decide, o, n, ho, h2 (Or.inr rfl), ?_⟩
  rw [h4, h6 (by decide)]
  decide

/-! ## C5: a patch that supplies only index and pin -/

/-- C5, the claim as stated, fails on a slot whose function is none: the patch
of index 0 and pin 5 on the cleared slot 0 merges to the cleared record, whose
pin is 0, and that record is what the update stores.  It also fails for a pin
the `int8_t` member of the patch cannot hold: pin 200 reads as negative, so
the stored pin 6 of the heater in slot 0 is kept. -/
theorem pin_only_patch_cleared :
    (parseJson (handleDeviceDefinition brewpi) pinOnlyRequest fill
        = some { fill with id := 0, pinNr := 5 }
      ∧ (mergedTarget brewpi (allDefault 8 emptySlots) { fill with id := 0, pinNr := 5 }
          clear).hw.pinNr ≠ 5
      ∧ ∃ o, parseDeviceDefinition brewpi pinOnlyRequest clear (allDefault 8 emptySlots) = some o
          ∧ (o.state.eeprom[0]?.map (fun c => c.hw.pinNr)) = some 0)
    ∧ (∃ dev, parseJson (handleDeviceDefinition brewpi) highPinRequest fill = some dev
        ∧ (mergedTarget brewpi heaterInstalled dev clear).hw.pinNr = 6) := by
  refine ⟨⟨by decide, by decide, ?_⟩, _, rfl, by decide⟩
  exact ⟨_, rfl, by decide⟩

/-- C5 as amended: for a slot `s` whose stored function is not none, the patch
that supplies only index `s` and pin `p` (in 0..127, all other members at the
sentinel) merges to the stored record with pin `p`, every other member as
stored; and when the update succeeds that record is the one stored in slot
`s`. -/
theorem pin_only_patch (H : Header) (request : List (List Char × List Char))
    (uninit : DeviceConfig) (st : State) (s p : Nat)
    (hs : s < st.eeprom.length) (hs7 : s ≤ 127) (hp7 : p ≤ 127)
    (hp : parseJson (handleDeviceDefinition H) request fill
      = some { fill with id := (s : Int), pinNr := (p : Int) })
    (hf : (st.eeprom[s]).deviceFunction ≠ H.DEVICE_NONE) :
    mergedTarget H st { fill with id := (s : Int), pinNr := (p : Int) } uninit
        = { st.eeprom[s] with hw := { (st.eeprom[s]).hw with pinNr := p } }
    ∧ (inRangeInt8 (s : Int) 0 (toInt8 H.MAX_DEVICE_SLOT) = true →
        isDeviceValid H { st.eeprom[s] with hw := { (st.eeprom[s]).hw with pinNr := p } }
          st.eeprom[s] s = true →
        ∀ o, parseDeviceDefinition H request uninit st = some o →
          o.state.eeprom[s]?
            = some { st.eeprom[s] with hw := { (st.eeprom[s]).hw with pinNr := p } }) := by
  have hid : toUInt8 (s : Int) = s := by
    rw [toUInt8_of_range _ (by omega) (by omega)]; simp
  have hpin : toUInt8 (p : Int) = p := by
    rw [toUInt8_of_range _ (by omega) (by omega)]; simp
  have ho : fetchOriginal st { fill with id := (s : Int), pinNr := (p : Int) } uninit
      = st.eeprom[s] := by
    simp [fetchOriginal, fetchDevice, hid, hs]
  have hm : mergedTarget H st { fill with id := (s : Int), pinNr := (p : Int) } uninit
      = { st.eeprom[s] with hw := { (st.eeprom[s]).hw with pinNr := p } } := by
    unfold mergedTarget mergeDefinition
    rw [ho]
    simp [patchFields, fill, hpin, hf]
  refine ⟨hm, ?_⟩
  intro hg hv o hpo
  rw [parse_eq_update H request uninit st _ hp] at hpo
  have hv2 : isDeviceValid H
      (mergedTarget H st { fill with id := (s : Int), pinNr := (p : Int) } uninit)
      (fetchOriginal st { fill with id := (s : Int), pinNr := (p : Int) } uninit)
      (toUInt8 (s : Int)) = true := by
    rw [hm, ho, hid]; exact hv
  obtain ⟨he, -⟩ := update_valid_outcome H _ uninit st o hg hv2 hpo
  rw [he, hm]
  simp [hid, hs]

/-- C5 as amended, at a concrete input: slot 0 holds the heater on pin 6 and the
request supplies index 0 and pin 5. -/
theorem pin_only_patch_witness :
    (0 : Nat) < heaterInstalled.eeprom.length
    ∧ parseJson (handleDeviceDefinition brewpi) pinOnlyRequest fill
        = some { fill with id := ((0 : Nat) : Int), pinNr := ((5 : Nat) : Int) }
    ∧ (heaterInstalled.eeprom[0]?.map (fun c => c.deviceFunction)) = some 2
    ∧ mergedTarget brewpi heaterInstalled
          { fill with id := ((0 : Nat) : Int), pinNr := ((5 : Nat) : Int) } clear
        = { heaterPin with hw := { heaterPin.hw with pinNr := 5 } }
    ∧ ∃ o, parseDeviceDefinition brewpi pinOnlyRequest clear heaterInstalled = some o
        ∧ o.state.eeprom[0]? = some { heaterPin with hw := { heaterPin.hw with pinNr := 5 } } := by
  have h := pin_only_patch brewpi pinOnlyRequest clear heaterInstalled 0 5 (by decide)
    (by decide) (by decide) (by decide) (by decide)
  refine ⟨by decide, by decide, by decide, h.1, _, rfl, ?_⟩
  exact h.2 (by decide) (by decide) _ rfl

/-! ## C6: the channel key of a patch -/

/-- C6 fails on the code: the member `pio` of the patch, which key `n` fills, is
never read by the merge, so the merged record does not depend on it; and on
the request for channel 1 of a multi-channel io device the merged record, with
that hardware and a function other than none, has channel 0. -/
theorem channel_key_dropped :
    (∀ (H : Header) (dev : DeviceDefinition) (original : DeviceConfig) (n : Int),
        mergeDefinition H { dev with pio := n } original = mergeDefinition H dev original)
    ∧ ∃ dev, parseJson (handleDeviceDefinition brewpi) channelRequest fill = some dev
        ∧ dev.pio = 1
        ∧ (mergedTarget brewpi (allDefault 8 emptySlots) dev clear).deviceHardware
            = brewpi.DEVICE_HARDWARE_ONEWIRE_2413
        ∧ (mergedTarget brewpi (allDefault 8 emptySlots) dev clear).deviceFunction
            ≠ brewpi.DEVICE_NONE
        ∧ isDeviceValid brewpi (mergedTarget brewpi (allDefault 8 emptySlots) dev clear)
            (fetchOriginal (allDefault 8 emptySlots) dev clear) (toUInt8 dev.id) = true
        ∧ (mergedTarget brewpi (allDefault 8 emptySlots) dev clear).hw.pio = 0 := by
  refine ⟨fun H dev original n => rfl, _, rfl, ?_⟩
  decide

/-! ## C7: a merged function of none clears the record -/

/-- C7: when the function of the patched record is `DEVICE_NONE`, the record
handed to `isDeviceValid` is the cleared record, every member zero whatever
the patch and the original hold; and when it is valid, every outcome of the
update has the cleared record in the slot and reports it. -/
theorem function_none_clears (H : Header) (request : List (List Char × List Char))
    (uninit : DeviceConfig) (st : State) (dev : DeviceDefinition)
    (hp : parseJson (handleDeviceDefinition H) request fill = some dev)
    (hn : (patchFields dev (fetchOriginal st dev uninit)).deviceFunction = H.DEVICE_NONE) :
    mergedTarget H st dev uninit = clear
    ∧ ((mergedTarget H st dev uninit).chamber = 0
        ∧ (mergedTarget H st dev uninit).beer = 0
        ∧ (mergedTarget H st dev uninit).deviceFunction = 0
        ∧ (mergedTarget H st dev uninit).deviceHardware = 0
        ∧ (mergedTarget H st dev uninit).hw.pinNr = 0
        ∧ (mergedTarget H st dev uninit).hw.invert = false
        ∧ (mergedTarget H st dev uninit).hw.deactivate = false
        ∧ (mergedTarget H st dev uninit).hw.address = [0, 0, 0, 0, 0, 0, 0, 0]
        ∧ (mergedTarget H st dev uninit).hw.calibration = 0
        ∧ (mergedTarget H st dev uninit).hw.pio = 0)
    ∧ (inRangeInt8 dev.id 0 (toInt8 H.MAX_DEVICE_SLOT) = true →
        isDeviceValid H (mergedTarget H st dev uninit) (fetchOriginal st dev uninit)
          (toUInt8 dev.id) = true →
        ∀ o, parseDeviceDefinition H request uninit st = some o →
          (toUInt8 dev.id < st.eeprom.length → o.state.eeprom[toUInt8 dev.id]? = some clear)
          ∧ o.printed = some (dev.id, clear)) := by
  have hm : mergedTarget H st dev uninit = clear := by
    unfold mergedTarget mergeDefinition
    simp [hn]
  refine ⟨hm, ?_, ?_⟩
  · rw [hm]; decide
  · intro hid hv o ho
    rw [parse_eq_update H request uninit st dev hp] at ho
    obtain ⟨he, hpr⟩ := update_valid_outcome H dev uninit st o hid hv ho
    rw [hm] at he hpr
    refine ⟨fun h => ?_, hpr⟩
    rw [he]; simp [h]

/-- C7 at a concrete input: slot 0 holds the heater on pin 6, and the request
sets function none together with chamber 1 and pin 7. -/
theorem function_none_clears_witness :
    (∃ dev, parseJson (handleDeviceDefinition brewpi) clearRequest fill = some dev
      ∧ (patchFields dev (fetchOriginal heaterInstalled dev clear)).deviceFunction
          = brewpi.DEVICE_NONE
      ∧ (patchFields dev (fetchOriginal heaterInstalled dev clear)).chamber = 1
      ∧ (patchFields dev (fetchOriginal heaterInstalled dev clear)).hw.pinNr = 7
      ∧ mergedTarget brewpi heaterInstalled dev clear = clear)
    ∧ ∃ o, parseDeviceDefinition brewpi clearRequest clear heaterInstalled = some o
        ∧ o.state.eeprom[0]? = some clear ∧ o.printed = some (0, clear) := by
  have h := function_none_clears brewpi clearRequest clear heaterInstalled
    { fill with id := 0, deviceFunction := 0, chamber := 1, pinNr := 7 } (by decide) (by decide)
  refine ⟨⟨_, rfl, by decide, by decide, by decide, h.1⟩, _, rfl, ?_⟩
  have h2 := h.2.2 (by decide) (by decide) _ rfl
  exact ⟨h2.1 (by decide), h2.2⟩

/-! ## C8: uninstall is idempotent -/

/-- C8: on a state in which every target holds its default or an owned
instance, `uninstallDevice` returns a state on which a second
`uninstallDevice` of the same config returns that same state (so it releases
nothing), the target of the config's function is bound to its default, and
the only instance the first call can release is the one that target held, so
that a release log without repetition stays without repetition. -/
theorem uninstallDevice_idempotent (H : Header) (hW : H.Wired) (config : DeviceConfig)
    (st : State) (hH : ∀ t, st.Holds t) :
    ∃ st1, uninstallDevice H config st = some st1
      ∧ uninstallDevice H config st1 = some st1
      ∧ (uninstallDevice H config st).bind (uninstallDevice H config)
          = uninstallDevice H config st
      ∧ (∀ t, deviceTarget H config = some t → st1.tempControl.get t = t.default)
      ∧ (∀ n, n ∈ st1.heap.released →
          n ∈ st.heap.released
          ∨ ∃ t, deviceTarget H config = some t ∧ st.tempControl.get t = t.bind (.heap n))
      ∧ (st.heap.Sound → st.heap.released.Nodup → st1.heap.released.Nodup) := by
  cases ht : deviceTarget H config with
  | none =>
    have h := uninstall_unresolved H config st ht
    exact ⟨st, h, h, by simp [h], by simp, fun n hn => Or.inl hn, fun _ hn => hn⟩
  | some t =>
    rcases hH t with hd | ⟨n, hb, hl⟩
    · have h := uninstall_default H hW config st t ht hd
      refine ⟨st, h, h, by simp [h], ?_, fun n hn => Or.inl hn, fun _ hn => hn⟩
      intro u hu; cases hu; exact hd
    · have h := uninstall_owned H hW config st t n ht hb hl
      have h2 := uninstall_default H hW config
        { st with
            tempControl := st.tempControl.set t t.default,
            heap := { st.heap with objects := st.heap.objects.filter (fun o => o.1 != n),
                                   room := st.heap.room + 1,
                                   released := n :: st.heap.released } } t ht
        (get_set_same st.tempControl t t.default)
      refine ⟨_, h, h2, by rw [h]; exact h2, ?_, ?_, ?_⟩
      · intro u hu; cases hu; exact get_set_same _ _ _
      · intro m hm
        simp only [List.mem_cons] at hm
        rcases hm with hm | hm
        · subst hm; exact Or.inr ⟨t, rfl, hb⟩
        · exact Or.inl hm
      · intro hS hN
        exact List.nodup_cons.mpr ⟨(hS.1 n hl).2, hN⟩

theorem heaterInstalled_holds : ∀ t, heaterInstalled.Holds t := by
  intro t
  cases t
  case heater => exact Or.inr ⟨0, rfl, by decide⟩
  all_goals exact Or.inl rfl

/-- C8 at a concrete input: uninstalling the heater from the state in which it
is installed releases heap object 0 once and binds the default actuator. -/
theorem uninstallDevice_idempotent_witness :
    brewpi.Wired ∧ (∀ t, heaterInstalled.Holds t)
    ∧ ∃ st1, uninstallDevice brewpi heaterPin heaterInstalled = some st1
        ∧ uninstallDevice brewpi heaterPin st1 = some st1
        ∧ st1.tempControl.heater = .device .defaultActuator
        ∧ st1.heap.released = [0] := by
  obtain ⟨st1, h1, h2, -, h4, -, -⟩ :=
    uninstallDevice_idempotent brewpi (by decide) heaterPin heaterInstalled heaterInstalled_holds
  refine ⟨by decide, heaterInstalled_holds, st1, h1, h2, h4 .heater (by decide), ?_⟩
  have e : uninstallDevice brewpi heaterPin heaterInstalled
      = some { heaterInstalled with
          tempControl := heaterInstalled.tempControl.set .heater Target.heater.default,
          heap := { objects := [], next := 1, room := 8, released := [0] } } := by decide
  rw [e] at h1
  injection h1 with h1
  rw [← h1]

/-! ## C9: the binding invariant -/

theorem null_not_holds (st : State) (h : st.tempControl.door = .device .null) :
    ¬ st.Holds .door := by
  intro hH
  rcases hH with hd | ⟨n, hb, -⟩
  · simp [TempControl.get, h, Target.default, Target.bind, Target.type, defaultOf] at hd
  · simp [TempControl.get, h, Target.bind] at hb

/-- C9 fails on the code: from the all-default state with room for one object
on the heap, the update that installs the heater takes that room and the
following valid update that installs the door switch leaves `door` bound to
`NULL`; and from the all-default state with room, `installDevice` of a door
switch config of hardware kind none does the same.  Both states break the
binding invariant. -/
theorem binding_null_after_install :
    (∃ st, runAll brewpi
          [.parseDeviceDefinition heaterRequest clear, .parseDeviceDefinition doorRequest clear]
          (allDefault 1 emptySlots) = some st
        ∧ st.tempControl.heater = .device (.heap 0)
        ∧ st.tempControl.door = .device .null
        ∧ ¬ st.Bound)
    ∧ (∃ st, runAll brewpi [.installDevice { clear with chamber := 1, deviceFunction := 1 }]
          (allDefault 8 emptySlots) = some st
        ∧ st.tempControl.door = .device .null
        ∧ ¬ st.Bound) := by
  constructor
  · refine ⟨_, rfl, by decide, by decide, ?_⟩
    intro hB
    exact null_not_holds _ (by decide) (hB.1 .door)
  · refine ⟨_, rfl, by decide, ?_⟩
    intro hB
    exact null_not_holds _ (by decide) (hB.1 .door)

/-! ## C10: no leak on update -/

/-- C10: a valid update on a bound state runs `uninstallDevice` on the original
record, then on the merged record, and only then `installDevice` on the merged
record, so that install finds the target of the merged record's function at
its default; every instance bound before the update is, in every outcome,
still bound to its target or in the release log; and with room on the heap
there is an outcome. -/
theorem parseDeviceDefinition_no_leak (H : Header) (hW : H.Wired)
    (request : List (List Char × List Char)) (uninit : DeviceConfig) (st : State)
    (dev : DeviceDefinition) (hB : st.Bound)
    (hp : parseJson (handleDeviceDefinition H) request fill = some dev)
    (hid : inRangeInt8 dev.id 0 (toInt8 H.MAX_DEVICE_SLOT) = true)
    (hv : isDeviceValid H (mergedTarget H st dev uninit) (fetchOriginal st dev uninit)
      (toUInt8 dev.id) = true) :
    ∃ st1 st2,
      uninstallDevice H (fetchOriginal st dev uninit) st = some st1
      ∧ uninstallDevice H (mergedTarget H st dev uninit) st1 = some st2
      ∧ parseDeviceDefinition H request uninit st
          = (installDevice H (mergedTarget H st dev uninit) st2).map
              (fun st3 =>
                { state := storeDevice st3 (mergedTarget H st dev uninit) (toUInt8 dev.id),
                  printed := some (dev.id, mergedTarget H st dev uninit) })
      ∧ (∀ t, deviceTarget H (mergedTarget H st dev uninit) = some t →
          st2.tempControl.get t = t.default)
      ∧ (∀ o, parseDeviceDefinition H request uninit st = some o → NoLeak st o.state)
      ∧ (H.Kinds → 0 < st.heap.room →
          ∃ o, parseDeviceDefinition H request uninit st = some o) := by
  obtain ⟨st1, st2, h1, h2, hu, hB2, hr2, -, -, hd2, hL⟩ :=
    update_uninstalls H hW dev uninit st hB hid hv
  rw [parse_eq_update H request uninit st dev hp]
  refine ⟨st1, st2, h1, h2, hu, hd2, ?_, ?_⟩
  · intro o ho
    rw [hu] at ho
    cases h3 : installDevice H (mergedTarget H st dev uninit) st2 with
    | none => simp [h3] at ho
    | some st3 =>
      simp only [h3, Option.map_some', Option.some.injEq] at ho
      subst ho
      obtain ⟨hf, hrel⟩ := install_frame H _ st2 st3 h3
      intro t n hb
      rcases hL t n hb with h | h
      · by_cases e : deviceTarget H (mergedTarget H st dev uninit) = some t
        · rw [hd2 t e] at h
          exact absurd h (default_ne_heap t n)
        · left
          simp only [storeDevice]
          rw [hf t e]; exact h
      · right
        simp only [storeDevice]
        rw [hrel]; exact h
  · intro hK hr
    exact update_valid_defined H hW hK dev uninit st hB hr hid hv

/-- C10 at a concrete input: with the heater of slot 0 installed, the request
that moves it to pin 5 releases the old instance and binds a new one. -/
theorem parseDeviceDefinition_no_leak_witness :
    brewpi.Wired ∧ heaterInstalled.Bound
    ∧ parseJson (handleDeviceDefinition brewpi) pinOnlyRequest fill
        = some { fill with id := 0, pinNr := 5 }
    ∧ ∃ o, parseDeviceDefinition brewpi pinOnlyRequest clear heaterInstalled = some o
        ∧ NoLeak heaterInstalled o.state
        ∧ o.state.tempControl.heater = .device (.heap 1)
        ∧ o.state.heap.released = [0] := by
  have hB : heaterInstalled.Bound := by
    refine ⟨heaterInstalled_holds, ?_, ?_⟩
    · intro t1 t2 n h1 h2
      cases t1 <;> cases t2 <;> first
        | rfl
        | (exfalso
           simp [heaterInstalled, allDefault, TempControl.get, Target.default, Target.bind,
             Target.type, defaultOf] at h1 h2)
    · refine ⟨fun n hn => ?_, fun n hn => ?_⟩
      · have : n = 0 := by
          by_contra hne
          have : (n == 0) = false := by simpa using hne
          simp [heaterInstalled, Heap.live, List.lookup_cons, this] at hn
        subst this
        decide
      · simp [heaterInstalled] at hn
  obtain ⟨st1, st2, -, -, -, -, hL, -⟩ :=
    parseDeviceDefinition_no_leak brewpi (by decide) pinOnlyRequest clear heaterInstalled
      { fill with id := 0, pinNr := 5 } hB (by decide) (by decide) (by decide)
  exact ⟨by decide, hB, by decide, _, rfl, hL _ rfl, by decide, by decide⟩

/-! ## C11: the frame of uninstall and install -/

theorem setSensor_frame (H : Header) (f : Nat) (t : Target) (s : Ptr) (tc tc1 : TempControl)
    (h : setSensor H f t s tc = some tc1) : ∀ u, t ≠ u → tc1.get u = tc.get u := by
  unfold setSensor at h
  repeat' split at h
  all_goals first
    | (injection h with h; subst h; exact fun u hu => get_set_ne _ _ _ _ hu)
    | (exact absurd h (by simp))

/-- Uninstall touches no cell but the target's. -/
theorem uninstall_frame (H : Header) (c : DeviceConfig) (st st1 : State)
    (h : uninstallDevice H c st = some st1) :
    ∀ u, deviceTarget H c ≠ some u → st1.tempControl.get u = st.tempControl.get u := by
  unfold uninstallDevice at h
  cases ht : deviceTarget H c with
  | none => simp [ht] at h; subst h; simp
  | some t =>
    have key : ∀ (cell : Cell) (hp : Heap) (u : Target), some t ≠ some u →
        ({ st with tempControl := st.tempControl.set t cell, heap := hp } : State).tempControl.get u
          = st.tempControl.get u :=
      fun cell hp u hu => get_set_ne _ _ _ _ (fun e => hu (by rw [e]))
    cases hty : H.deviceType c.deviceFunction <;>
      simp only [ht, hty] at h
    · cases h; simp
    · repeat' split at h
      all_goals first
        | (injection h with h; subst h
           exact fun u hu =>
             setSensor_frame H _ _ _ _ _ (by assumption) u (fun e => hu (by rw [e])))
        | (injection h with h; subst h; simp)
        | (exact absurd h (by simp))
    all_goals
      repeat' split at h
      all_goals first
        | (injection h with h; subst h; exact fun u hu => key _ _ u hu)
        | (injection h with h; subst h; simp)
        | (exact absurd h (by simp))

/-- C11: `uninstallDevice` returns the state unchanged when the target is
unresolvable, `installDevice` returns it unchanged when the target is
unresolvable or the config is deactivated, and every state either of them
returns has all bindings but the one `deviceTarget` resolves as before.  On a
bound state uninstall always returns, and install returns when the factory
returns an object. -/
theorem install_uninstall_frame (H : Header) (config : DeviceConfig) (st : State) :
    (deviceTarget H config = none → uninstallDevice H config st = some st)
    ∧ (deviceTarget H config = none ∨ config.hw.deactivate = true →
        installDevice H config st = some st)
    ∧ (∀ st1, uninstallDevice H config st = some st1 →
        ∀ u, deviceTarget H config ≠ some u → st1.tempControl.get u = st.tempControl.get u)
    ∧ (∀ st1, installDevice H config st = some st1 →
        ∀ u, deviceTarget H config ≠ some u → st1.tempControl.get u = st.tempControl.get u)
    ∧ (H.Wired → st.Bound → ∃ st1, uninstallDevice H config st = some st1)
    ∧ (H.Wired → st.Bound →
        (createDevice H config (H.deviceType config.deviceFunction) st.heap).1 ≠ .null →
        ∃ st1, installDevice H config st = some st1) := by
  refine ⟨uninstall_unresolved H config st, install_skipped H config st,
    fun st1 h => uninstall_frame H config st st1 h,
    fun st1 h => (install_frame H config st st1 h).1, ?_, ?_⟩
  · intro hW hB
    obtain ⟨st1, h, -⟩ := uninstall_bound H hW config st hB
    exact ⟨st1, h⟩
  · intro hW hB hc
    cases ht : deviceTarget H config with
    | none => exact ⟨st, install_skipped H config st (Or.inl ht)⟩
    | some t =>
      cases hd : config.hw.deactivate with
      | true => exact ⟨st, install_skipped H config st (Or.inr hd)⟩
      | false =>
        obtain ⟨hty, -⟩ := deviceTarget_wired H hW config t ht
        rw [hty] at hc
        have hq : ∃ q, st.tempControl.get t = t.bind q := by
          rcases hB.1 t with h | ⟨n, h, -⟩
          · exact ⟨_, h⟩
          · exact ⟨_, h⟩
        obtain ⟨q, hq⟩ := hq
        exact ⟨_, install_resolved H hW config st t q ht hd hq (fun _ => hc)⟩

/-- C11 at a concrete input: installing and uninstalling the heater config on
the all-default state leaves the other six bindings at their defaults. -/
theorem install_uninstall_frame_witness :
    deviceTarget brewpi heaterPin = some .heater
    ∧ (∃ st1, installDevice brewpi heaterPin (allDefault 8 emptySlots) = some st1
        ∧ st1.tempControl.heater = .device (.heap 0)
        ∧ ∀ u, u ≠ .heater → st1.tempControl.get u = u.default)
    ∧ (∃ st1, uninstallDevice brewpi heaterPin heaterInstalled = some st1
        ∧ ∀ u, u ≠ .heater → st1.tempControl.get u = heaterInstalled.tempControl.get u)
    ∧ installDevice brewpi { heaterPin with chamber := 2 } (allDefault 8 emptySlots)
        = some (allDefault 8 emptySlots) := by
  have h1 := install_uninstall_frame brewpi heaterPin (allDefault 8 emptySlots)
  have h2 := install_uninstall_frame brewpi heaterPin heaterInstalled
  have h3 := install_uninstall_frame brewpi { heaterPin with chamber := 2 }
    (allDefault 8 emptySlots)
  refine ⟨by decide, ⟨_, rfl, by decide, ?_⟩, ⟨_, rfl, ?_⟩, h3.2.1 (Or.inl (by decide))⟩
  · intro u hu
    have := h1.2.2.2.1 _ rfl u (fun e => hu (by injection e with e; exact e.symm))
    rw [this]
    cases u <;> rfl
  · intro u hu
    exact h2.2.2.1 _ rfl u (fun e => hu (by injection e with e; exact e.symm))

/-! ## C12: deactivation through the update -/

/-- The function a config has when it resolves to target `t`: the label of the
case that returns `t`. -/
theorem deviceTarget_function (H : Header) (c : DeviceConfig) (t : Target)
    (h : deviceTarget H c = some t) : c.deviceFunction = t.function H := by
  unfold deviceTarget at h
  split_ifs at h <;> cases h <;> assumption

/-- With distinct labels, each of the seven wired functions resolves to its own
target when chamber and beer are at most 1, and every other function to
none. -/
theorem deviceTarget_labels (H : Header)
    (hn : [H.DEVICE_CHAMBER_ROOM_TEMP, H.DEVICE_CHAMBER_DOOR, H.DEVICE_CHAMBER_LIGHT,
      H.DEVICE_CHAMBER_HEAT, H.DEVICE_CHAMBER_COOL, H.DEVICE_CHAMBER_TEMP,
      H.DEVICE_BEER_TEMP].Nodup)
    (config : DeviceConfig) (hc : config.chamber ≤ 1) (hb : config.beer ≤ 1) :
    (config.deviceFunction = H.DEVICE_CHAMBER_ROOM_TEMP →
      deviceTarget H config = some .ambientSensor)
    ∧ (config.deviceFunction = H.DEVICE_CHAMBER_DOOR → deviceTarget H config = some .door)
    ∧ (config.deviceFunction = H.DEVICE_CHAMBER_LIGHT → deviceTarget H config = some .light)
    ∧ (config.deviceFunction = H.DEVICE_CHAMBER_HEAT → deviceTarget H config = some .heater)
    ∧ (config.deviceFunction = H.DEVICE_CHAMBER_COOL → deviceTarget H config = some .cooler)
    ∧ (config.deviceFunction = H.DEVICE_CHAMBER_TEMP →
        deviceTarget H config = some .fridgeSensor)
    ∧ (config.deviceFunction = H.DEVICE_BEER_TEMP → deviceTarget H config = some .beerSensor)
    ∧ (config.deviceFunction ∉ [H.DEVICE_CHAMBER_ROOM_TEMP, H.DEVICE_CHAMBER_DOOR,
          H.DEVICE_CHAMBER_LIGHT, H.DEVICE_CHAMBER_HEAT, H.DEVICE_CHAMBER_COOL,
          H.DEVICE_CHAMBER_TEMP, H.DEVICE_BEER_TEMP] →
        deviceTarget H config = none) := by
  simp only [List.nodup_cons, List.mem_cons, List.mem_singleton, not_or, List.not_mem_nil,
    not_false_eq_true, List.nodup_nil, and_true] at hn
  obtain ⟨⟨n01, n02, n03, n04, n05, n06⟩, ⟨n12, n13, n14, n15, n16⟩, ⟨n23, n24, n25, n26⟩, ⟨n34, n35, n36⟩, ⟨n45, n46⟩, n56⟩ := hn
  have m01 := Ne.symm n01
  have m02 := Ne.symm n02
  have m03 := Ne.symm n03
  have m04 := Ne.symm n04
  have m05 := Ne.symm n05
  have m06 := Ne.symm n06
  have m12 := Ne.symm n12
  have m13 := Ne.symm n13
  have m14 := Ne.symm n14
  have m15 := Ne.symm n15
  have m16 := Ne.symm n16
  have m23 := Ne.symm n23
  have m24 := Ne.symm n24
  have m25 := Ne.symm n25
  have m26 := Ne.symm n26
  have m34 := Ne.symm n34
  have m35 := Ne.symm n35
  have m36 := Ne.symm n36
  have m45 := Ne.symm n45
  have m46 := Ne.symm n46
  have m56 := Ne.symm n56
  have h0 : ¬ (config.chamber > 1 ∨ config.beer > 1) := by omega
  unfold deviceTarget
  simp only [Bool.or_eq_true, decide_eq_true_eq, h0, if_false, List.mem_cons,
    List.mem_singleton, List.not_mem_nil, or_false, not_or]
  refine ⟨?_, ?_, ?_, ?_, ?_, ?_, ?_, ?_⟩ <;> intro e
  all_goals first
    | (rw [e]
       simp only [n01, n02, n03, n04, n05, n06, n12, n13, n14, n15, n16, n23, n24, n25, n26, n34, n35, n36, n45, n46, n56, m01, m02, m03, m04, m05, m06, m12, m13, m14, m15, m16, m23, m24, m25, m26, m34, m35, m36, m45, m46, m56, if_false, if_true])
    | (obtain ⟨e1, e2, e3, e4, e5, e6, e7⟩ := e
       simp only [e1, e2, e3, e4, e5, e6, e7, if_false])

/-- C13: `deviceTarget` is none whenever chamber or beer exceeds 1, whatever the
function; otherwise it depends on the function alone: each of the seven wired
functions resolves to its own target, every other function to none, and two
configs that resolve to the same target have the same function. -/
theorem deviceTarget_spec (H : Header)
    (hn : [H.DEVICE_CHAMBER_ROOM_TEMP, H.DEVICE_CHAMBER_DOOR, H.DEVICE_CHAMBER_LIGHT,
      H.DEVICE_CHAMBER_HEAT, H.DEVICE_CHAMBER_COOL, H.DEVICE_CHAMBER_TEMP,
      H.DEVICE_BEER_TEMP].Nodup) :
    (∀ config : DeviceConfig, config.chamber > 1 ∨ config.beer > 1 →
        deviceTarget H config = none)
    ∧ (∀ config : DeviceConfig, config.chamber ≤ 1 → config.beer ≤ 1 →
        (config.deviceFunction = H.DEVICE_CHAMBER_ROOM_TEMP →
          deviceTarget H config = some .ambientSensor)
        ∧ (config.deviceFunction = H.DEVICE_CHAMBER_DOOR → deviceTarget H config = some .door)
        ∧ (config.deviceFunction = H.DEVICE_CHAMBER_LIGHT → deviceTarget H config = some .light)
        ∧ (config.deviceFunction = H.DEVICE_CHAMBER_HEAT → deviceTarget H config = some .heater)
        ∧ (config.deviceFunction = H.DEVICE_CHAMBER_COOL → deviceTarget H config = some .cooler)
        ∧ (config.deviceFunction = H.DEVICE_CHAMBER_TEMP →
            deviceTarget H config = some .fridgeSensor)
        ∧ (config.deviceFunction = H.DEVICE_BEER_TEMP → deviceTarget H config = some .beerSensor)
        ∧ (config.deviceFunction ∉ [H.DEVICE_CHAMBER_ROOM_TEMP, H.DEVICE_CHAMBER_DOOR,
              H.DEVICE_CHAMBER_LIGHT, H.DEVICE_CHAMBER_HEAT, H.DEVICE_CHAMBER_COOL,
              H.DEVICE_CHAMBER_TEMP, H.DEVICE_BEER_TEMP] →
            deviceTarget H config = none))
    ∧ (∀ c1 c2 : DeviceConfig, c1.chamber ≤ 1 → c1.beer ≤ 1 → c2.chamber ≤ 1 → c2.beer ≤ 1 →
        c1.deviceFunction = c2.deviceFunction → deviceTarget H c1 = deviceTarget H c2)
    ∧ (∀ (c1 c2 : DeviceConfig) (t : Target), deviceTarget H c1 = some t →
        deviceTarget H c2 = some t → c1.deviceFunction = c2.deviceFunction) := by
  refine ⟨?_, ?_, ?_, ?_⟩
  · intro config h
    unfold deviceTarget
    rcases h with h | h <;> simp [h]
  · intro config hc hb
    exact deviceTarget_labels H hn config hc hb
  · intro c1 c2 h1 h2 h3 h4 e
    have g1 : ¬ (c1.chamber > 1 ∨ c1.beer > 1) := by omega
    have g2 : ¬ (c2.chamber > 1 ∨ c2.beer > 1) := by omega
    unfold deviceTarget
    simp only [Bool.or_eq_true, decide_eq_true_eq, g1, g2, if_false, e]
  · intro c1 c2 t h1 h2
    rw [deviceTarget_function H c1 t h1, deviceTarget_function H c2 t h2]

/-- C13 at a concrete input: on the sample header the labels are distinct, the
door function resolves to `door` for chamber 1 and beer 0, and to none for
chamber 2. -/
theorem deviceTarget_spec_witness :
    [brewpi.DEVICE_CHAMBER_ROOM_TEMP, brewpi.DEVICE_CHAMBER_DOOR, brewpi.DEVICE_CHAMBER_LIGHT,
      brewpi.DEVICE_CHAMBER_HEAT, brewpi.DEVICE_CHAMBER_COOL, brewpi.DEVICE_CHAMBER_TEMP,
      brewpi.DEVICE_BEER_TEMP].Nodup
    ∧ deviceTarget brewpi { clear with chamber := 1, deviceFunction := 1 } = some .door
    ∧ deviceTarget brewpi { clear with chamber := 2, deviceFunction := 1 } = none
    ∧ deviceTarget brewpi { clear with chamber := 1, deviceFunction := 7 } = none := by
  have h := deviceTarget_spec brewpi (by decide)
  refine ⟨by decide, ?_, ?_, ?_⟩
  · exact (h.2.1 { clear with chamber := 1, deviceFunction := 1 } (by decide)
      (by decide)).2.1 rfl
  · exact h.1 { clear with chamber := 2, deviceFunction := 1 } (Or.inl (by decide))
  · exact (h.2.1 { clear with chamber := 1, deviceFunction := 7 } (by decide)
      (by decide)).2.2.2.2.2.2.2 (by decide)

/-! ## C18: setupUnconfiguredDevices -/

/-- One uninstall on a bound state: nothing changes, or the owned instance of
the resolved target is released and the target gets its default. -/
theorem uninstall_step (H : Header) (hW : H.Wired) (c : DeviceConfig) (st : State)
    (hB : st.Bound) :
    ∃ st1, uninstallDevice H c st = some st1 ∧ st1.Bound
      ∧ (∀ t, deviceTarget H c = some t → st1.tempControl.get t = t.default)
      ∧ (st1 = st
        ∨ ∃ t0 n0, st.tempControl.get t0 = t0.bind (.heap n0)
            ∧ st1.tempControl = st.tempControl.set t0 t0.default
            ∧ st1.heap.released = n0 :: st.heap.released) := by
  cases ht : deviceTarget H c with
  | none => exact ⟨st, uninstall_unresolved H c st ht, hB, by simp, Or.inl rfl⟩
  | some t =>
    rcases hB.1 t with hd | ⟨n, hb, hl⟩
    · refine ⟨st, uninstall_default H hW c st t ht hd, hB, ?_, Or.inl rfl⟩
      intro u hu; cases hu; exact hd
    · refine ⟨_, uninstall_owned H hW c st t n ht hb hl, release_bound st t n hB hb, ?_,
        Or.inr ⟨t, n, hb, rfl, rfl⟩⟩
      intro u hu; cases hu; exact get_set_same _ _ _

/-- On a wired header the config of chamber 1, beer 1 and the function of
target `t` resolves to `t`. -/
theorem deviceTarget_of_function (H : Header) (hW : H.Wired) (cfg : DeviceConfig) (t : Target) :
    deviceTarget H { cfg with chamber := 1, beer := 1, deviceFunction := t.function H }
      = some t := by
  have g := deviceTarget_labels H hW.1
    { cfg with chamber := 1, beer := 1, deviceFunction := t.function H } (le_refl _) (le_refl _)
  obtain ⟨g1, g2, g3, g4, g5, g6, g7, -⟩ := g
  cases t
  · exact g1 rfl
  · exact g2 rfl
  · exact g3 rfl
  · exact g4 rfl
  · exact g5 rfl
  · exact g6 rfl
  · exact g7 rfl

theorem resets_refl (st : State) (hB : st.Bound) : st.Resets st :=
  ⟨hB, fun _ => Or.inl rfl, fun _ _ h => Or.inl ⟨h, rfl⟩, fun _ _ => rfl⟩

theorem resets_trans (st st1 st2 : State) (hB : st.Bound) (h1 : st.Resets st1)
    (h2 : st1.Resets st2) : st.Resets st2 := by
  obtain ⟨-, a2, a3, a4⟩ := h1
  obtain ⟨b1, b2, b3, b4⟩ := h2
  have unbound : ∀ n, (∀ t, st.tempControl.get t ≠ t.bind (.heap n)) →
      ∀ t, st1.tempControl.get t ≠ t.bind (.heap n) := by
    intro n hn t e
    rcases a2 t with h | h
    · exact hn t (h ▸ e)
    · exact default_ne_heap t n (h ▸ e)
  refine ⟨b1, ?_, ?_, ?_⟩
  · intro t
    rcases b2 t with h | h
    · rcases a2 t with g | g
      · exact Or.inl (h.trans g)
      · exact Or.inr (h.trans g)
    · exact Or.inr h
  · intro t n hb
    rcases a3 t n hb with ⟨g1, g2⟩ | ⟨g1, g2⟩
    · rcases b3 t n g1 with ⟨k1, k2⟩ | ⟨k1, k2⟩
      · exact Or.inl ⟨k1, k2.trans g2⟩
      · exact Or.inr ⟨k1, by omega⟩
    · right
      have hd : st2.tempControl.get t = t.default := by
        rcases b2 t with h | h
        · exact h.trans g1
        · exact h
      refine ⟨hd, ?_⟩
      have hu : ∀ u, st1.tempControl.get u ≠ u.bind (.heap n) := by
        intro u e
        rcases a2 u with h | h
        · have : u = t := hB.2.1 u t n (h ▸ e) hb
          subst this
          exact default_ne_heap u n (g1 ▸ e)
        · exact default_ne_heap u n (h ▸ e)
      rw [b4 n hu, g2]
  · intro n hn
    rw [b4 n (unbound n hn), a4 n hn]

theorem uninstall_resets (H : Header) (hW : H.Wired) (c : DeviceConfig) (st : State)
    (hB : st.Bound) :
    ∃ st1, uninstallDevice H c st = some st1 ∧ st.Resets st1
      ∧ (∀ t, deviceTarget H c = some t → st1.tempControl.get t = t.default) := by
  obtain ⟨st1, h, hB1, hd, hc⟩ := uninstall_step H hW c st hB
  refine ⟨st1, h, ?_, hd⟩
  rcases hc with e | ⟨t0, n0, hb, htc, hrel⟩
  · subst e; exact resets_refl _ hB
  · refine ⟨hB1, ?_, ?_, ?_⟩
    · intro t
      by_cases e : t0 = t
      · subst e; right; rw [htc]; exact get_set_same _ _ _
      · left; rw [htc]; exact get_set_ne _ _ _ _ e
    · intro t n hn
      by_cases e : t0 = t
      · subst e
        have : n0 = n := by
          have := bind_inj t0 _ _ (hb.symm.trans hn)
          simpa using this
        subst this
        right
        refine ⟨by rw [htc]; exact get_set_same _ _ _, ?_⟩
        rw [hrel]; simp
      · left
        have hne : n0 ≠ n := by
          intro e2; subst e2
          exact e (hB.2.1 t0 t n0 hb hn)
        refine ⟨by rw [htc, get_set_ne _ _ _ _ e]; exact hn, ?_⟩
        rw [hrel, List.count_cons_of_ne (Ne.symm hne)]
    · intro n hn
      have hne : n0 ≠ n := by
        intro e2; subst e2
        exact hn t0 hb
      rw [hrel, List.count_cons_of_ne (Ne.symm hne)]

/-- Uninstalling a list of functions of chamber 1 and beer 1 on a bound state. -/
theorem setup_fold (H : Header) (hW : H.Wired) (cfg : DeviceConfig) (L : List Nat) :
    ∀ st : State, st.Bound →
    ∃ st1, L.foldlM
        (fun acc i =>
          uninstallDevice H { cfg with chamber := 1, beer := 1, deviceFunction := i } acc) st
        = some st1
      ∧ st.Resets st1
      ∧ (∀ t : Target, t.function H ∈ L → st1.tempControl.get t = t.default) := by
  induction L with
  | nil =>
    intro st hB
    exact ⟨st, rfl, resets_refl st hB, by simp⟩
  | cons i L ih =>
    intro st hB
    obtain ⟨st1, h1, r1, d1⟩ :=
      uninstall_resets H hW { cfg with chamber := 1, beer := 1, deviceFunction := i } st hB
    obtain ⟨st2, h2, r2, d2⟩ := ih st1 r1.1
    refine ⟨st2, ?_, resets_trans st st1 st2 hB r1 r2, ?_⟩
    · simp only [List.foldlM_cons, h1, Option.bind_eq_bind, Option.some_bind]
      exact h2
    · intro t ht
      simp only [List.mem_cons] at ht
      rcases ht with e | e
      · have hd := d1 t (by rw [← e]; exact deviceTarget_of_function H hW cfg t)
        rcases r2.2.1 t with h | h
        · exact h.trans hd
        · exact h
      · exact d2 t e

/-- On a state with every target at its default, uninstalling any list of
functions changes nothing. -/
theorem setup_fold_default (H : Header) (hW : H.Wired) (cfg : DeviceConfig) (L : List Nat)
    (st : State) (hd : ∀ t, st.tempControl.get t = t.default) :
    L.foldlM
        (fun acc i =>
          uninstallDevice H { cfg with chamber := 1, beer := 1, deviceFunction := i } acc) st
      = some st := by
  induction L with
  | nil => rfl
  | cons i L ih =>
    have h1 : uninstallDevice H { cfg with chamber := 1, beer := 1, deviceFunction := i } st
        = some st := by
      cases ht : deviceTarget H { cfg with chamber := 1, beer := 1, deviceFunction := i } with
      | none => exact uninstall_unresolved H _ st ht
      | some t => exact uninstall_default H hW _ st t ht (hd t)
    simp only [List.foldlM_cons, h1, Option.bind_eq_bind, Option.some_bind]
    exact ih

/-- C18: on a state in which every target holds its default or an owned
instance, `setupUnconfiguredDevices` returns a state in which all seven targets
hold their static defaults (the default temperature sensor for the ambient
sensor and inside the two adapters, the default switch sensor for the door, the
default actuator for light, heater and cooler); every instance bound before is
no longer live and its count in the release log is one higher, the count of
everything else is unchanged; and a second call returns that same state. -/
theorem setupUnconfiguredDevices_resets (H : Header) (hW : H.Wired) (hE : H.Enumerated)
    (cfg : DeviceConfig) (st : State) (hB : st.Bound) :
    ∃ st1, setupUnconfiguredDevices H cfg st = some st1
      ∧ st1.tempControl =
          { ambientSensor := .device .defaultTempSensor,
            door := .device .defaultSensor,
            light := .device .defaultActuator,
            heater := .device .defaultActuator,
            cooler := .device .defaultActuator,
            fridgeSensor := .tempSensor .defaultTempSensor,
            beerSensor := .tempSensor .defaultTempSensor }
      ∧ (∀ t n, st.tempControl.get t = t.bind (.heap n) →
          st1.heap.released.count n = st.heap.released.count n + 1
          ∧ st.heap.released.count n = 0
          ∧ st1.heap.live n = false)
      ∧ (∀ n, (∀ t, st.tempControl.get t ≠ t.bind (.heap n)) →
          st1.heap.released.count n = st.heap.released.count n)
      ∧ (∀ cfg2, setupUnconfiguredDevices H cfg2 st1 = some st1) := by
  obtain ⟨e1, e2, e3, e4, e5, e6, e7⟩ := hE
  obtain ⟨st1, h, r, d⟩ := setup_fold H hW cfg (List.range H.DEVICE_MAX) st hB
  have hd : ∀ t, st1.tempControl.get t = t.default := by
    intro t
    apply d
    rw [List.mem_range]
    cases t <;> assumption
  refine ⟨st1, h, ?_, ?_, r.2.2.2, ?_⟩
  · have a1 := hd .ambientSensor
    have a2 := hd .door
    have a3 := hd .light
    have a4 := hd .heater
    have a5 := hd .cooler
    have a6 := hd .fridgeSensor
    have a7 := hd .beerSensor
    simp only [TempControl.get] at a1 a2 a3 a4 a5 a6 a7
    cases htc : st1.tempControl
    simp only [htc] at a1 a2 a3 a4 a5 a6 a7
    simp only [a1, a2, a3, a4, a5, a6, a7, Target.default, Target.bind, Target.type, defaultOf]
  · intro t n hb
    have hl : st.heap.live n = true := by
      rcases hB.1 t with g | ⟨m, g, gl⟩
      · exact absurd (g.symm.trans hb) (default_ne_heap t n)
      · have : n = m := by
          have := bind_inj t _ _ (hb.symm.trans g)
          simpa using this
        rw [this]; exact gl
    have h0 : st.heap.released.count n = 0 :=
      List.count_eq_zero.mpr (hB.2.2.1 n hl).2
    rcases r.2.2.1 t n hb with ⟨g1, -⟩ | ⟨-, g2⟩
    · rw [hd t] at g1
      exact absurd g1 (default_ne_heap t n)
    · refine ⟨g2, h0, ?_⟩
      cases hl1 : st1.heap.live n
      · rfl
      · have := (r.1.2.2.1 n hl1).2
        have hc : st1.heap.released.count n ≠ 0 := by omega
        exact absurd (List.count_eq_zero.mpr this) hc
  · intro cfg2
    exact setup_fold_default H hW cfg2 _ st1 hd

theorem twoInstalled_bound : twoInstalled.Bound := by
  refine ⟨?_, ?_, ?_⟩
  · intro t
    cases t
    case heater => exact Or.inr ⟨0, rfl, by decide⟩
    case beerSensor => exact Or.inr ⟨1, rfl, by decide⟩
    all_goals exact Or.inl rfl
  · intro t1 t2 n h1 h2
    cases t1 <;> cases t2 <;> first
      | rfl
      | (exfalso
         simp [twoInstalled, allDefault, TempControl.get, Target.default, Target.bind,
           Target.type, defaultOf] at h1 h2
         try omega)
  · refine ⟨fun n hn => ?_, fun n hn => ?_⟩
    · have : n = 0 ∨ n = 1 := by
        by_contra hne
        have h0 : (n == 0) = false := by simp; omega
        have h1 : (n == 1) = false := by simp; omega
        simp [twoInstalled, Heap.live, List.lookup_cons, h0, h1] at hn
      rcases this with e | e <;> subst e <;> decide
    · simp [twoInstalled] at hn

/-- C18 at a concrete input: with the heater and the beer sensor installed, the
call releases heap objects 0 and 1 once each and leaves all defaults. -/
theorem setupUnconfiguredDevices_resets_witness :
    brewpi.Wired ∧ brewpi.Enumerated ∧ twoInstalled.Bound
    ∧ ∃ st1, setupUnconfiguredDevices brewpi clear twoInstalled = some st1
        ∧ st1.tempControl = (allDefault 8 emptySlots).tempControl
        ∧ st1.heap.released.count 0 = 1 ∧ st1.heap.released.count 1 = 1
        ∧ st1.heap.objects = []
        ∧ setupUnconfiguredDevices brewpi clear st1 = some st1 := by
  obtain ⟨st1, h, h1, h2, -, h4⟩ :=
    setupUnconfiguredDevices_resets brewpi (by decide) (by decide) clear twoInstalled
      twoInstalled_bound
  refine ⟨by decide, by decide, twoInstalled_bound, st1, h, ?_, ?_, ?_, ?_, h4 clear⟩
  · rw [h1]; rfl
  · exact (h2 .heater 0 rfl).1
  · exact (h2 .beerSensor 1 rfl).1
  · have e : setupUnconfiguredDevices brewpi clear twoInstalled
        = some { twoInstalled with
            tempControl := (allDefault 8 emptySlots).tempControl,
            heap := { objects := [], next := 2, room := 8, released := [1, 0] } } := by
      decide
    rw [e] at h
    injection h with h
    rw [← h]

/-! ## C14: location matching -/

theorem matchAddress_iff (a b : DeviceAddress) (n : Nat) :
    matchAddress a b n = true ↔ ∀ i, i < n → a.getD i 0 = b.getD i 0 := by
  induction n with
  | zero => simp [matchAddress]
  | succ n ih =>
    unfold matchAddress
    by_cases h : a.getD n 0 = b.getD n 0
    · simp only [h, ne_eq, not_true_eq_false, if_false, ih]
      constructor
      · intro g i hi
        by_cases e : i = n
        · subst e; exact h
        · exact g i (by omega)
      · intro g i hi
        exact g i (by omega)
    · simp only [ne_eq, h, not_false_eq_true, if_true, Bool.false_eq_true, false_iff]
      intro g
      exact h (g n (by omega))

theorem matchAddress_eq (a b : DeviceAddress) (ha : a.length = 8) (hb : b.length = 8) :
    matchAddress a b 8 = true ↔ a = b := by
  rw [matchAddress_iff]
  constructor
  · intro g
    apply List.ext_getElem (by rw [ha, hb])
    intro i h1 h2
    have := g i (by omega)
    simpa [List.getD_eq_getElem?_getD, List.getElem?_eq_getElem h1,
      List.getElem?_eq_getElem h2] using this
  · intro e i _
    rw [e]

/-- The test of the loop of `findHardwareDevice` is the match of the
specification. -/
theorem locationMatch_iff (H : Header) (hL : H.Located) (find config : DeviceConfig)
    (ha : find.hw.address.length = 8) (hb : config.hw.address.length = 8) :
    (decide (find.deviceHardware = config.deviceHardware) && locationMatch H find config) = true
      ↔ Matches H find config := by
  obtain ⟨h1, h2⟩ := hL
  unfold locationMatch Matches
  have hm := matchAddress_eq _ _ ha hb
  cases hf : H.BREWPI_DS2413
  · by_cases e1 : find.deviceHardware = H.DEVICE_HARDWARE_ONEWIRE_TEMP
    · have : find.deviceHardware ≠ H.DEVICE_HARDWARE_PIN := fun e => h1 (e.symm.trans e1)
      simp [e1, this, hm, h1, Ne.symm h1]
      tauto
    · by_cases e2 : find.deviceHardware = H.DEVICE_HARDWARE_PIN
      · simp [e2, h1]
      · simp [e1, e2]
  · obtain ⟨g1, g2⟩ := h2 hf
    by_cases e0 : find.deviceHardware = H.DEVICE_HARDWARE_ONEWIRE_2413
    · simp [e0, g1, g2, hm]
      tauto
    · by_cases e1 : find.deviceHardware = H.DEVICE_HARDWARE_ONEWIRE_TEMP
      · have : find.deviceHardware ≠ H.DEVICE_HARDWARE_PIN := fun e => h1 (e.symm.trans e1)
        simp [e0, e1, this, hm, h1, Ne.symm h1, Ne.symm g2]
        tauto
      · by_cases e2 : find.deviceHardware = H.DEVICE_HARDWARE_PIN
        · simp [e0, e2, h1, Ne.symm g1]
        · simp [e0, e1, e2]

/-- The loop returns the first matching record, counted from `slot`, and
`INVALID_SLOT` when there is none. -/
theorem findHardwareDeviceFrom_spec (H : Header) (hL : H.Located) (find : DeviceConfig)
    (ha : find.hw.address.length = 8) :
    ∀ (l : List DeviceConfig) (slot : Nat), (∀ c ∈ l, c.hw.address.length = 8) →
      (∀ i (hi : i < l.length), Matches H find l[i] →
          (∀ j (hj : j < i), ¬ Matches H find l[j]) →
          findHardwareDeviceFrom H find l slot = toInt8 ((slot + i : Nat) : Int))
      ∧ ((∀ i (hi : i < l.length), ¬ Matches H find l[i]) →
          findHardwareDeviceFrom H find l slot = H.INVALID_SLOT) := by
  intro l
  induction l with
  | nil =>
    intro slot _
    exact ⟨fun i hi => absurd hi (by simp), fun _ => rfl⟩
  | cons c l ih =>
    intro slot hs
    have hc : c.hw.address.length = 8 := hs c (List.mem_cons_self _ _)
    have hl : ∀ c ∈ l, c.hw.address.length = 8 := fun x hx => hs x (List.mem_cons_of_mem _ hx)
    have hm := locationMatch_iff H hL find c ha hc
    obtain ⟨ih1, ih2⟩ := ih (slot + 1) hl
    constructor
    · intro i hi hmi hfirst
      cases i with
      | zero =>
        simp only [List.getElem_cons_zero] at hmi
        unfold findHardwareDeviceFrom
        rw [if_pos (hm.mpr hmi)]
        rfl
      | succ i =>
        have h0 : ¬ Matches H find c := by
          have := hfirst 0 (Nat.succ_pos i)
          simpa using this
        unfold findHardwareDeviceFrom
        rw [if_neg (fun h => h0 (hm.mp h))]
        simp only [List.getElem_cons_succ] at hmi
        have := ih1 i (by simpa using hi) hmi (by
          intro j hj
          have := hfirst (j + 1) (by omega)
          simpa using this)
        rw [this]
        congr 2
        omega
    · intro hnone
      have h0 : ¬ Matches H find c := by
        have := hnone 0 (by simp)
        simpa using this
      unfold findHardwareDeviceFrom
      rw [if_neg (fun h => h0 (hm.mp h))]
      apply ih2
      intro i hi
      have := hnone (i + 1) (by simpa using hi)
      simpa using this

/-- C14: on a table of at most 128 slots with 8-byte addresses,
`findHardwareDevice` returns the lowest slot index whose record matches the
candidate and `INVALID_SLOT` when no slot matches, where a slot matches when
the hardware kinds are equal and the pins are equal for a digital pin, pin and
address for a temperature probe, pin, address and channel for a multi-channel
io (for any other kind the kind alone decides). -/
theorem findHardwareDevice_spec (H : Header) (hL : H.Located) (find : DeviceConfig)
    (st : State) (hlen : st.eeprom.length ≤ 128) (ha : find.hw.address.length = 8)
    (hs : ∀ c ∈ st.eeprom, c.hw.address.length = 8) :
    (∀ i (hi : i < st.eeprom.length), Matches H find st.eeprom[i] →
        (∀ j (hj : j < i), ¬ Matches H find st.eeprom[j]) →
        findHardwareDevice H find st = (i : Int))
    ∧ ((∀ i (hi : i < st.eeprom.length), ¬ Matches H find st.eeprom[i]) →
        findHardwareDevice H find st = H.INVALID_SLOT) := by
  obtain ⟨h1, h2⟩ := findHardwareDeviceFrom_spec H hL find ha st.eeprom 0 hs
  refine ⟨?_, h2⟩
  intro i hi hm hf
  unfold findHardwareDevice
  rw [h1 i hi hm hf, Nat.zero_add]
  apply toInt8_of_range <;> omega

/-- C14 at its concrete input: slot 2 stores the temperature probe on pin 4 with
address A and no earlier slot matches: the candidate with the same pin and
address is found in slot 2, a different address on pin 4 is not found, and the
same address with hardware kind multi-channel io is not found. -/
theorem findHardwareDevice_spec_witness :
    brewpi.Located
    ∧ (allDefault 8 probeSlots).eeprom[2]? = some beerProbe
    ∧ Matches brewpi probeCandidate beerProbe
    ∧ findHardwareDevice brewpi probeCandidate (allDefault 8 probeSlots) = 2
    ∧ findHardwareDevice brewpi otherProbeCandidate (allDefault 8 probeSlots)
        = brewpi.INVALID_SLOT
    ∧ findHardwareDevice brewpi channelCandidate (allDefault 8 probeSlots)
        = brewpi.INVALID_SLOT := by
  have hm : Matches brewpi probeCandidate beerProbe := by
    unfold Matches; decide
  have h := findHardwareDevice_spec brewpi (by decide) probeCandidate (allDefault 8 probeSlots)
    (by decide) (by decide) (by decide)
  refine ⟨by decide, by decide, hm, ?_, by decide, by decide⟩
  have := h.1 2 (by decide) hm (by
    intro j hj
    have : j = 0 ∨ j = 1 := by omega
    rcases this with e | e <;> subst e <;> intro hM <;>
      simp [Matches, allDefault, probeSlots, probeCandidate, clear] at hM)
  exact_mod_cast this

/-! ## Lemmas on the enumeration -/

/-- The loop of `findHardwareDevice` returns `INVALID_SLOT` or the index of a
record of the candidate's hardware kind. -/
theorem findHardwareDeviceFrom_kind (H : Header) (find : DeviceConfig) :
    ∀ (l : List DeviceConfig) (slot : Nat),
      findHardwareDeviceFrom H find l slot = H.INVALID_SLOT
      ∨ ∃ i c, l[i]? = some c
          ∧ findHardwareDeviceFrom H find l slot = toInt8 ((slot + i : Nat) : Int)
          ∧ find.deviceHardware = c.deviceHardware := by
  intro l
  induction l with
  | nil => intro slot; exact Or.inl rfl
  | cons c l ih =>
    intro slot
    unfold findHardwareDeviceFrom
    by_cases h : (decide (find.deviceHardware = c.deviceHardware) && locationMatch H find c) = true
    · rw [if_pos h]
      right
      refine ⟨0, c, by simp, rfl, ?_⟩
      simp only [Bool.and_eq_true, decide_eq_true_eq] at h
      exact h.1
    · rw [if_neg h]
      rcases ih (slot + 1) with g | ⟨i, d, g1, g2, g3⟩
      · exact Or.inl g
      · right
        refine ⟨i + 1, d, by simpa using g1, ?_, g3⟩
        rw [g2]
        congr 2
        omega

/-- The record `handleEnumeratedDevice` leaves in `config`, and hands to the
callback, has the hardware kind of the candidate. -/
theorem handle_kind (H : Header) (B : Buses) (st : State) (config : DeviceConfig)
    (h : EnumerateHardware) (hI : H.isDefinedSlot H.INVALID_SLOT = false)
    (hlen : st.eeprom.length ≤ 128) :
    (handleEnumeratedDevice H B st config h).1.deviceHardware = config.deviceHardware
    ∧ ∀ c, (handleEnumeratedDevice H B st config h).2 = some c →
        c.config.deviceHardware = config.deviceHardware := by
  have key : H.isDefinedSlot (findHardwareDevice H config st) = true →
      ((fetchDevice st (toUInt8 (findHardwareDevice H config st))).getD config).deviceHardware
        = config.deviceHardware := by
    intro hdef
    unfold findHardwareDevice at hdef ⊢
    rcases findHardwareDeviceFrom_kind H config st.eeprom 0 with g | ⟨i, d, g1, g2, g3⟩
    · rw [g, hI] at hdef
      exact absurd hdef (by simp)
    · have hi : i < st.eeprom.length := by
        by_contra hn
        rw [List.getElem?_eq_none (by omega)] at g1
        exact absurd g1 (by simp)
      have e1 : toInt8 ((0 + i : Nat) : Int) = (i : Int) := by
        rw [Nat.zero_add]
        apply toInt8_of_range <;> omega
      have e2 : toUInt8 (i : Int) = i := by
        rw [toUInt8_of_range _ (by omega) (by omega)]; simp
      rw [g2, e1, e2]
      simp [fetchDevice, g1, g3]
  unfold handleEnumeratedDevice
  split
  · exact ⟨rfl, fun c hc => absurd hc (by simp)⟩
  · simp only []
    split
    · rename_i hdef
      split
      · exact ⟨rfl, fun c hc => absurd hc (by simp)⟩
      · refine ⟨key hdef, fun c hc => ?_⟩
        simp only [Option.some.injEq] at hc
        subst hc
        exact key hdef
    · refine ⟨rfl, fun c hc => ?_⟩
      simp only [Option.some.injEq] at hc
      subst hc
      rfl

/-- Every call made by a loop of `enumeratePinDevices` has a candidate and a
callback record of the hardware kind the local `config` has at its start. -/
theorem enumeratePins_kind (H : Header) (B : Buses) (st : State) (h : EnumerateHardware)
    (hI : H.isDefinedSlot H.INVALID_SLOT = false) (hlen : st.eeprom.length ≤ 128) (k : Nat) :
    ∀ (pins : List Nat) (config : DeviceConfig), config.deviceHardware = k →
      (enumeratePins H B st h pins config).1.deviceHardware = k
      ∧ ∀ e ∈ (enumeratePins H B st h pins config).2,
          e.candidate.deviceHardware = k
          ∧ ∀ c, e.callback = some c → c.config.deviceHardware = k := by
  intro pins
  induction pins with
  | nil => intro config hk; exact ⟨hk, fun e he => absurd he (by simp [enumeratePins])⟩
  | cons pin rest ih =>
    intro config hk
    unfold enumeratePins
    split
    · exact ih config hk
    · simp only []
      obtain ⟨g1, g2⟩ := handle_kind H B st
        { config with hw := { config.hw with pinNr := pin } } h hI hlen
      obtain ⟨i1, i2⟩ := ih _ (g1.trans hk)
      refine ⟨i1, ?_⟩
      intro e he
      simp only [List.mem_cons] at he
      rcases he with he | he
      · subst he
        exact ⟨hk, fun c hc => (g2 c hc).trans hk⟩
      · exact i2 e he

theorem familyHardware_cases (H : Header) (family : Nat) :
    familyHardware H family = H.DEVICE_HARDWARE_ONEWIRE_TEMP
    ∨ (H.BREWPI_DS2413 = true ∧ familyHardware H family = H.DEVICE_HARDWARE_ONEWIRE_2413)
    ∨ familyHardware H family = H.DEVICE_HARDWARE_NONE := by
  unfold familyHardware
  split
  · rename_i h
    simp only [Bool.and_eq_true] at h
    exact Or.inr (Or.inl ⟨h.1, rfl⟩)
  · split
    · exact Or.inl rfl
    · exact Or.inr (Or.inr rfl)

/-- Every call made by the address loop of `enumerateOneWireDevices` has a
candidate of the kind of a family code (temperature probe, multi-channel io or
none), and its callback record has the kind of the candidate. -/
theorem enumerateAddresses_kind (H : Header) (B : Buses) (st : State) (h : EnumerateHardware)
    (hI : H.isDefinedSlot H.INVALID_SLOT = false) (hlen : st.eeprom.length ≤ 128) :
    ∀ (addresses : List DeviceAddress) (config : DeviceConfig),
      ∀ e ∈ (enumerateAddresses H B st h addresses config).2,
        (e.candidate.deviceHardware = H.DEVICE_HARDWARE_ONEWIRE_TEMP
          ∨ (H.BREWPI_DS2413 = true
              ∧ e.candidate.deviceHardware = H.DEVICE_HARDWARE_ONEWIRE_2413)
          ∨ e.candidate.deviceHardware = H.DEVICE_HARDWARE_NONE)
        ∧ ∀ c, e.callback = some c → c.config.deviceHardware = e.candidate.deviceHardware := by
  intro addresses
  induction addresses with
  | nil => intro config e he; exact absurd he (by simp [enumerateAddresses])
  | cons a rest ih =>
    intro config e he
    unfold enumerateAddresses at he
    simp only [] at he
    split at he
    · simp only [List.mem_cons] at he
      obtain ⟨g1, g2⟩ := handle_kind H B st
        { config with
            hw := { config.hw with address := a, calibration := 0 },
            deviceHardware := familyHardware H (a.headD 0) } h hI hlen
      rcases he with he | he | he
      · subst he
        exact ⟨familyHardware_cases H _, fun c hc => g2 c hc⟩
      · subst he
        obtain ⟨k1, k2⟩ := handle_kind H B st
          { (handleEnumeratedDevice H B st
              { config with
                  hw := { config.hw with address := a, calibration := 0 },
                  deviceHardware := familyHardware H (a.headD 0) } h).1 with
            hw := { (handleEnumeratedDevice H B st
              { config with
                  hw := { config.hw with address := a, calibration := 0 },
                  deviceHardware := familyHardware H (a.headD 0) } h).1.hw with
              calibration := 1 } } h hI hlen
        refine ⟨?_, fun c hc => k2 c hc⟩
        have := familyHardware_cases H (a.headD 0)
        simp only [g1]
        exact this
      · exact ih _ e he
    · simp only [List.mem_cons] at he
      rcases he with he | he
      · subst he
        obtain ⟨g1, g2⟩ := handle_kind H B st
          { config with
              hw := { config.hw with address := a },
              deviceHardware := familyHardware H (a.headD 0) } h hI hlen
        exact ⟨familyHardware_cases H _, fun c hc => g2 c hc⟩
      · exact ih _ e he

theorem enumerateOneWirePins_kind (H : Header) (B : Buses) (st : State) (h : EnumerateHardware)
    (hI : H.isDefinedSlot H.INVALID_SLOT = false) (hlen : st.eeprom.length ≤ 128) :
    ∀ (pins : List Nat), ∀ e ∈ enumerateOneWirePins H B st h pins,
      (e.candidate.deviceHardware = H.DEVICE_HARDWARE_ONEWIRE_TEMP
        ∨ (H.BREWPI_DS2413 = true
            ∧ e.candidate.deviceHardware = H.DEVICE_HARDWARE_ONEWIRE_2413)
        ∨ e.candidate.deviceHardware = H.DEVICE_HARDWARE_NONE)
      ∧ ∀ c, e.callback = some c → c.config.deviceHardware = e.candidate.deviceHardware := by
  intro pins
  induction pins with
  | nil => intro e he; exact absurd he (by simp [enumerateOneWirePins])
  | cons pin rest ih =>
    intro e he
    unfold enumerateOneWirePins at he
    split at he
    · exact ih e he
    · simp only [] at he
      split at he
      · rw [List.mem_append] at he
        rcases he with he | he
        · exact enumerateAddresses_kind H B st h hI hlen _ _ e he
        · exact ih e he
      · exact ih e he

/-- The kind assigned to a recognized family code is temperature probe or
multi-channel io. -/
theorem familyHardware_recognized (H : Header) (family : Nat)
    (hf : family = H.DS18B20MODEL ∨ (H.BREWPI_DS2413 = true ∧ family = H.DS2413_FAMILY_ID)) :
    familyHardware H family = H.DEVICE_HARDWARE_ONEWIRE_TEMP
    ∨ (H.BREWPI_DS2413 = true ∧ familyHardware H family = H.DEVICE_HARDWARE_ONEWIRE_2413) := by
  unfold familyHardware
  split
  · rename_i h
    simp only [Bool.and_eq_true] at h
    exact Or.inr ⟨h.1, rfl⟩
  · rename_i h
    rcases hf with hf | ⟨h1, h2⟩
    · rw [if_pos hf]
      exact Or.inl rfl
    · exact absurd (by simp [h1, h2]) h

/-- When every address the search delivers has a recognized family code, every
call made by the address loop of `enumerateOneWireDevices` has a candidate of
kind temperature probe or multi-channel io, and its callback record has the
kind of the candidate. -/
theorem enumerateAddresses_recognized (H : Header) (B : Buses) (st : State)
    (h : EnumerateHardware) (hI : H.isDefinedSlot H.INVALID_SLOT = false)
    (hlen : st.eeprom.length ≤ 128) :
    ∀ (addresses : List DeviceAddress) (config : DeviceConfig),
      (∀ a ∈ addresses, a.headD 0 = H.DS18B20MODEL
          ∨ (H.BREWPI_DS2413 = true ∧ a.headD 0 = H.DS2413_FAMILY_ID)) →
      ∀ e ∈ (enumerateAddresses H B st h addresses config).2,
        (e.candidate.deviceHardware = H.DEVICE_HARDWARE_ONEWIRE_TEMP
          ∨ (H.BREWPI_DS2413 = true
              ∧ e.candidate.deviceHardware = H.DEVICE_HARDWARE_ONEWIRE_2413))
        ∧ ∀ c, e.callback = some c → c.config.deviceHardware = e.candidate.deviceHardware := by
  intro addresses
  induction addresses with
  | nil => intro config _ e he; exact absurd he (by simp [enumerateAddresses])
  | cons a rest ih =>
    intro config hrec e he
    have ha := familyHardware_recognized H (a.headD 0) (hrec a (List.mem_cons_self _ _))
    have hrest : ∀ x ∈ rest, x.headD 0 = H.DS18B20MODEL
        ∨ (H.BREWPI_DS2413 = true ∧ x.headD 0 = H.DS2413_FAMILY_ID) :=
      fun x hx => hrec x (List.mem_cons_of_mem _ hx)
    unfold enumerateAddresses at he
    simp only [] at he
    split at he
    · simp only [List.mem_cons] at he
      obtain ⟨g1, g2⟩ := handle_kind H B st
        { config with
            hw := { config.hw with address := a, calibration := 0 },
            deviceHardware := familyHardware H (a.headD 0) } h hI hlen
      rcases he with he | he | he
      · subst he
        exact ⟨ha, fun c hc => g2 c hc⟩
      · subst he
        obtain ⟨k1, k2⟩ := handle_kind H B st
          { (handleEnumeratedDevice H B st
              { config with
                  hw := { config.hw with address := a, calibration := 0 },
                  deviceHardware := familyHardware H (a.headD 0) } h).1 with
            hw := { (handleEnumeratedDevice H B st
              { config with
                  hw := { config.hw with address := a, calibration := 0 },
                  deviceHardware := familyHardware H (a.headD 0) } h).1.hw with
              calibration := 1 } } h hI hlen
        refine ⟨?_, fun c hc => k2 c hc⟩
        simp only [g1]
        exact ha
      · exact ih _ hrest e he
    · simp only [List.mem_cons] at he
      rcases he with he | he
      · subst he
        obtain ⟨g1, g2⟩ := handle_kind H B st
          { config with
              hw := { config.hw with address := a },
              deviceHardware := familyHardware H (a.headD 0) } h hI hlen
        exact ⟨ha, fun c hc => g2 c hc⟩
      · exact ih _ hrest e he

theorem enumerateOneWirePins_recognized (H : Header) (B : Buses) (st : State)
    (h : EnumerateHardware) (hI : H.isDefinedSlot H.INVALID_SLOT = false)
    (hlen : st.eeprom.length ≤ 128)
    (hrec : ∀ wire, ∀ a ∈ B.search wire, a.headD 0 = H.DS18B20MODEL
        ∨ (H.BREWPI_DS2413 = true ∧ a.headD 0 = H.DS2413_FAMILY_ID)) :
    ∀ (pins : List Nat), ∀ e ∈ enumerateOneWirePins H B st h pins,
      (e.candidate.deviceHardware = H.DEVICE_HARDWARE_ONEWIRE_TEMP
        ∨ (H.BREWPI_DS2413 = true
            ∧ e.candidate.deviceHardware = H.DEVICE_HARDWARE_ONEWIRE_2413))
      ∧ ∀ c, e.callback = some c → c.config.deviceHardware = e.candidate.deviceHardware := by
  intro pins
  induction pins with
  | nil => intro e he; exact absurd he (by simp [enumerateOneWirePins])
  | cons pin rest ih =>
    intro e he
    unfold enumerateOneWirePins at he
    split at he
    · exact ih e he
    · simp only [] at he
      split at he
      · rw [List.mem_append] at he
        rcases he with he | he
        · exact enumerateAddresses_recognized H B st h hI hlen _ _ (hrec _) e he
        · exact ih e he
      · exact ih e he

/-! ## C15: family classification -/

/-- C15 fails on the code at the pin: on a bus on pin 4 where the search finds a
device of an unrecognized family and then a temperature probe, with sixteen
cleared slots and the default request, the probe is handed on once, with
hardware kind temperature probe and its address, but with pin 0: the
unrecognized device was matched to the cleared slot 0, whose record replaced
the local `config` and with it the pin of the bus. -/
theorem probe_candidate_stale_pin :
    oneWireBus brewpi 4 = some .primaryOneWireBus
    ∧ mixedBus.search .primaryOneWireBus
        = [[0x10, 0x01, 0x02, 0x03, 0x04, 0x05, 0x06, 0x07],
           [0x28, 0xAA, 0xBB, 0xCC, 0xDD, 0xEE, 0xFF, 0x00]]
    ∧ ∃ events, enumerateHardware brewpi mixedBus (allDefault 8 emptySlots) [] = some events
        ∧ (events.filter (fun e =>
              e.candidate.hw.address = [0x28, 0xAA, 0xBB, 0xCC, 0xDD, 0xEE, 0xFF, 0x00])).map
            (fun e => (e.candidate.deviceHardware, e.candidate.hw.pinNr))
          = [(brewpi.DEVICE_HARDWARE_ONEWIRE_TEMP, 0)] :=
  ⟨by decide, rfl, _, rfl, by decide⟩

/-! ## C16: unrecognized devices -/

/-- With no function restriction and no restriction to unused devices,
`handleEnumeratedDevice` always calls the callback. -/
theorem handle_emits (H : Header) (B : Buses) (st : State) (config : DeviceConfig)
    (h : EnumerateHardware) (hf : h.function = 0) (hu : h.unused = 0) :
    (handleEnumeratedDevice H B st config h).2 ≠ none := by
  unfold handleEnumeratedDevice
  simp only [hf, hu, ne_eq, not_true_eq_false, decide_False, Bool.false_and, Bool.false_eq_true,
    if_false]
  split <;> simp

/-- C16 fails on the code: on a bus where the search finds one device of the
unrecognized family 0x10, the default request hands it on as a candidate of
hardware kind none and the callback is called for it, here with the record of
the cleared slot 0 that the candidate is matched to; and on a table without a
slot of kind none the callback is called with the candidate itself. -/
theorem unrecognized_device_emitted :
    (∃ events, enumerateHardware brewpi unknownBus (allDefault 8 emptySlots) [] = some events
      ∧ (events.filter (fun e =>
            e.candidate.hw.address = [0x10, 0x01, 0x02, 0x03, 0x04, 0x05, 0x06, 0x07])).map
          (fun e => (e.candidate.deviceHardware, e.callback.map (fun c => (c.slot, c.config))))
        = [(brewpi.DEVICE_HARDWARE_NONE, some (0, clear))])
    ∧ (∃ events, enumerateHardware brewpi unknownBus (allDefault 8 [heaterPin]) [] = some events
      ∧ (events.filter (fun e =>
            e.candidate.hw.address = [0x10, 0x01, 0x02, 0x03, 0x04, 0x05, 0x06, 0x07])).map
          (fun e => (e.candidate.deviceHardware,
            e.callback.map (fun c => (c.slot, c.config.deviceHardware, c.config.hw.address))))
        = [(brewpi.DEVICE_HARDWARE_NONE,
            some (brewpi.INVALID_SLOT, brewpi.DEVICE_HARDWARE_NONE,
              [0x10, 0x01, 0x02, 0x03, 0x04, 0x05, 0x06, 0x07]))]) :=
  ⟨⟨_, rfl, by decide⟩, ⟨_, rfl, by decide⟩⟩

/-! ## C20: the hardware-kind filter -/

/-- C20, the claim as stated, fails: the request that names the hardware kind
temperature probe, on a bus with a multi-channel io device and a temperature
probe, emits the two channel records of hardware kind multi-channel io before
the probe's record. -/
theorem kind_filter_emits_other_kind :
    ∃ spec events,
      parseJson handleHardwareSpec [("h".toList, "2".toList)] EnumerateHardware.defaults
        = some spec
      ∧ spec.hardware = (brewpi.DEVICE_HARDWARE_ONEWIRE_TEMP : Int)
      ∧ enumerateHardware brewpi channelBus (allDefault 8 emptySlots) [("h".toList, "2".toList)]
          = some events
      ∧ (emitted events).map (fun c => c.config.deviceHardware)
          = [brewpi.DEVICE_HARDWARE_ONEWIRE_2413, brewpi.DEVICE_HARDWARE_ONEWIRE_2413,
             brewpi.DEVICE_HARDWARE_ONEWIRE_TEMP] :=
  ⟨_, _, rfl, by decide, rfl, by decide⟩

/-- C20 as amended: the filter selects the enumeration, not the kind.  With
`any` (-1) both enumerations run, the single-wire one first.  With a kind `k`
only the enumerations of the classes `k` belongs to run: if `k` is not a
single-wire kind every record emitted has hardware kind digital pin; if `k` is
not digital pin no record of kind digital pin is emitted and, every device found
on the buses being of a recognized family, every record emitted has hardware
kind temperature probe or multi-channel io, whichever of the two `k` is; and if
`k` is in neither class nothing is emitted. -/
theorem enumerateHardware_filter (H : Header) (B : Buses) (st : State)
    (request : List (List Char × List Char)) (spec : EnumerateHardware)
    (hp : parseJson handleHardwareSpec request EnumerateHardware.defaults = some spec)
    (hI : H.isDefinedSlot H.INVALID_SLOT = false) (hlen : st.eeprom.length ≤ 128) :
    ∃ events, enumerateHardware H B st request = some events
      ∧ (spec.hardware = -1 →
          events = enumerateOneWireDevices H B st spec ++ enumeratePinDevices H B st spec)
      ∧ (spec.hardware ≠ -1 →
          events =
            (if H.isOneWire (toUInt8 spec.hardware) then enumerateOneWireDevices H B st spec
              else [])
            ++ (if H.isDigitalPin (toUInt8 spec.hardware) then enumeratePinDevices H B st spec
              else [])
          ∧ (H.isOneWire (toUInt8 spec.hardware) = false →
              ∀ c ∈ emitted events, c.config.deviceHardware = H.DEVICE_HARDWARE_PIN)
          ∧ (H.isDigitalPin (toUInt8 spec.hardware) = false →
              (H.Located → H.DEVICE_HARDWARE_PIN ≠ H.DEVICE_HARDWARE_NONE →
                ∀ c ∈ emitted events, c.config.deviceHardware ≠ H.DEVICE_HARDWARE_PIN)
              ∧ ((∀ wire, ∀ a ∈ B.search wire, a.headD 0 = H.DS18B20MODEL
                    ∨ (H.BREWPI_DS2413 = true ∧ a.headD 0 = H.DS2413_FAMILY_ID)) →
                ∀ c ∈ emitted events,
                  c.config.deviceHardware = H.DEVICE_HARDWARE_ONEWIRE_TEMP
                  ∨ (H.BREWPI_DS2413 = true
                      ∧ c.config.deviceHardware = H.DEVICE_HARDWARE_ONEWIRE_2413)))
          ∧ (H.isOneWire (toUInt8 spec.hardware) = false →
              H.isDigitalPin (toUInt8 spec.hardware) = false → events = [])) := by
  have hpin : ∀ c ∈ emitted (enumeratePinDevices H B st spec),
      c.config.deviceHardware = H.DEVICE_HARDWARE_PIN := by
    intro c hc
    unfold emitted at hc
    rw [List.mem_filterMap] at hc
    obtain ⟨e, he, hec⟩ := hc
    unfold enumeratePinDevices at he
    simp only [List.mem_append] at he
    obtain ⟨a1, a2⟩ := enumeratePins_kind H B st spec hI hlen H.DEVICE_HARDWARE_PIN
      H.actuatorPins { clear with deviceHardware := H.DEVICE_HARDWARE_PIN } rfl
    obtain ⟨-, b2⟩ := enumeratePins_kind H B st spec hI hlen H.DEVICE_HARDWARE_PIN
      H.sensorPins _ a1
    rcases he with he | he
    · exact (a2 e he).2 c hec
    · exact (b2 e he).2 c hec
  have hwire : ∀ c ∈ emitted (enumerateOneWireDevices H B st spec),
      c.config.deviceHardware = H.DEVICE_HARDWARE_ONEWIRE_TEMP
      ∨ (H.BREWPI_DS2413 = true ∧ c.config.deviceHardware = H.DEVICE_HARDWARE_ONEWIRE_2413)
      ∨ c.config.deviceHardware = H.DEVICE_HARDWARE_NONE := by
    intro c hc
    unfold emitted at hc
    rw [List.mem_filterMap] at hc
    obtain ⟨e, he, hec⟩ := hc
    obtain ⟨g1, g2⟩ := enumerateOneWirePins_kind H B st spec hI hlen _ e he
    rw [g2 c hec]
    exact g1
  have hrecog : (∀ wire, ∀ a ∈ B.search wire, a.headD 0 = H.DS18B20MODEL
        ∨ (H.BREWPI_DS2413 = true ∧ a.headD 0 = H.DS2413_FAMILY_ID)) →
      ∀ c ∈ emitted (enumerateOneWireDevices H B st spec),
        c.config.deviceHardware = H.DEVICE_HARDWARE_ONEWIRE_TEMP
        ∨ (H.BREWPI_DS2413 = true
            ∧ c.config.deviceHardware = H.DEVICE_HARDWARE_ONEWIRE_2413) := by
    intro hrec c hc
    unfold emitted at hc
    rw [List.mem_filterMap] at hc
    obtain ⟨e, he, hec⟩ := hc
    obtain ⟨g1, g2⟩ := enumerateOneWirePins_recognized H B st spec hI hlen hrec _ e he
    rw [g2 c hec]
    exact g1
  refine ⟨enumerateSpec H B st spec, by simp [enumerateHardware, hp], ?_, ?_⟩
  · intro h
    simp [enumerateSpec, h]
  · intro h
    have e : enumerateSpec H B st spec =
        (if H.isOneWire (toUInt8 spec.hardware) then enumerateOneWireDevices H B st spec
          else [])
        ++ (if H.isDigitalPin (toUInt8 spec.hardware) then enumeratePinDevices H B st spec
          else []) := by
      simp [enumerateSpec, h]
    refine ⟨e, ?_, ?_, ?_⟩
    · intro h1 c hc
      rw [e, h1] at hc
      simp only [Bool.false_eq_true, if_false, List.nil_append] at hc
      split at hc
      · exact hpin c hc
      · simp [emitted] at hc
    · intro h2
      have hsub : ∀ c ∈ emitted (enumerateSpec H B st spec),
          c ∈ emitted (enumerateOneWireDevices H B st spec) := by
        intro c hc
        rw [e, h2] at hc
        simp only [Bool.false_eq_true, if_false, List.append_nil] at hc
        split at hc
        · exact hc
        · simp [emitted] at hc
      refine ⟨?_, ?_⟩
      · intro hL hN c hc hk
        obtain ⟨l1, l2⟩ := hL
        rcases hwire c (hsub c hc) with g | ⟨gf, g⟩ | g
        · exact l1 (hk.symm.trans g)
        · exact (l2 gf).1 (g.symm.trans hk)
        · exact hN (hk.symm.trans g)
      · intro hrec c hc
        exact hrecog hrec c (hsub c hc)
    · intro h1 h2
      rw [e, h1, h2]
      simp

/-- C20 as amended, at concrete inputs: on a bus with a multi-channel io device
and a temperature probe, the request that names the hardware kind digital pin
emits the three pin records only, and the request that names the hardware kind
temperature probe emits no pin record and only records of the kinds temperature
probe and multi-channel io. -/
theorem enumerateHardware_filter_witness :
    parseJson handleHardwareSpec [("h".toList, "1".toList)] EnumerateHardware.defaults
      = some { EnumerateHardware.defaults with hardware := 1 }
    ∧ parseJson handleHardwareSpec [("h".toList, "2".toList)] EnumerateHardware.defaults
      = some { EnumerateHardware.defaults with hardware := 2 }
    ∧ brewpi.isDefinedSlot brewpi.INVALID_SLOT = false
    ∧ brewpi.Located
    ∧ (∃ events,
        enumerateHardware brewpi channelBus (allDefault 8 emptySlots) [("h".toList, "1".toList)]
          = some events
        ∧ (emitted events).length = 3
        ∧ ∀ c ∈ emitted events, c.config.deviceHardware = brewpi.DEVICE_HARDWARE_PIN)
    ∧ (∃ events,
        enumerateHardware brewpi channelBus (allDefault 8 emptySlots) [("h".toList, "2".toList)]
          = some events
        ∧ (emitted events).length = 3
        ∧ (∀ c ∈ emitted events, c.config.deviceHardware ≠ brewpi.DEVICE_HARDWARE_PIN)
        ∧ ∀ c ∈ emitted events,
            c.config.deviceHardware = brewpi.DEVICE_HARDWARE_ONEWIRE_TEMP
            ∨ (brewpi.BREWPI_DS2413 = true
                ∧ c.config.deviceHardware = brewpi.DEVICE_HARDWARE_ONEWIRE_2413)) := by
  obtain ⟨events, he, -, h2⟩ :=
    enumerateHardware_filter brewpi channelBus (allDefault 8 emptySlots)
      [("h".toList, "1".toList)] { EnumerateHardware.defaults with hardware := 1 }
      (by decide) (by decide) (by decide)
  obtain ⟨events2, he2, -, k2⟩ :=
    enumerateHardware_filter brewpi channelBus (allDefault 8 emptySlots)
      [("h".toList, "2".toList)] { EnumerateHardware.defaults with hardware := 2 }
      (by decide) (by decide) (by decide)
  have hrec : ∀ wire, ∀ a ∈ channelBus.search wire, a.headD 0 = brewpi.DS18B20MODEL
      ∨ (brewpi.BREWPI_DS2413 = true ∧ a.headD 0 = brewpi.DS2413_FAMILY_ID) := by
    intro wire a ha
    simp only [channelBus, List.mem_cons, List.mem_singleton, List.not_mem_nil, or_false] at ha
    rcases ha with ha | ha <;> subst ha <;> decide
  have g := (k2 (by decide)).2.2.1 (by decide)
  refine ⟨by decide, by decide, by decide, by decide,
    ⟨events, he, ?_, (h2 (by decide)).2.1 (by decide)⟩,
    ⟨events2, he2, ?_, g.1 (by decide) (by decide), g.2 hrec⟩⟩
  · have e : enumerateHardware brewpi channelBus (allDefault 8 emptySlots)
        [("h".toList, "1".toList)] = some (enumerateSpec brewpi channelBus
          (allDefault 8 emptySlots) { EnumerateHardware.defaults with hardware := 1 }) := rfl
    rw [e] at he
    injection he with he
    rw [← he]
    decide
  · have e : enumerateHardware brewpi channelBus (allDefault 8 emptySlots)
        [("h".toList, "2".toList)] = some (enumerateSpec brewpi channelBus
          (allDefault 8 emptySlots) { EnumerateHardware.defaults with hardware := 2 }) := rfl
    rw [e] at he2
    injection he2 with he2
    rw [← he2]
    decide

/-! ## C17: the wire record -/

theorem hasInvert_iff (H : Header) (hw : Nat) :
    hasInvert H hw = true ↔
      hw = H.DEVICE_HARDWARE_PIN
        ∨ (H.BREWPI_DS2413 = true ∧ hw = H.DEVICE_HARDWARE_ONEWIRE_2413) := by
  simp [hasInvert]

theorem hasOnewire_iff (H : Header) (hw : Nat) :
    hasOnewire H hw = true ↔
      hw = H.DEVICE_HARDWARE_ONEWIRE_TEMP
        ∨ (H.BREWPI_DS2413 = true ∧ hw = H.DEVICE_HARDWARE_ONEWIRE_2413) := by
  simp [hasOnewire, or_comm]

theorem hexChar_digit : ∀ b < 16, hexChar b ∈ "0123456789ABCDEF".toList := by
  decide

theorem printBytes_hex (data : List Nat) :
    (printBytes data 8).length = 16
      ∧ ∀ c ∈ printBytes data 8, c ∈ "0123456789ABCDEF".toList := by
  have h : ∀ n : Nat, hexChar (n % 16) ∈ "0123456789ABCDEF".toList :=
    fun n => hexChar_digit _ (Nat.mod_lt _ (by decide))
  constructor
  · simp [printBytes, List.range_succ]
  · intro c hc
    simp only [printBytes, List.mem_flatMap, List.mem_range] at hc
    obtain ⟨i, -, hi⟩ := hc
    simp only [List.mem_cons, List.mem_singleton, List.not_mem_nil, or_false] at hi
    rcases hi with hi | hi <;> rw [hi] <;> exact h _

/-- The keys of a record by the five conditions: which are present, and none
twice. -/
theorem recordKeys_mem (v x a n j : Bool) :
    (∀ k ∈ "itcbfhdp".toList,
      k ∈ "itcbfhdp".toList ++ (if v then ['v'] else []) ++ (if x then ['x'] else [])
        ++ (if a then ['a'] else []) ++ (if n then ['n'] else []) ++ (if j then ['j'] else []))
    ∧ ('v' ∈ "itcbfhdp".toList ++ (if v then ['v'] else []) ++ (if x then ['x'] else [])
        ++ (if a then ['a'] else []) ++ (if n then ['n'] else []) ++ (if j then ['j'] else [])
        ↔ v = true)
    ∧ ('x' ∈ "itcbfhdp".toList ++ (if v then ['v'] else []) ++ (if x then ['x'] else [])
        ++ (if a then ['a'] else []) ++ (if n then ['n'] else []) ++ (if j then ['j'] else [])
        ↔ x = true)
    ∧ ('a' ∈ "itcbfhdp".toList ++ (if v then ['v'] else []) ++ (if x then ['x'] else [])
        ++ (if a then ['a'] else []) ++ (if n then ['n'] else []) ++ (if j then ['j'] else [])
        ↔ a = true)
    ∧ ('n' ∈ "itcbfhdp".toList ++ (if v then ['v'] else []) ++ (if x then ['x'] else [])
        ++ (if a then ['a'] else []) ++ (if n then ['n'] else []) ++ (if j then ['j'] else [])
        ↔ n = true)
    ∧ ('j' ∈ "itcbfhdp".toList ++ (if v then ['v'] else []) ++ (if x then ['x'] else [])
        ++ (if a then ['a'] else []) ++ (if n then ['n'] else []) ++ (if j then ['j'] else [])
        ↔ j = true)
    ∧ ("itcbfhdp".toList ++ (if v then ['v'] else []) ++ (if x then ['x'] else [])
        ++ (if a then ['a'] else []) ++ (if n then ['n'] else [])
        ++ (if j then ['j'] else [])).Nodup := by
  cases v <;> cases x <;> cases a <;> cases n <;> cases j <;> decide

/-- A record that is not the first is the separator, a line feed and a comma,
followed by what is printed for a first record. -/
theorem printDevice_first (H : Header) (first : Bool) (slot : Int) (config : DeviceConfig)
    (value : Option (List Char)) :
    (printDevice H first slot config value).1
      = (if first then [] else [Token.char '\n', Token.char ','])
        ++ (printDevice H true slot config value).1 := by
  cases first <;> simp [printDevice]

set_option maxHeartbeats 1000000 in
/-- The keys of a printed record, its braces, and the values of its keys, by
the conditions `printDevice` tests. -/
theorem printDevice_read (H : Header) (slot : Int) (config : DeviceConfig)
    (value : Option (List Char)) :
    keysOf (printDevice H true slot config value).1
        = "itcbfhdp".toList
          ++ (if decide (value.getD [] ≠ []) then ['v'] else [])
          ++ (if hasInvert H config.deviceHardware then ['x'] else [])
          ++ (if hasOnewire H config.deviceHardware then ['a'] else [])
          ++ (if H.BREWPI_DS2413 && config.deviceHardware == H.DEVICE_HARDWARE_ONEWIRE_2413
              then ['n'] else [])
          ++ (if decide (config.deviceHardware = H.DEVICE_HARDWARE_ONEWIRE_TEMP) then ['j']
              else [])
    ∧ isObject (printDevice H true slot config value).1 = true
    ∧ valueOf 'i' (printDevice H true slot config value).1 = some [Token.number (toInt8 slot)]
    ∧ valueOf 't' (printDevice H true slot config value).1
        = some [Token.number (toInt8 (H.deviceTypeValue (H.deviceType config.deviceFunction)))]
    ∧ (hasOnewire H config.deviceHardware = true →
        valueOf 'a' (printDevice H true slot config value).1
          = some [Token.literal ['"'], Token.buffer (printBytes config.hw.address 8),
                  Token.char '"']) := by
  unfold printDevice
  generalize hasInvert H config.deviceHardware = bx
  generalize hasOnewire H config.deviceHardware = ba
  generalize (H.BREWPI_DS2413 && config.deviceHardware == H.DEVICE_HARDWARE_ONEWIRE_2413) = bn
  by_cases hj : config.deviceHardware = H.DEVICE_HARDWARE_ONEWIRE_TEMP <;>
  simp only [hj, if_true, if_false, decide_True, decide_False] <;>
  rcases value with _ | _ | ⟨c, s⟩ <;>
  cases bx <;> cases ba <;> cases bn <;>
  simp only [printAttrib, Bool.not_true, Bool.not_false, if_true, if_false, Bool.false_eq_true,
    List.cons_append, List.nil_append, List.append_nil, List.append_assoc, String.toList,
    Option.getD] <;>
  exact ⟨rfl, rfl, rfl, rfl, by first | (intro h; exact False.elim h) | (intro; rfl)⟩

set_option maxHeartbeats 1000000 in
/-- The values printed under the keys that are always present: the chamber, the
beer, the function, the hardware kind, the deactivated flag and the pin of the
config. -/
theorem printDevice_fixed (H : Header) (slot : Int) (config : DeviceConfig)
    (value : Option (List Char)) :
    valueOf 'c' (printDevice H true slot config value).1
        = some [Token.number (toInt8 config.chamber)]
    ∧ valueOf 'b' (printDevice H true slot config value).1
        = some [Token.number (toInt8 config.beer)]
    ∧ valueOf 'f' (printDevice H true slot config value).1
        = some [Token.number (toInt8 config.deviceFunction)]
    ∧ valueOf 'h' (printDevice H true slot config value).1
        = some [Token.number (toInt8 config.deviceHardware)]
    ∧ valueOf 'd' (printDevice H true slot config value).1
        = some [Token.number (if config.hw.deactivate then 1 else 0)]
    ∧ valueOf 'p' (printDevice H true slot config value).1
        = some [Token.number (toInt8 config.hw.pinNr)] := by
  unfold printDevice
  generalize hasInvert H config.deviceHardware = bx
  generalize hasOnewire H config.deviceHardware = ba
  generalize (H.BREWPI_DS2413 && config.deviceHardware == H.DEVICE_HARDWARE_ONEWIRE_2413) = bn
  by_cases hj : config.deviceHardware = H.DEVICE_HARDWARE_ONEWIRE_TEMP <;>
  simp only [hj, if_true, if_false] <;>
  rcases value with _ | _ | ⟨c, s⟩ <;>
  cases bx <;> cases ba <;> cases bn <;>
  simp only [printAttrib, Bool.not_true, Bool.not_false, if_true, if_false, Bool.false_eq_true,
    List.cons_append, List.nil_append, List.append_nil, List.append_assoc, String.toList] <;>
  exact ⟨rfl, rfl, rfl, rfl, rfl, rfl⟩

set_option maxHeartbeats 1000000 in
/-- The value string, when one is supplied and not empty, is what is printed
under the key v. -/
theorem printDevice_value (H : Header) (slot : Int) (config : DeviceConfig)
    (c : Char) (s : List Char) :
    valueOf 'v' (printDevice H true slot config (some (c :: s))).1
      = some [Token.buffer (c :: s)] := by
  unfold printDevice
  generalize hasInvert H config.deviceHardware = bx
  generalize hasOnewire H config.deviceHardware = ba
  generalize (H.BREWPI_DS2413 && config.deviceHardware == H.DEVICE_HARDWARE_ONEWIRE_2413) = bn
  by_cases hj : config.deviceHardware = H.DEVICE_HARDWARE_ONEWIRE_TEMP <;>
  simp only [hj, if_true, if_false] <;>
  cases bx <;> cases ba <;> cases bn <;>
  simp only [printAttrib, Bool.not_true, Bool.not_false, if_true, if_false, Bool.false_eq_true,
    List.cons_append, List.nil_append, List.append_nil, List.append_assoc, String.toList] <;>
  rfl

set_option maxHeartbeats 1000000 in
/-- The invert flag is what is printed under the key x. -/
theorem printDevice_invert (H : Header) (slot : Int) (config : DeviceConfig)
    (value : Option (List Char)) (hx : hasInvert H config.deviceHardware = true) :
    valueOf 'x' (printDevice H true slot config value).1
      = some [Token.number (if config.hw.invert then 1 else 0)] := by
  unfold printDevice
  rw [hx]
  generalize hasOnewire H config.deviceHardware = ba
  generalize (H.BREWPI_DS2413 && config.deviceHardware == H.DEVICE_HARDWARE_ONEWIRE_2413) = bn
  by_cases hj : config.deviceHardware = H.DEVICE_HARDWARE_ONEWIRE_TEMP <;>
  simp only [hj, if_true, if_false] <;>
  rcases value with _ | _ | ⟨c, s⟩ <;>
  cases ba <;> cases bn <;>
  simp only [printAttrib, Bool.not_true, Bool.not_false, if_true, if_false, Bool.false_eq_true,
    List.cons_append, List.nil_append, List.append_nil, List.append_assoc, String.toList] <;>
  rfl

set_option maxHeartbeats 1000000 in
/-- The channel is what is printed under the key n. -/
theorem printDevice_channel (H : Header) (slot : Int) (config : DeviceConfig)
    (value : Option (List Char))
    (hn : (H.BREWPI_DS2413 && config.deviceHardware == H.DEVICE_HARDWARE_ONEWIRE_2413) = true) :
    valueOf 'n' (printDevice H true slot config value).1
      = some [Token.number (toInt8 config.hw.pio)] := by
  unfold printDevice
  rw [hn]
  generalize hasInvert H config.deviceHardware = bx
  generalize hasOnewire H config.deviceHardware = ba
  by_cases hj : config.deviceHardware = H.DEVICE_HARDWARE_ONEWIRE_TEMP <;>
  simp only [hj, if_true, if_false] <;>
  rcases value with _ | _ | ⟨c, s⟩ <;>
  cases bx <;> cases ba <;>
  simp only [printAttrib, Bool.not_true, Bool.not_false, if_true, if_false, Bool.false_eq_true,
    List.cons_append, List.nil_append, List.append_nil, List.append_assoc, String.toList] <;>
  rfl

set_option maxHeartbeats 1000000 in
/-- The calibration, as the text of `tempDiffToString` for the offset shifted to
the scale of a temperature difference, is what is printed under the key j. -/
theorem printDevice_calibration (H : Header) (slot : Int) (config : DeviceConfig)
    (value : Option (List Char))
    (hj : config.deviceHardware = H.DEVICE_HARDWARE_ONEWIRE_TEMP) :
    valueOf 'j' (printDevice H true slot config value).1
      = some [Token.buffer (H.tempDiffToString (config.hw.calibration * 32))] := by
  unfold printDevice
  generalize hasInvert H config.deviceHardware = bx
  generalize hasOnewire H config.deviceHardware = ba
  generalize (H.BREWPI_DS2413 && config.deviceHardware == H.DEVICE_HARDWARE_ONEWIRE_2413) = bn
  simp only [hj, if_true]
  rcases value with _ | _ | ⟨c, s⟩ <;>
  cases bx <;> cases ba <;> cases bn <;>
  simp only [printAttrib, Bool.not_true, Bool.not_false, if_true, if_false, Bool.false_eq_true,
    List.cons_append, List.nil_append, List.append_nil, List.append_assoc, String.toList] <;>
  rfl

/-- C17: the record `printDevice` prints for a slot, a config and a value
string is, after the separator of a record that is not the first, one
brace-delimited object.  Its keys hold i, t, c, b, f, h, d and p, with the
index under i, the device type of the function under t, and the chamber, beer,
function, hardware kind, deactivated flag and pin of the config under c, b, f,
h, d and p; x, with the invert flag, if and only if the hardware is digital pin
or (in a build with that support) multi-channel io; a if and only if the
hardware is temperature probe or multi-channel io, its value the 16 hex digits
of the 8 address bytes in quotes; n, with the channel, if and only if the
hardware is multi-channel io; j, with the text of the calibration, if and only
if the hardware is temperature probe; v, with the value string, if and only if
a non-empty value string was supplied; and no key twice. -/
theorem printDevice_format (H : Header) (first : Bool) (slot : Int) (config : DeviceConfig)
    (value : Option (List Char)) :
    ∃ object,
      (printDevice H first slot config value).1
        = (if first then [] else [Token.char '\n', Token.char ',']) ++ object
      ∧ isObject object = true
      ∧ (∀ k ∈ "itcbfhdp".toList, k ∈ keysOf object)
      ∧ valueOf 'i' object = some [Token.number (toInt8 slot)]
      ∧ valueOf 't' object
          = some [Token.number (toInt8 (H.deviceTypeValue (H.deviceType config.deviceFunction)))]
      ∧ valueOf 'c' object = some [Token.number (toInt8 config.chamber)]
      ∧ valueOf 'b' object = some [Token.number (toInt8 config.beer)]
      ∧ valueOf 'f' object = some [Token.number (toInt8 config.deviceFunction)]
      ∧ valueOf 'h' object = some [Token.number (toInt8 config.deviceHardware)]
      ∧ valueOf 'd' object = some [Token.number (if config.hw.deactivate then 1 else 0)]
      ∧ valueOf 'p' object = some [Token.number (toInt8 config.hw.pinNr)]
      ∧ ('x' ∈ keysOf object ↔
          config.deviceHardware = H.DEVICE_HARDWARE_PIN
            ∨ (H.BREWPI_DS2413 = true
                ∧ config.deviceHardware = H.DEVICE_HARDWARE_ONEWIRE_2413))
      ∧ ('x' ∈ keysOf object →
          valueOf 'x' object = some [Token.number (if config.hw.invert then 1 else 0)])
      ∧ ('a' ∈ keysOf object ↔
          config.deviceHardware = H.DEVICE_HARDWARE_ONEWIRE_TEMP
            ∨ (H.BREWPI_DS2413 = true
                ∧ config.deviceHardware = H.DEVICE_HARDWARE_ONEWIRE_2413))
      ∧ ('a' ∈ keysOf object →
          valueOf 'a' object
            = some [Token.literal ['"'], Token.buffer (printBytes config.hw.address 8),
                    Token.char '"']
          ∧ (printBytes config.hw.address 8).length = 16
          ∧ ∀ c ∈ printBytes config.hw.address 8, c ∈ "0123456789ABCDEF".toList)
      ∧ ('n' ∈ keysOf object ↔
          H.BREWPI_DS2413 = true ∧ config.deviceHardware = H.DEVICE_HARDWARE_ONEWIRE_2413)
      ∧ ('n' ∈ keysOf object → valueOf 'n' object = some [Token.number (toInt8 config.hw.pio)])
      ∧ ('j' ∈ keysOf object ↔ config.deviceHardware = H.DEVICE_HARDWARE_ONEWIRE_TEMP)
      ∧ ('j' ∈ keysOf object →
          valueOf 'j' object
            = some [Token.buffer (H.tempDiffToString (config.hw.calibration * 32))])
      ∧ ('v' ∈ keysOf object ↔ ∃ c s, value = some (c :: s))
      ∧ (∀ c s, value = some (c :: s) → valueOf 'v' object = some [Token.buffer (c :: s)])
      ∧ (keysOf object).Nodup := by
  obtain ⟨hk, ho, hi, ht, ha⟩ := printDevice_read H slot config value
  obtain ⟨vc, vb, vf, vh, vd, vp⟩ := printDevice_fixed H slot config value
  have hx := hasInvert_iff H config.deviceHardware
  have hw := hasOnewire_iff H config.deviceHardware
  have hv : decide (value.getD [] ≠ []) = true ↔ ∃ c s, value = some (c :: s) := by
    rcases value with _ | _ | ⟨c, s⟩ <;> simp
  have hn : (H.BREWPI_DS2413 && config.deviceHardware == H.DEVICE_HARDWARE_ONEWIRE_2413) = true
      ↔ H.BREWPI_DS2413 = true ∧ config.deviceHardware = H.DEVICE_HARDWARE_ONEWIRE_2413 := by
    simp
  have key := recordKeys_mem (decide (value.getD [] ≠ [])) (hasInvert H config.deviceHardware)
    (hasOnewire H config.deviceHardware)
    (H.BREWPI_DS2413 && config.deviceHardware == H.DEVICE_HARDWARE_ONEWIRE_2413)
    (decide (config.deviceHardware = H.DEVICE_HARDWARE_ONEWIRE_TEMP))
  rw [← hk] at key
  obtain ⟨kall, kv, kx, ka, kn, kj, knd⟩ := key
  have hvv : ∀ c s, value = some (c :: s) →
      valueOf 'v' (printDevice H true slot config value).1 = some [Token.buffer (c :: s)] := by
    intro c s e
    subst e
    exact printDevice_value H slot config c s
  exact ⟨_, printDevice_first H first slot config value, ho, kall, hi, ht, vc, vb, vf, vh, vd, vp,
    kx.trans hx, fun h => printDevice_invert H slot config value (kx.1 h),
    ka.trans hw, fun h => ⟨ha (ka.1 h), printBytes_hex _⟩,
    kn.trans hn, fun h => printDevice_channel H slot config value (kn.1 h),
    kj.trans decide_eq_true_iff,
    fun h => printDevice_calibration H slot config value (decide_eq_true_iff.1 (kj.1 h)),
    kv.trans hv, hvv, knd⟩

/-! ## C19: conflicts between slots -/

/-- C19 fails on the code: with the chamber heater of slot 0 installed, the
request that makes slot 1 a heater of the same chamber is accepted by
`isDeviceValid` and stored, so slots 0 and 1 define the same function for the
same chamber and beer; and with a beer sensor on a probe in slot 2, the request
that puts the probe of the same address in slot 0 for another beer is accepted
and stored as well.  Both tables were free of conflicts before. -/
theorem conflicting_update_accepted :
    (∃ out, parseDeviceDefinition brewpi secondHeaterRequest clear heaterInstalled = some out
      ∧ out.printed = some (1, secondHeater)
      ∧ isDeviceValid brewpi secondHeater clear 1 = true
      ∧ out.state.eeprom.take 2 = [heaterPin, secondHeater]
      ∧ conflicts brewpi secondHeater heaterPin = true
      ∧ (∀ j < 16, conflictFree brewpi heaterInstalled.eeprom j = true)
      ∧ conflictFree brewpi out.state.eeprom 1 = false)
    ∧ (∃ out,
        parseDeviceDefinition brewpi secondProbeRequest clear (allDefault 8 probeSlots) = some out
      ∧ out.printed = some (0, secondProbe)
      ∧ isDeviceValid brewpi secondProbe clear 0 = true
      ∧ out.state.eeprom.take 3 = [secondProbe, clear, beerProbe]
      ∧ conflicts brewpi secondProbe beerProbe = true
      ∧ (∀ j < 16, conflictFree brewpi (allDefault 8 probeSlots).eeprom j = true)
      ∧ conflictFree brewpi out.state.eeprom 0 = false) :=
  ⟨⟨_, rfl, by decide, by decide, by decide, by decide, by decide, by decide⟩,
   ⟨_, rfl, by decide, by decide, by decide, by decide, by decide, by decide⟩⟩

/-! ## C21: candidates that match no slot -/

/-- C21 fails on the code after a match.  With the heater on pin 6 stored in slot
0, the enumeration of the digital pins 5, 6 and 7 emits pin 5 as the minimal
record, pin 6 as the stored record of slot 0, and pin 7, which matches no slot,
as the stored heater record with the pin changed: function heat and chamber 1
instead of none and 0.  On the table without the heater pin 7 is emitted as
the minimal record.  Likewise on a bus: after the probe stored in slot 0, a
second probe that matches no slot is emitted with the function, beer and
calibration of slot 0. -/
theorem unmatched_candidate_keeps_stored_fields :
    (∃ events, enumerateHardware brewpi unknownBus (allDefault 8 heaterSlots)
          [("h".toList, "1".toList)] = some events
      ∧ (emitted events).map (fun c => (c.slot, c.config))
          = [(brewpi.INVALID_SLOT, minimalPin brewpi 5), (0, heaterPin),
             (brewpi.INVALID_SLOT, { heaterPin with hw := { heaterPin.hw with pinNr := 7 } })]
      ∧ findHardwareDevice brewpi (minimalPin brewpi 7) (allDefault 8 heaterSlots)
          = brewpi.INVALID_SLOT
      ∧ { heaterPin with hw := { heaterPin.hw with pinNr := 7 } } ≠ minimalPin brewpi 7)
    ∧ (∃ events, enumerateHardware brewpi unknownBus (allDefault 8 emptySlots)
          [("h".toList, "1".toList)] = some events
      ∧ (emitted events).map (fun c => (c.slot, c.config))
          = [(brewpi.INVALID_SLOT, minimalPin brewpi 5),
             (brewpi.INVALID_SLOT, minimalPin brewpi 6),
             (brewpi.INVALID_SLOT, minimalPin brewpi 7)])
    ∧ (∃ events, enumerateHardware brewpi twoProbeBus (allDefault 8 calibratedSlots)
          [("h".toList, "2".toList)] = some events
      ∧ (emitted events).map (fun c => (c.slot, c.config))
          = [(0, printedProbe),
             (brewpi.INVALID_SLOT,
              { printedProbe with
                hw := { printedProbe.hw with
                        address := [0x28, 0x11, 0x22, 0x33, 0x44, 0x55, 0x66, 0x77] } })]
      ∧ printedProbe.deviceFunction = brewpi.DEVICE_BEER_TEMP
      ∧ printedProbe.beer = 1 ∧ printedProbe.hw.calibration = -3) :=
  ⟨⟨_, rfl, by decide, by decide, by decide⟩, ⟨_, rfl, by decide⟩,
   ⟨_, rfl, by decide, by decide, by decide, by decide⟩⟩

/-! ## C22: the hex text of an address -/

theorem hexDigit_hexChar : ∀ n < 16, hexDigit (hexChar n) = (n : Int) := by
  decide

set_option maxRecDepth 100000 in
theorem byte_of_nibbles : ∀ b < 256,
    toUInt8 (((b / 16 % 16 : Nat) : Int) * 16) ||| toUInt8 ((b % 16 : Nat) : Int) = b := by
  decide

/-- What `parseBytes` reads back from the two characters `printBytes` writes
for each byte. -/
theorem parseBytes_hex (l : List Nat) (hb : ∀ b ∈ l, b < 256) :
    parseBytes (l.flatMap (fun b => [hexChar (b / 16 % 16), hexChar (b % 16)])) = some l := by
  induction l with
  | nil => rfl
  | cons b l ih =>
    have h1 : b < 256 := hb b (List.mem_cons_self _ _)
    have h2 := ih (fun x hx => hb x (List.mem_cons_of_mem _ hx))
    have e : (b :: l).flatMap (fun b => [hexChar (b / 16 % 16), hexChar (b % 16)])
        = hexChar (b / 16 % 16) :: hexChar (b % 16)
          :: l.flatMap (fun b => [hexChar (b / 16 % 16), hexChar (b % 16)]) := rfl
    rw [e]
    simp only [parseBytes, h2]
    rw [hexDigit_hexChar _ (Nat.mod_lt _ (by decide)),
      hexDigit_hexChar _ (Nat.mod_lt _ (by decide)), byte_of_nibbles b h1]

/-- For an address of eight bytes `printBytes` visits the bytes in order. -/
theorem printBytes_eight (a : List Nat) (hl : a.length = 8) :
    printBytes a 8 = a.flatMap (fun b => [hexChar (b / 16 % 16), hexChar (b % 16)]) := by
  match a, hl with
  | [a0, a1, a2, a3, a4, a5, a6, a7], _ => rfl

/-- C22: for every address of eight bytes `printBytes` writes 16 characters, each
one of 0-9 and A-F, and `parseBytes` reads exactly the eight bytes back from
them; as the value of key a in a patch they become the address of the patch. -/
theorem printBytes_parseBytes (a : List Nat) (hl : a.length = 8) (hb : ∀ b ∈ a, b < 256) :
    (printBytes a 8).length = 16
    ∧ (∀ c ∈ printBytes a 8, c ∈ "0123456789ABCDEF".toList)
    ∧ parseBytes (printBytes a 8) = some a
    ∧ ∀ (H : Header) (dev : DeviceDefinition), dev.address.length = 8 →
        handleDeviceDefinition H "a".toList (printBytes a 8) dev
          = some { dev with address := a } := by
  have hp : parseBytes (printBytes a 8) = some a := by
    rw [printBytes_eight a hl]
    exact parseBytes_hex a hb
  refine ⟨(printBytes_hex a).1, (printBytes_hex a).2, hp, ?_⟩
  intro H dev hd
  have hdrop : dev.address.drop a.length = [] := by
    rw [hl, List.drop_eq_nil_iff]
    omega
  simp [handleDeviceDefinition, hp, hl, hd, hdrop, DEVICE_ATTRIB_ADDRESS]

/-- C22 at a concrete input: the address of the sample probe. -/
theorem printBytes_parseBytes_witness :
    printBytes [0x28, 0xAA, 0xBB, 0xCC, 0xDD, 0xEE, 0xFF, 0x00] 8 = "28AABBCCDDEEFF00".toList
    ∧ parseBytes "28AABBCCDDEEFF00".toList
        = some [0x28, 0xAA, 0xBB, 0xCC, 0xDD, 0xEE, 0xFF, 0x00] := by
  have h := printBytes_parseBytes [0x28, 0xAA, 0xBB, 0xCC, 0xDD, 0xEE, 0xFF, 0x00] rfl
    (by decide)
  have e : printBytes [0x28, 0xAA, 0xBB, 0xCC, 0xDD, 0xEE, 0xFF, 0x00] 8
      = "28AABBCCDDEEFF00".toList := by decide
  refine ⟨e, ?_⟩
  rw [← e]
  exact h.2.2.1

/-! ## C23: the slot-id guard -/

/-- C23 fails on the code at the id `MAX_DEVICE_SLOT`: on a table of
`MAX_DEVICE_SLOT` (sixteen) records the request with id 16 passes the range
check, the fetch of `original` fails, and the merge works on what the local held
before.  With a valid heater record there, the update is accepted: the heater is
installed from a record that was never read from the store, and the store
stays as it was.  The same holds when the request supplies the whole record.
The id 17 is rejected by the check. -/
theorem slot_guard_admits_limit :
    emptySlots.length = brewpi.MAX_DEVICE_SLOT
    ∧ (∃ dev o, parseJson (handleDeviceDefinition brewpi) lastSlotOnlyRequest fill = some dev
        ∧ dev.id = 16
        ∧ inRangeInt8 dev.id 0 (toInt8 brewpi.MAX_DEVICE_SLOT) = true
        ∧ fetchDevice (allDefault 8 emptySlots) (toUInt8 dev.id) = none
        ∧ fetchOriginal (allDefault 8 emptySlots) dev heaterPin = heaterPin
        ∧ parseDeviceDefinition brewpi lastSlotOnlyRequest heaterPin (allDefault 8 emptySlots)
            = some o
        ∧ o.printed = some (16, heaterPin)
        ∧ o.state.tempControl.heater = .device (.heap 0)
        ∧ o.state.heap.objects = [(0, .DigitalPinActuator 6 false)]
        ∧ o.state.eeprom = emptySlots)
    ∧ (∃ o, parseDeviceDefinition brewpi lastSlotRequest clear (allDefault 8 emptySlots) = some o
        ∧ o.printed = some (16, heaterPin)
        ∧ o.state.tempControl.heater = .device (.heap 0)
        ∧ o.state.eeprom = emptySlots)
    ∧ parseDeviceDefinition brewpi [("i".toList, "17".toList)] heaterPin
        (allDefault 8 emptySlots)
        = some { state := allDefault 8 emptySlots, printed := none } :=
  ⟨by decide,
   ⟨_, _, rfl, by decide, by decide, by decide, by decide, rfl, by decide, by decide,
     by decide, by decide⟩,
   ⟨_, rfl, by decide, by decide, by decide⟩, by decide⟩

/-! ## C24: the category of the created instance -/

/-- C24 fails on the code for a switch sensor on a multi-channel io.  On a
platform whose whitelist allows the pair, the door switch on channel 0 passes
`isDeviceValid`, its device type is switch sensor, and `createDevice` builds a
`OneWireActuator` for it, as for every device type; the update binds that
actuator to `door`, the target of a switch sensor.  For the door switch on a
digital pin `createDevice` tests the device type and builds a
`DigitalPinSensor`. -/
theorem switch_sensor_on_channel_is_actuator :
    brewpiSense.Wired
    ∧ brewpiSense.deviceType doorChannel.deviceFunction = .DEVICETYPE_SWITCH_SENSOR
    ∧ isDeviceValid brewpiSense doorChannel clear 0 = true
    ∧ createDevice brewpiSense doorChannel .DEVICETYPE_SWITCH_SENSOR
        (allDefault 8 emptySlots).heap
        = (.heap 0,
           { objects := [(0, .OneWireActuator (some .primaryOneWireBus)
                              [0x3A, 0xAA, 0xBB, 0xCC, 0xDD, 0xEE, 0xFF, 0x00] 0 false)],
             next := 1, room := 7, released := [] })
    ∧ (Device.OneWireActuator (some .primaryOneWireBus)
          [0x3A, 0xAA, 0xBB, 0xCC, 0xDD, 0xEE, 0xFF, 0x00] 0 false).category
        = .DEVICETYPE_SWITCH_ACTUATOR
    ∧ (∃ o, parseDeviceDefinition brewpiSense doorChannelRequest clear
              (allDefault 8 emptySlots) = some o
        ∧ o.printed = some (0, doorChannel)
        ∧ o.state.tempControl.door = .device (.heap 0)
        ∧ Target.door.type = .DEVICETYPE_SWITCH_SENSOR
        ∧ (o.state.heap.objects.lookup 0).map Device.category
            = some .DEVICETYPE_SWITCH_ACTUATOR)
    ∧ (∃ o, parseDeviceDefinition brewpiSense doorRequest clear (allDefault 8 emptySlots)
              = some o
        ∧ o.state.tempControl.door = .device (.heap 0)
        ∧ (o.state.heap.objects.lookup 0).map Device.category
            = some .DEVICETYPE_SWITCH_SENSOR) :=
  ⟨by decide, by decide, by decide, by decide, by decide,
   ⟨_, rfl, by decide, by decide, by decide, by decide⟩,
   ⟨_, rfl, by decide, by decide⟩⟩

/-! ## C25: the calibration offset of a patch -/

/-- C25 fails on the code at the offset -1/16 degree: its encoding, -1, is the
sentinel the patch is filled with, so the request with that offset parses to the
same patch as the request without the key, and the valid update keeps the
stored calibration, -3, where the claim has -1.  The offset -1/8 degree,
encoded -2, is applied. -/
theorem calibration_sentinel_dropped :
    brewpiDecimal.stringToTempDiff "-0.0625".toList = -32
    ∧ fetchDevice (allDefault 8 calibratedSlots) 0 = some printedProbe
    ∧ printedProbe.hw.calibration = -3
    ∧ parseJson (handleDeviceDefinition brewpiDecimal) sixteenthRequest fill
        = some { fill with id := 0, calibrationAdjust := -1 }
    ∧ parseJson (handleDeviceDefinition brewpiDecimal) sixteenthRequest fill
        = parseJson (handleDeviceDefinition brewpiDecimal) [("i".toList, "0".toList)] fill
    ∧ (∃ o, parseDeviceDefinition brewpiDecimal sixteenthRequest clear
              (allDefault 8 calibratedSlots) = some o
        ∧ o.printed = some (0, printedProbe)
        ∧ (o.state.eeprom.map (fun c => c.hw.calibration)).take 1 = [-3]
        ∧ o.state.heap.objects
            = [(0, .OneWireTempSensor (some .primaryOneWireBus) printedProbe.hw.address (-3))])
    ∧ (∃ o, parseDeviceDefinition brewpiDecimal eighthRequest clear
              (allDefault 8 calibratedSlots) = some o
        ∧ (o.state.eeprom.map (fun c => c.hw.calibration)).take 1 = [-2]) :=
  ⟨by decide, by decide, by decide, by decide, by decide,
   ⟨_, rfl, by decide, by decide, by decide⟩, ⟨_, rfl, by decide⟩⟩

end DeviceManager
